import Mathlib

/-!
File-sharing server: wire codec, validation helpers and session engine

A shallow embedding of `include/protocol.h`, `src/file_manager.cpp` and
`src/client_handler.cpp`.

Conventions of the embedding

* A byte is a `Nat` (intended range `0 .. 255`); a `std::string` and a
  `std::vector<uint8_t>` are `List Nat`.
* `size_t` and `uint64_t` are 64 bits wide, `uint32_t` 32 bits: arithmetic that
  is stored in such a variable is reduced modulo `2^64` / `2^32`.
* A buffer that is only read (`const uint8_t* buffer`) is a function
  `Nat → Nat` giving the byte found at `buffer[i]`, for every `i`, together
  with the separate `bufferSize` argument of the C++ signature.  Every decoder
  returns, next to its result, the list of indices it read, so that reads
  beyond `bufferSize` are visible.
* A buffer that is written is the list of its `bufferSize` bytes.
-/

namespace Protocol

def MAGIC_NUMBER : Nat := 0x4653
def PROTOCOL_VERSION : Nat := 1
def MAX_FILENAME_LENGTH : Nat := 255
def MAX_FILE_SIZE : Nat := 1024 * 1024 * 1024
def MAX_PASSWORD_LENGTH : Nat := 128
def CONNECTION_TIMEOUT_SECONDS : Int := 300

def MSG_CONNECT_REQUEST : Nat := 0x01
def MSG_CONNECT_RESPONSE : Nat := 0x02
def MSG_LIST_FILES : Nat := 0x03
def MSG_FILE_LIST_RESPONSE : Nat := 0x04
def MSG_UPLOAD_REQUEST : Nat := 0x05
def MSG_UPLOAD_DATA : Nat := 0x06
def MSG_UPLOAD_COMPLETE : Nat := 0x07
def MSG_DOWNLOAD_REQUEST : Nat := 0x08
def MSG_DOWNLOAD_DATA : Nat := 0x09
def MSG_DOWNLOAD_COMPLETE : Nat := 0x0A
def MSG_DELETE_REQUEST : Nat := 0x0B
def MSG_DELETE_RESPONSE : Nat := 0x0C
def MSG_ERROR_RESPONSE : Nat := 0xFE
def MSG_DISCONNECT : Nat := 0xFF

def STATUS_OK : Nat := 0x00
def STATUS_ERROR : Nat := 0x01
def STATUS_FILE_NOT_FOUND : Nat := 0x02
def STATUS_ACCESS_DENIED : Nat := 0x03
def STATUS_INVALID_REQUEST : Nat := 0x04
def STATUS_FILE_EXISTS : Nat := 0x05

/-- The fixed 8-byte header: `uint16_t`, `uint8_t`, `uint8_t`, `uint32_t`. -/
structure MessageHeader where
  magicNumber : Nat
  version : Nat
  messageType : Nat
  payloadLength : Nat
  deriving DecidableEq, Repr

/-- The default constructor `MessageHeader()`. -/
def MessageHeader.default : MessageHeader :=
  { magicNumber := MAGIC_NUMBER, version := PROTOCOL_VERSION, messageType := 0, payloadLength := 0 }

/-- The constructor `MessageHeader(uint8_t type, uint32_t length)`. -/
def MessageHeader.ofType (type length : Nat) : MessageHeader :=
  { magicNumber := MAGIC_NUMBER, version := PROTOCOL_VERSION, messageType := type,
    payloadLength := length }

structure FileInfo where
  filename : List Nat
  fileSize : Nat
  timestamp : Nat
  deriving DecidableEq, Repr

/-- The default constructor `FileInfo()`. -/
def FileInfo.default : FileInfo := { filename := [], fileSize := 0, timestamp := 0 }

end Protocol

open Protocol

/-- The width of `size_t` and of `uint64_t`. -/
def SIZE_MOD : Nat := 2 ^ 64

/-- The width of `uint32_t`. -/
def U32_MOD : Nat := 2 ^ 32

/-- Unsigned `size_t` subtraction `a - b`, which wraps around below zero. -/
def sizeSub (a b : Nat) : Nat := (a + SIZE_MOD - b % SIZE_MOD) % SIZE_MOD

/-- The two bytes that `htons(v)` followed by `memcpy` puts in memory: most significant first. -/
def storeNet16 (v : Nat) : List Nat := [v / 256 % 256, v % 256]

/-- The four bytes that `htonl(v)` followed by `memcpy` puts in memory: most significant first. -/
def storeNet32 (v : Nat) : List Nat :=
  [v / 16777216 % 256, v / 65536 % 256, v / 256 % 256, v % 256]

/-- The `uint16_t` obtained by `memcpy` of two bytes followed by `ntohs`. -/
def loadNet16 (buffer : Nat → Nat) : Nat := (buffer 0 * 256 + buffer 1) % 65536

/-- The `uint32_t` obtained by `memcpy` of four bytes followed by `ntohl`. -/
def loadNet32 (buffer : Nat → Nat) : Nat :=
  (buffer 0 * 16777216 + buffer 1 * 65536 + buffer 2 * 256 + buffer 3) % U32_MOD

/-- The effect of `std::memcpy(buffer + offset, src, src.length)` on a written buffer. -/
def memcpy (buffer : List Nat) (offset : Nat) (src : List Nat) : List Nat :=
  buffer.take offset ++ src ++ buffer.drop (offset + src.length)

/-- Pointer arithmetic on a read buffer: `buffer + offset`. -/
def advance (buffer : Nat → Nat) (offset : Nat) : Nat → Nat := fun i => buffer (offset + i)

/-- The bytes `buffer[0 .. n-1]`, as `std::string::assign(buffer, n)` copies them. -/
def readBytes (buffer : Nat → Nat) (n : Nat) : List Nat := (List.range n).map buffer

namespace ProtocolHelper

/-- The function `serializeHeader(header, buffer, bufferSize)`, with `bufferSize = buffer.length`.
Returns the `bool` result and the buffer afterwards. -/
def serializeHeader (header : MessageHeader) (buffer : List Nat) : Bool × List Nat :=
  if buffer.length < 8 then (false, buffer)
  else
    let b1 := memcpy buffer 0 (storeNet16 header.magicNumber)
    let b2 := b1.set 2 header.version
    let b3 := b2.set 3 header.messageType
    let b4 := memcpy b3 4 (storeNet32 header.payloadLength)
    (true, b4)

/-- Result of `deserializeHeader`: the `bool`, the `header` out-parameter afterwards,
and the indices of `buffer` that were read. -/
structure HeaderDecode where
  ok : Bool
  header : MessageHeader
  reads : List Nat
  deriving DecidableEq, Repr

/-- The function `deserializeHeader(buffer, bufferSize, header)`. -/
def deserializeHeader (buffer : Nat → Nat) (bufferSize : Nat) (header : MessageHeader) :
    HeaderDecode :=
  if bufferSize < 8 then { ok := false, header := header, reads := [] }
  else
    let header1 : MessageHeader :=
      { magicNumber := loadNet16 buffer, version := buffer 2, messageType := buffer 3,
        payloadLength := loadNet32 (advance buffer 4) }
    let reads := [0, 1, 2, 3, 4, 5, 6, 7]
    if header1.magicNumber ≠ MAGIC_NUMBER then { ok := false, header := header1, reads := reads }
    else { ok := true, header := header1, reads := reads }

/-- The function `serializeString(str, buffer, bufferSize)`, with `bufferSize = buffer.length`.
Returns the `size_t` result and the buffer afterwards. -/
def serializeString (str : List Nat) (buffer : List Nat) : Nat × List Nat :=
  let length := str.length % U32_MOD
  let totalSize := (4 + length) % SIZE_MOD
  if buffer.length < totalSize then (0, buffer)
  else
    let b1 := memcpy buffer 0 (storeNet32 length)
    let b2 := memcpy b1 4 (str.take length)
    (totalSize, b2)

/-- Result of `deserializeString`: the `bool`, the out-parameters `str` and `bytesRead`
afterwards, and the indices of `buffer` that were read. -/
structure StringDecode where
  ok : Bool
  str : List Nat
  bytesRead : Nat
  reads : List Nat
  deriving DecidableEq, Repr

/-- The function `deserializeString(buffer, bufferSize, str, bytesRead)`. -/
def deserializeString (buffer : Nat → Nat) (bufferSize : Nat) (str : List Nat) (bytesRead : Nat) :
    StringDecode :=
  if bufferSize < 4 then { ok := false, str := str, bytesRead := bytesRead, reads := [] }
  else
    let length := loadNet32 buffer
    if bufferSize < (4 + length) % SIZE_MOD then
      { ok := false, str := str, bytesRead := bytesRead, reads := [0, 1, 2, 3] }
    else
      { ok := true
        str := readBytes (advance buffer 4) length
        bytesRead := (4 + length) % SIZE_MOD
        reads := [0, 1, 2, 3] ++ (List.range length).map (4 + ·) }

/-- One round of the loop of `serializeUint64`: byte `7 - i` of the output. -/
def uint64Byte (value : Nat) (i : Nat) : Nat := (value >>> (i * 8)) &&& 0xFF

/-- The function `serializeUint64(value, buffer)`: the eight bytes written at `buffer[0 .. 7]`
(`i` runs from 7 down to 0 and writes `buffer[7 - i]`). -/
def serializeUint64 (value : Nat) : List Nat :=
  [7, 6, 5, 4, 3, 2, 1, 0].map (uint64Byte value)

/-- Result of `deserializeUint64`: the value and the indices of `buffer` that were read. -/
structure Uint64Decode where
  value : Nat
  reads : List Nat
  deriving DecidableEq, Repr

/-- The function `deserializeUint64(buffer)`: no size is passed and none is checked. -/
def deserializeUint64 (buffer : Nat → Nat) : Uint64Decode :=
  { value := (List.range 8).foldl
      (fun value i => value ||| ((buffer i <<< ((7 - i) * 8)) % SIZE_MOD)) 0
    reads := List.range 8 }

/-- The function `serializeFileInfo(fileInfo, buffer, bufferSize)`, with
`bufferSize = buffer.length`. Returns the `size_t` result and the buffer afterwards. The first
call is made at `offset = 0`, that is on `buffer` and `bufferSize` themselves. -/
def serializeFileInfo (fileInfo : FileInfo) (buffer : List Nat) : Nat × List Nat :=
  let bufferSize := buffer.length
  let r := serializeString fileInfo.filename buffer
  if r.1 = 0 then (0, r.2)
  else
    let offset1 := r.1
    if sizeSub bufferSize offset1 < 8 then (0, r.2)
    else
      let buffer2 := memcpy r.2 offset1 (serializeUint64 fileInfo.fileSize)
      let offset2 := (offset1 + 8) % SIZE_MOD
      if sizeSub bufferSize offset2 < 8 then (0, buffer2)
      else
        let buffer3 := memcpy buffer2 offset2 (serializeUint64 fileInfo.timestamp)
        let offset3 := (offset2 + 8) % SIZE_MOD
        (offset3, buffer3)

/-- Result of `deserializeFileInfo`: the `bool`, the out-parameters `fileInfo` and `bytesRead`
afterwards, and the indices of `buffer` that were read. -/
structure FileInfoDecode where
  ok : Bool
  fileInfo : FileInfo
  bytesRead : Nat
  reads : List Nat
  deriving DecidableEq, Repr

/-- The function `deserializeFileInfo(buffer, bufferSize, fileInfo, bytesRead)`. The local
`strBytes` is uninitialised before the call to `deserializeString`; it is only used when that
call succeeded. The first call is made at `offset = 0`, that is on `buffer` and `bufferSize`
themselves. -/
def deserializeFileInfo (buffer : Nat → Nat) (bufferSize : Nat) (fileInfo : FileInfo)
    (bytesRead : Nat) : FileInfoDecode :=
  let r := deserializeString buffer bufferSize fileInfo.filename 0
  let fileInfo1 := { fileInfo with filename := r.str }
  if !r.ok then { ok := false, fileInfo := fileInfo1, bytesRead := bytesRead, reads := r.reads }
  else
    let offset1 := r.bytesRead
    if sizeSub bufferSize offset1 < 8 then
      { ok := false, fileInfo := fileInfo1, bytesRead := bytesRead, reads := r.reads }
    else
      let u1 := deserializeUint64 (advance buffer offset1)
      let fileInfo2 := { fileInfo1 with fileSize := u1.value }
      let reads2 := r.reads ++ u1.reads.map (offset1 + ·)
      let offset2 := (offset1 + 8) % SIZE_MOD
      if sizeSub bufferSize offset2 < 8 then
        { ok := false, fileInfo := fileInfo2, bytesRead := bytesRead, reads := reads2 }
      else
        let u2 := deserializeUint64 (advance buffer offset2)
        let fileInfo3 := { fileInfo2 with timestamp := u2.value }
        let reads3 := reads2 ++ u2.reads.map (offset2 + ·)
        let offset3 := (offset2 + 8) % SIZE_MOD
        { ok := true, fileInfo := fileInfo3, bytesRead := offset3, reads := reads3 }

/-- The function `createTextPayload(text)`: a zero-filled vector of `4 + text.length()` bytes
into which the string is serialised. -/
def createTextPayload (text : List Nat) : List Nat :=
  let payload := List.replicate ((4 + text.length) % SIZE_MOD) 0
  (serializeString text payload).2

/-- The function `createStatusPayload(status, message)`. -/
def createStatusPayload (status : Nat) (message : List Nat) : List Nat :=
  let payload := [status]
  if message.length ≠ 0 then
    let msgSize := (4 + message.length) % SIZE_MOD
    let payload1 := payload ++ List.replicate ((1 + msgSize) % SIZE_MOD - 1) 0
    payload1.take 1 ++ (serializeString message (payload1.drop 1 |>.take msgSize)).2
  else payload

end ProtocolHelper

/-- The bytes of an ASCII string literal of the source. -/
def ascii (s : String) : List Nat := s.toList.map Char.toNat

/-- Search behind `std::string::find`: the lowest position, counted from `pos`, at which
`needle` occurs in `hay`; `none` is `std::string::npos`. -/
def findFrom : List Nat → List Nat → Nat → Option Nat
  | [], needle, pos => if needle = [] then some pos else none
  | c :: rest, needle, pos =>
    if needle.isPrefixOf (c :: rest) then some pos else findFrom rest needle (pos + 1)

/-- The call `hay.find(needle)`. -/
def find (hay needle : List Nat) : Option Nat := findFrom hay needle 0

namespace SecurityHelper

/-- The function `isValidFilename(filename)`. The needles are `".."`, `"/"`, the backslash and
the zero byte. -/
def isValidFilename (filename : List Nat) : Bool :=
  if filename.length = 0 ∨ filename.length > MAX_FILENAME_LENGTH then false
  else if find filename [46, 46] ≠ none then false
  else if find filename [47] ≠ none then false
  else if find filename [92] ≠ none then false
  else if find filename [0] ≠ none then false
  else true

/-- The function `isValidFileSize(size)`. -/
def isValidFileSize (size : Nat) : Bool := decide (size > 0) && decide (size ≤ MAX_FILE_SIZE)

end SecurityHelper

/-! ## Storage manager

The storage directory as the operating system presents it to `FileManager`: the regular files
directly inside `m_storageDir`, keyed by their name.  A file whose `writable` flag is off
cannot be opened for writing (permission denied).  The name `"."` designates the storage
directory itself: it cannot be removed as a file nor opened for writing, but a `std::ifstream`
can be opened on it; every read from such a stream fails.  A `std::ofstream` keeps the bytes
written to it in its buffer and passes them on to the file when the buffer fills and when the
stream is closed. -/

structure StoredFile where
  filename : List Nat
  content : List Nat
  mtime : Nat
  writable : Bool
  deriving DecidableEq, Repr

/-- State of a `std::ofstream`: the file it is open on (`none` when closed), its failbit, and
the bytes written to it that are still in its buffer. -/
structure OfStream where
  target : Option (List Nat)
  failbit : Bool
  pending : List Nat := []
  deriving DecidableEq, Repr

/-- State of a `std::ifstream` for which `is_open()` holds: open on a regular file with the given
content, or open on a directory. -/
inductive IfStream where
  | regular (content : List Nat)
  | directory
  deriving DecidableEq, Repr

/-- The bytes that `read` calls deliver from the stream, in order: the content of a regular
file; nothing from a directory, on which every `read` fails. -/
def IfStream.readable : IfStream → List Nat
  | IfStream.regular content => content
  | IfStream.directory => []

/-- The value of `file.tellg()` after `file.seekg(0, std::ios::end)`, as the `size_t` that the
chunk loop compares with: the length of a regular file; for a directory whatever the operating
system reports, converted to `size_t` (`-1` becomes `2^64 - 1`). -/
def IfStream.tellEnd (directoryEnd : Nat) : IfStream → Nat
  | IfStream.regular content => content.length
  | IfStream.directory => directoryEnd % SIZE_MOD

/-- The member `is_open()`. -/
def OfStream.is_open (file : OfStream) : Bool := file.target.isSome

structure FileManager where
  m_storageDir : List Nat
  files : List StoredFile
  deriving DecidableEq, Repr

namespace FileManager

/-- The function `getFilePath(filename)`: `m_storageDir + "/" + filename`. -/
def getFilePath (fm : FileManager) (filename : List Nat) : List Nat :=
  fm.m_storageDir ++ [47] ++ filename

/-- Whether the path built for `filename` is the storage directory itself. -/
def isDirectoryName (filename : List Nat) : Bool := decide (filename = [46])

/-- The function `getFileList()`: one record for each regular file of the directory. -/
def getFileList (fm : FileManager) : List FileInfo :=
  fm.files.map fun f =>
    { filename := f.filename, fileSize := f.content.length % SIZE_MOD, timestamp := f.mtime }

/-- The function `fileExists(filename)`: `stat` on the path succeeds. -/
def fileExists (fm : FileManager) (filename : List Nat) : Bool :=
  isDirectoryName filename || fm.files.any (fun f => decide (f.filename = filename))

/-- The function `deleteFile(filename)`: `std::remove` on the path returns 0. -/
def deleteFile (fm : FileManager) (filename : List Nat) : Bool × FileManager :=
  if isDirectoryName filename then (false, fm)
  else if fm.files.any (fun f => decide (f.filename = filename)) then
    (true, { fm with files := fm.files.filter (fun f => !decide (f.filename = filename)) })
  else (false, fm)

/-- The function `openForReading(filename, file)` on a fresh `std::ifstream`: the stream when
`is_open()` holds afterwards, `none` otherwise. `open` succeeds on the storage directory
itself. -/
def openForReading (fm : FileManager) (filename : List Nat) : Option IfStream :=
  if isDirectoryName filename then some IfStream.directory
  else (fm.files.find? (fun f => decide (f.filename = filename))).map
    (fun f => IfStream.regular f.content)

/-- The function `openForWriting(filename, file)` at time `now`. `std::ofstream::open` fails and
sets the failbit when the stream is already open, leaving it open on its old file; it also
fails when the operating system refuses the path. On success the file is created empty (or
truncated) under its final name and the stream state is cleared. The result is
`file.is_open()` afterwards. -/
def openForWriting (fm : FileManager) (filename : List Nat) (file : OfStream) (now : Nat) :
    Bool × OfStream × FileManager :=
  if file.is_open then (true, { file with failbit := true }, fm)
  else if isDirectoryName filename then (false, { file with failbit := true }, fm)
  else
    match fm.files.find? (fun f => decide (f.filename = filename)) with
    | some f =>
      if f.writable then
        (true, { target := some filename, failbit := false },
          { fm with files := fm.files.map fun g =>
              if g.filename = filename then { g with content := [], mtime := now } else g })
      else (false, { file with failbit := true }, fm)
    | none =>
      (true, { target := some filename, failbit := false },
        { fm with files := fm.files ++
            [{ filename := filename, content := [], mtime := now, writable := true }] })

end FileManager

/-- The bytes `data` reach the file `name` at time `now`; nothing happens for no bytes. -/
def FileManager.appendTo (fm : FileManager) (name : List Nat) (data : List Nat) (now : Nat) :
    FileManager :=
  if data = [] then fm
  else
    { fm with files := fm.files.map fun g =>
        if g.filename = name then { g with content := g.content ++ data, mtime := now } else g }

/-- The call `file.write(data, n)` on the upload stream at time `now`. Nothing is written when
the stream is closed or in a failed state. Otherwise the bytes join the buffer of the stream,
and the first `flushed` bytes of the buffer are passed on to the file during the call; how many
that are is up to the stream (none while the buffer has room). -/
def OfStream.write (file : OfStream) (fm : FileManager) (data : List Nat) (now : Nat)
    (flushed : Nat) : OfStream × FileManager :=
  match file.target with
  | none => ({ file with failbit := true }, fm)
  | some name =>
    if file.failbit then (file, fm)
    else
      let buffered := file.pending ++ data
      ({ file with pending := buffered.drop flushed },
        fm.appendTo name (buffered.take flushed) now)

/-- The call `file.close()` at time `now`: the bytes still in the buffer are passed on to the
file and the stream is closed. -/
def OfStream.close (file : OfStream) (fm : FileManager) (now : Nat) : OfStream × FileManager :=
  match file.target with
  | none => ({ file with failbit := true }, fm)
  | some name => ({ file with target := none, pending := [] }, fm.appendTo name file.pending now)

/-! ## Session engine (`ClientHandler`) -/

/-- One call of `sendMessage`, as the socket sees it: the 8 header bytes, the payload, and
whether both `send` calls transmitted everything (the result of `sendMessage`). -/
structure SentFrame where
  messageType : Nat
  header : List Nat
  payload : List Nat
  delivered : Bool
  deriving DecidableEq, Repr

/-- A call made to the storage manager. -/
inductive StorageCall where
  | getFileList
  | openForReading (filename : List Nat)
  | openForWriting (filename : List Nat)
  | deleteFile (filename : List Nat)
  deriving DecidableEq, Repr

/-- What the surroundings decide while one message is handled: the two clock readings
`time(nullptr)` of `updateActivity` and of `checkTimeout`, whether the `k`-th `sendMessage` of
the session gets its bytes through, the bytes that lie in memory behind the last byte of the
payload vector, how many buffered bytes the upload stream passes on to its file during a
`write`, and the position that `tellg()` reports at the end of a directory. -/
structure Env where
  timeAtUpdate : Int
  timeAtCheck : Int
  sendOk : Nat → Bool
  beyond : Nat → Nat
  flushed : Nat
  directoryEnd : Nat

/-- The members of `ClientHandler`, the storage manager it points to, and three records kept
for the proofs: the frames passed to `sendMessage`, the calls made to the storage manager, and
the indices of `payload.data()` read while the current message is handled. -/
structure ClientHandler where
  m_serverPasswordHash : List Nat
  m_authenticated : Bool
  m_lastActivity : Int
  m_failedAttempts : Int
  m_uploadFile : OfStream
  m_uploadFilename : List Nat
  m_uploadExpectedSize : Nat
  m_uploadReceivedSize : Nat
  fileManager : FileManager
  sent : List SentFrame
  calls : List StorageCall
  payloadReads : List Nat

/-- The pointer `payload.data()` as a read buffer: the bytes of the vector, followed by
whatever lies behind it in memory. -/
def vectorData (payload : List Nat) (beyond : Nat → Nat) : Nat → Nat :=
  fun i => payload.getD i (beyond (i - payload.length))

namespace ClientHandler

open ProtocolHelper SecurityHelper

/-- The constructor, called at time `now`. -/
def create (fileManager : FileManager) (passwordHash : List Nat) (now : Int) : ClientHandler :=
  { m_serverPasswordHash := passwordHash
    m_authenticated := false
    m_lastActivity := now
    m_failedAttempts := 0
    m_uploadFile := { target := none, failbit := false }
    m_uploadFilename := []
    m_uploadExpectedSize := 0
    m_uploadReceivedSize := 0
    fileManager := fileManager
    sent := []
    calls := []
    payloadReads := [] }

/-- The function `sendMessage(messageType, payload)`. -/
def sendMessage (env : Env) (h : ClientHandler) (messageType : Nat) (payload : List Nat) :
    Bool × ClientHandler :=
  let header := MessageHeader.ofType messageType (payload.length % U32_MOD)
  let r := serializeHeader header (List.replicate 8 0)
  if !r.1 then (false, h)
  else
    let delivered := env.sendOk h.sent.length
    (delivered,
      { h with sent := h.sent ++
          [{ messageType := messageType, header := r.2, payload := payload,
             delivered := delivered }] })

/-- The function `sendErrorResponse(errorMsg)`. -/
def sendErrorResponse (env : Env) (h : ClientHandler) (errorMsg : List Nat) : ClientHandler :=
  (sendMessage env h MSG_ERROR_RESPONSE (createStatusPayload STATUS_ERROR errorMsg)).2

/-- The function `checkAuthenticated()`. -/
def checkAuthenticated (h : ClientHandler) : Bool := h.m_authenticated

/-- The function `updateActivity()`. -/
def updateActivity (env : Env) (h : ClientHandler) : ClientHandler :=
  { h with m_lastActivity := env.timeAtUpdate }

/-- The function `checkTimeout()`. -/
def checkTimeout (env : Env) (h : ClientHandler) : Bool :=
  decide (env.timeAtCheck - h.m_lastActivity > CONNECTION_TIMEOUT_SECONDS)

/-- Records the indices of `payload.data()` that a decoder read. -/
def noteReads (h : ClientHandler) (reads : List Nat) : ClientHandler :=
  { h with payloadReads := h.payloadReads ++ reads }

/-- The function `handleAuthentication(payload)`. -/
def handleAuthentication (env : Env) (h : ClientHandler) (payload : List Nat) :
    Bool × ClientHandler :=
  let r := deserializeString (vectorData payload env.beyond) payload.length [] 0
  let h := noteReads h r.reads
  if !r.ok then (true, sendErrorResponse env h (ascii "Invalid password format"))
  else
    let clientPasswordHash := r.str
    if clientPasswordHash = h.m_serverPasswordHash then
      let h1 := { h with m_authenticated := true, m_failedAttempts := 0 }
      let welcomeMsg := ascii "Authentication successful - Welcome to File Server"
      sendMessage env h1 MSG_CONNECT_RESPONSE (createTextPayload welcomeMsg)
    else
      let h1 := { h with m_failedAttempts := h.m_failedAttempts + 1 }
      if h1.m_failedAttempts ≥ 3 then
        (false, sendErrorResponse env h1 (ascii "Too many failed attempts - disconnecting"))
      else (true, sendErrorResponse env h1 (ascii "Invalid password"))

/-- The loop of `handleListFiles` that writes each record at `payload.data() + offset`;
`none` when `serializeFileInfo` returned 0. -/
def writeFileInfos : List FileInfo → List Nat → Nat → Option (List Nat)
  | [], payload, _ => some payload
  | file :: rest, payload, offset =>
    let r := serializeFileInfo file (payload.drop offset)
    if r.1 = 0 then none
    else writeFileInfos rest (payload.take offset ++ r.2) ((offset + r.1) % SIZE_MOD)

/-- The function `handleListFiles()`. -/
def handleListFiles (env : Env) (h : ClientHandler) : Bool × ClientHandler :=
  let files := h.fileManager.getFileList
  let h := { h with calls := h.calls ++ [StorageCall.getFileList] }
  let payloadSize := files.foldl
    (fun size file => (size + ((4 + file.filename.length) % SIZE_MOD) + 8 + 8) % SIZE_MOD) 4
  let payload := List.replicate payloadSize 0
  let payload1 := memcpy payload 0 (storeNet32 (files.length % U32_MOD))
  match writeFileInfos files payload1 4 with
  | none => (true, sendErrorResponse env h (ascii "Failed to serialize file list"))
  | some payload2 => sendMessage env h MSG_FILE_LIST_RESPONSE payload2

/-- The chunk loop of `handleDownloadRequest` over the opened file, whose `read` calls deliver
the bytes `content`; `buffer` is the 4096-byte vector that `read` fills from its start and of
which the first `toRead` bytes are sent. Each round sends at least one byte, so `fileSize`
rounds and a final test are enough; `fuel` counts them. The `bool` is false when a chunk could
not be sent. -/
def downloadLoop (env : Env) (content : List Nat) (fileSize : Nat) :
    Nat → ClientHandler → Nat → List Nat → Bool × ClientHandler
  | 0, h, _, _ => (true, h)
  | fuel + 1, h, totalSent, buffer =>
    if totalSent < fileSize then
      let toRead := min 4096 (fileSize - totalSent)
      let got := (content.drop totalSent).take toRead
      let buffer := got ++ buffer.drop got.length
      let r := sendMessage env h MSG_DOWNLOAD_DATA (buffer.take toRead)
      if !r.1 then (false, r.2)
      else downloadLoop env content fileSize fuel r.2 ((totalSent + toRead) % SIZE_MOD) buffer
    else (true, h)

/-- The function `handleDownloadRequest(payload)`. -/
def handleDownloadRequest (env : Env) (h : ClientHandler) (payload : List Nat) :
    Bool × ClientHandler :=
  let r := deserializeString (vectorData payload env.beyond) payload.length [] 0
  let h := noteReads h r.reads
  if !r.ok then (true, sendErrorResponse env h (ascii "Invalid filename"))
  else
    let filename := r.str
    if !isValidFilename filename then (true, sendErrorResponse env h (ascii "Invalid filename"))
    else
      let h := { h with calls := h.calls ++ [StorageCall.openForReading filename] }
      match h.fileManager.openForReading filename with
      | none => (true, sendErrorResponse env h (ascii "File not found"))
      | some file =>
        let fileSize := file.tellEnd env.directoryEnd
        let l := downloadLoop env file.readable fileSize (fileSize + 1) h 0
          (List.replicate 4096 0)
        if !l.1 then (false, l.2)
        else
          (true, (sendMessage env l.2 MSG_DOWNLOAD_COMPLETE (createStatusPayload STATUS_OK [])).2)

/-- The function `handleUploadRequest(payload)`. The declared size is read at
`payload.data() + bytesRead` without comparing `bytesRead + 8` with `payload.size()`. -/
def handleUploadRequest (env : Env) (h : ClientHandler) (payload : List Nat) :
    Bool × ClientHandler :=
  let r := deserializeString (vectorData payload env.beyond) payload.length [] 0
  let h := noteReads h r.reads
  if !r.ok then (true, sendErrorResponse env h (ascii "Invalid filename"))
  else
    let filename := r.str
    let bytesRead := r.bytesRead
    if !isValidFilename filename then
      (true, sendErrorResponse env h
        (ascii "Invalid filename - may contain path traversal or illegal characters"))
    else
      let u := deserializeUint64 (advance (vectorData payload env.beyond) bytesRead)
      let h := noteReads h (u.reads.map (bytesRead + ·))
      let fileSize := u.value
      if !isValidFileSize fileSize then
        (true, sendErrorResponse env h (ascii "File too large - maximum 1GB allowed"))
      else
        let o := h.fileManager.openForWriting filename h.m_uploadFile h.m_lastActivity.toNat
        let h := { h with
          calls := h.calls ++ [StorageCall.openForWriting filename]
          m_uploadFile := o.2.1
          fileManager := o.2.2 }
        if !o.1 then (true, sendErrorResponse env h (ascii "Cannot create file"))
        else
          let h := { h with
            m_uploadFilename := filename
            m_uploadExpectedSize := fileSize
            m_uploadReceivedSize := 0 }
          (true, (sendMessage env h MSG_CONNECT_RESPONSE (createStatusPayload STATUS_OK [])).2)

/-- The function `handleUploadData(payload)`. -/
def handleUploadData (env : Env) (h : ClientHandler) (payload : List Nat) :
    Bool × ClientHandler :=
  if !h.m_uploadFile.is_open then (true, sendErrorResponse env h (ascii "No active upload"))
  else
    let h := noteReads h (List.range payload.length)
    let w := h.m_uploadFile.write h.fileManager payload h.m_lastActivity.toNat env.flushed
    (true, { h with
      m_uploadFile := w.1
      fileManager := w.2
      m_uploadReceivedSize := (h.m_uploadReceivedSize + payload.length) % SIZE_MOD })

/-- The function `handleUploadComplete(payload)`. -/
def handleUploadComplete (h : ClientHandler) : Bool × ClientHandler :=
  let h :=
    if h.m_uploadFile.is_open then
      let c := h.m_uploadFile.close h.fileManager h.m_lastActivity.toNat
      { h with m_uploadFile := c.1, fileManager := c.2 }
    else h
  (true, { h with m_uploadFilename := [], m_uploadExpectedSize := 0, m_uploadReceivedSize := 0 })

/-- The function `handleDeleteRequest(payload)`. -/
def handleDeleteRequest (env : Env) (h : ClientHandler) (payload : List Nat) :
    Bool × ClientHandler :=
  let r := deserializeString (vectorData payload env.beyond) payload.length [] 0
  let h := noteReads h r.reads
  if !r.ok then (true, sendErrorResponse env h (ascii "Invalid filename"))
  else
    let filename := r.str
    if !isValidFilename filename then (true, sendErrorResponse env h (ascii "Invalid filename"))
    else
      let d := h.fileManager.deleteFile filename
      let h := { h with calls := h.calls ++ [StorageCall.deleteFile filename], fileManager := d.2 }
      if d.1 then
        (true, (sendMessage env h MSG_DELETE_RESPONSE
          (createStatusPayload STATUS_OK (ascii "File deleted"))).2)
      else (true, sendErrorResponse env h (ascii "Failed to delete file"))

/-- The two `switch` statements of `handleMessage`, which follow the timeout check. -/
def dispatch (env : Env) (h : ClientHandler) (messageType : Nat) (payload : List Nat) :
    Bool × ClientHandler :=
  if messageType = MSG_CONNECT_REQUEST then handleAuthentication env h payload
  else if messageType = MSG_DISCONNECT then (false, h)
  else if messageType = MSG_LIST_FILES ∨ messageType = MSG_DOWNLOAD_REQUEST ∨
      messageType = MSG_UPLOAD_REQUEST ∨ messageType = MSG_UPLOAD_DATA ∨
      messageType = MSG_UPLOAD_COMPLETE ∨ messageType = MSG_DELETE_REQUEST then
    if !checkAuthenticated h then
      (false, sendErrorResponse env h (ascii "Not authenticated - password required"))
    else if messageType = MSG_LIST_FILES then handleListFiles env h
    else if messageType = MSG_DOWNLOAD_REQUEST then handleDownloadRequest env h payload
    else if messageType = MSG_UPLOAD_REQUEST then handleUploadRequest env h payload
    else if messageType = MSG_UPLOAD_DATA then handleUploadData env h payload
    else if messageType = MSG_UPLOAD_COMPLETE then handleUploadComplete h
    else if messageType = MSG_DELETE_REQUEST then handleDeleteRequest env h payload
    else (true, h)
  else (true, sendErrorResponse env h (ascii "Unknown message type"))

/-- The function `handleMessage(messageType, payload)`: the `bool` tells the receive loop
whether to continue. The record of payload reads starts afresh with each message. -/
def handleMessage (env : Env) (h : ClientHandler) (messageType : Nat) (payload : List Nat) :
    Bool × ClientHandler :=
  let h := updateActivity env { h with payloadReads := [] }
  if checkTimeout env h then (false, h)
  else dispatch env h messageType payload

/-- What the socket delivers for one round of the receive loop: the bytes returned by the
8-byte `receive` for the header (none when the peer is gone), the bytes that arrive for the
payload before the connection fails, and the surroundings while the message is handled. -/
structure Incoming where
  headerBytes : List Nat
  payloadBytes : List Nat
  env : Env

/-- The function `handleClient()`: the receive loop over what the socket delivers. -/
def handleClient : ClientHandler → List Incoming → ClientHandler
  | h, [] => h
  | h, inc :: rest =>
    if inc.headerBytes.length = 0 then h
    else if inc.headerBytes.length ≠ 8 then h
    else
      let d := deserializeHeader (fun i => inc.headerBytes.getD i 0) 8 MessageHeader.default
      if !d.ok then sendErrorResponse inc.env h (ascii "Invalid message header")
      else if inc.payloadBytes.length < d.header.payloadLength then h
      else
        let payload := inc.payloadBytes.take d.header.payloadLength
        let r := handleMessage inc.env h d.header.messageType payload
        if !r.1 then r.2 else handleClient r.2 rest

end ClientHandler

/-! ## Client side of the file listing (`SimpleClient::listFiles` in `src/client.cpp`) -/

namespace SimpleClient

/-- The loop of `listFiles()` over the payload of a File-List-Response: `count` rounds of
`deserializeFileInfo` at `payload.data() + offset`; a record that fails to decode is skipped
and `offset` stays. -/
def readFileInfos (data : Nat → Nat) (size : Nat) : Nat → Nat → List FileInfo
  | 0, _ => []
  | count + 1, offset =>
    let r := ProtocolHelper.deserializeFileInfo (advance data offset) (sizeSub size offset)
      FileInfo.default 0
    if r.ok then r.fileInfo :: readFileInfos data size count ((offset + r.bytesRead) % SIZE_MOD)
    else readFileInfos data size count offset

/-- The decoding in `listFiles()`: the count is read from the first four bytes, then the
records are decoded from offset 4 on. -/
def listFiles (payload : List Nat) (beyond : Nat → Nat) : List FileInfo :=
  let data := vectorData payload beyond
  let fileCount := loadNet32 data
  readFileInfos data payload.length fileCount 4

end SimpleClient

/-- One file record on the wire, in the spec's words: `string(filename)`, the size as 8 bytes,
the modification time as 8 bytes. -/
def encodeFileInfo (r : FileInfo) : List Nat :=
  storeNet32 r.filename.length ++ r.filename ++ ProtocolHelper.serializeUint64 r.fileSize ++
    ProtocolHelper.serializeUint64 r.timestamp

/-- The file-listing payload in the spec's words: the record count as 4 big-endian bytes, then
the records. -/
def encodeFileList (files : List FileInfo) : List Nat :=
  storeNet32 files.length ++ (files.map encodeFileInfo).flatten

/-! ## Sample inputs -/

/-- A header whose magic is right and whose version byte is 9. -/
def sampleHeaderBytes : Nat → Nat := fun i => if i = 0 then 0x46 else if i = 1 then 0x53 else 9

/-- A buffer that declares a 5-byte string. -/
def sampleTruncated : Nat → Nat := fun i => if i = 3 then 5 else 0

/-- Surroundings in which the clock stands still, every send succeeds, the eight bytes behind
the payload are `00 00 00 00 00 00 00 01`, the upload stream keeps what is written in its
buffer, and `tellg()` reports `-1` at the end of a directory. -/
def sampleEnv : Env :=
  { timeAtUpdate := 100, timeAtCheck := 100, sendOk := fun _ => true,
    beyond := fun i => if i = 7 then 1 else 0, flushed := 0,
    directoryEnd := 18446744073709551615 }

/-- An empty storage directory. -/
def sampleStorage : FileManager := { m_storageDir := ascii "storage", files := [] }

/-- A session right after its construction. -/
def sampleFresh : ClientHandler := ClientHandler.create sampleStorage (ascii "secret") 100

/-- A session that has authenticated. -/
def sampleAuthenticated : ClientHandler := { sampleFresh with m_authenticated := true }

/-- An Upload-Request payload that holds the filename `"a"` and stops there: the 64-bit
declared size is missing. -/
def truncatedUploadRequest : List Nat := [0, 0, 0, 1, 97]

/-- Whether a call to the storage manager that carries a filename carries a valid one. -/
def FilenameGated : StorageCall → Prop
  | StorageCall.getFileList => True
  | StorageCall.openForReading filename => SecurityHelper.isValidFilename filename = true
  | StorageCall.openForWriting filename => SecurityHelper.isValidFilename filename = true
  | StorageCall.deleteFile filename => SecurityHelper.isValidFilename filename = true

/-- Everything but the records of sent frames and of payload reads is the same in `h1` as in
`h`. -/
def SameButLog (h h1 : ClientHandler) : Prop :=
  h1.m_serverPasswordHash = h.m_serverPasswordHash ∧
  h1.m_authenticated = h.m_authenticated ∧
  h1.m_lastActivity = h.m_lastActivity ∧
  h1.m_failedAttempts = h.m_failedAttempts ∧
  h1.m_uploadFile = h.m_uploadFile ∧
  h1.m_uploadFilename = h.m_uploadFilename ∧
  h1.m_uploadExpectedSize = h.m_uploadExpectedSize ∧
  h1.m_uploadReceivedSize = h.m_uploadReceivedSize ∧
  h1.fileManager = h.fileManager ∧
  h1.calls = h.calls

/-- The step from `h` to `h1` leaves the authentication state alone, and every call it makes to
the storage manager with a filename carries a valid one. -/
def GatedStep (h h1 : ClientHandler) : Prop :=
  h1.m_serverPasswordHash = h.m_serverPasswordHash ∧
  h1.m_authenticated = h.m_authenticated ∧
  h1.m_failedAttempts = h.m_failedAttempts ∧
  ∃ new, h1.calls = h.calls ++ new ∧ ∀ c ∈ new, FilenameGated c

/-- The step from `h` to `h1` makes no call to the storage manager and leaves the storage and
the upload state (filename, expected size, received size, stream) unchanged. -/
def StorageUntouched (h h1 : ClientHandler) : Prop :=
  h1.calls = h.calls ∧
  h1.fileManager = h.fileManager ∧
  h1.m_uploadFile = h.m_uploadFile ∧
  h1.m_uploadFilename = h.m_uploadFilename ∧
  h1.m_uploadExpectedSize = h.m_uploadExpectedSize ∧
  h1.m_uploadReceivedSize = h.m_uploadReceivedSize

/-- What one message can do to a session, whatever its type: the server's password hash stays,
authentication is not revoked, and every call made to the storage manager with a filename
carries a valid one. -/
def MessageStep (h h1 : ClientHandler) : Prop :=
  h1.m_serverPasswordHash = h.m_serverPasswordHash ∧
  (h.m_authenticated = true → h1.m_authenticated = true) ∧
  ∃ new, h1.calls = h.calls ++ new ∧ ∀ c ∈ new, FilenameGated c

/-- The frame that `sendErrorResponse(errorMsg)` passes to the socket, with the outcome of the
send. -/
def errorFrame (errorMsg : List Nat) (delivered : Bool) : SentFrame :=
  { messageType := MSG_ERROR_RESPONSE
    header := storeNet16 MAGIC_NUMBER ++ [PROTOCOL_VERSION, MSG_ERROR_RESPONSE] ++
      storeNet32 ((ProtocolHelper.createStatusPayload STATUS_ERROR errorMsg).length % U32_MOD)
    payload := ProtocolHelper.createStatusPayload STATUS_ERROR errorMsg
    delivered := delivered }

/-- Whether a message type is one of the six requests that need an authenticated session. -/
def needsAuthentication (messageType : Nat) : Prop :=
  messageType = MSG_LIST_FILES ∨ messageType = MSG_DOWNLOAD_REQUEST ∨
    messageType = MSG_UPLOAD_REQUEST ∨ messageType = MSG_UPLOAD_DATA ∨
    messageType = MSG_UPLOAD_COMPLETE ∨ messageType = MSG_DELETE_REQUEST

/-- The receive loop is handed one Upload-Request frame for the file `"a"` of declared size 1. -/
def sampleIncoming : List ClientHandler.Incoming :=
  [{ headerBytes := [0x46, 0x53, 1, 5, 0, 0, 0, 13]
     payloadBytes := [0, 0, 0, 1, 97, 0, 0, 0, 0, 0, 0, 0, 1]
     env := sampleEnv }]

/-- The frame that `sendMessage(messageType, payload)` passes to the socket, with the outcome of
the send. -/
def sentFrame (messageType : Nat) (payload : List Nat) (delivered : Bool) : SentFrame :=
  { messageType := messageType
    header := storeNet16 MAGIC_NUMBER ++ [PROTOCOL_VERSION, messageType] ++
      storeNet32 (payload.length % U32_MOD)
    payload := payload
    delivered := delivered }

/-- A Connect-Request payload that carries the hash `"secret"`. -/
def sampleConnectRequest : List Nat := storeNet32 6 ++ ascii "secret"

/-- The message was answered with exactly one Error-Response frame, the authentication state
is what it was, and the session stays open. -/
def ErrorReply (env : Env) (h : ClientHandler) (r : Bool × ClientHandler) : Prop :=
  r.1 = true ∧
  r.2.m_authenticated = h.m_authenticated ∧
  r.2.m_failedAttempts = h.m_failedAttempts ∧
  ∃ errorMsg, r.2.sent = h.sent ++ [errorFrame errorMsg (env.sendOk h.sent.length)]

/-- Surroundings in which the message is handled at time 1000, 900 seconds after the last
activity of the sample sessions. -/
def sampleLateEnv : Env :=
  { timeAtUpdate := 1000, timeAtCheck := 1000, sendOk := fun _ => true, beyond := fun _ => 0,
    flushed := 0, directoryEnd := 18446744073709551615 }

/-- The `i`-th block of 4096 bytes of a file: the bytes `4096 * i` to `4096 * i + 4095`, as far
as the file has them. -/
def chunkAt (content : List Nat) (i : Nat) : List Nat := (content.drop (4096 * i)).take 4096

/-- The Download-Data frames for the blocks `first`, `first + 1`, ... (`count` of them), all
delivered. -/
def dataFrames (content : List Nat) (first count : Nat) : List SentFrame :=
  (List.range' first count).map fun i => sentFrame MSG_DOWNLOAD_DATA (chunkAt content i) true

/-- A storage directory that holds the file `"a"` with the content `01 02 03`. -/
def sampleStorageWithFile : FileManager :=
  { m_storageDir := ascii "storage"
    files := [{ filename := [97], content := [1, 2, 3], mtime := 50, writable := true }] }

/-- An authenticated session over `sampleStorageWithFile`. -/
def sampleWithFile : ClientHandler :=
  { sampleAuthenticated with fileManager := sampleStorageWithFile }

/-- A Download-Request (or Delete-Request) payload for the filename `"a"`. -/
def sampleNameA : List Nat := storeNet32 1 ++ [97]

/-- An Upload-Request payload for the file `"a"` with declared size 1. -/
def uploadRequestA : List Nat := storeNet32 1 ++ [97] ++ ProtocolHelper.serializeUint64 1

/-- An Upload-Request payload for the file `"b"` with declared size 3. -/
def uploadRequestB : List Nat := storeNet32 1 ++ [98] ++ ProtocolHelper.serializeUint64 3

/-- A Download-Request payload for the filename `"b"`. -/
def sampleNameB : List Nat := storeNet32 1 ++ [98]

/-- The sample authenticated session after an Upload-Request for `"a"` that is never
completed. -/
def afterFirstUpload : ClientHandler :=
  (ClientHandler.handleMessage sampleEnv sampleAuthenticated MSG_UPLOAD_REQUEST uploadRequestA).2

/-- Then an Upload-Request for `"b"`. -/
def afterSecondUpload : ClientHandler :=
  (ClientHandler.handleMessage sampleEnv afterFirstUpload MSG_UPLOAD_REQUEST uploadRequestB).2

/-- Then one Upload-Data frame with the bytes `01 02 03`. -/
def afterSecondData : ClientHandler :=
  (ClientHandler.handleMessage sampleEnv afterSecondUpload MSG_UPLOAD_DATA [1, 2, 3]).2

/-- Then an Upload-Complete. -/
def afterSecondComplete : ClientHandler :=
  (ClientHandler.handleMessage sampleEnv afterSecondData MSG_UPLOAD_COMPLETE []).2

/-- The file `name` is in the storage directory and its content is `content`. -/
def StoredAs (fm : FileManager) (name content : List Nat) : Prop :=
  name ≠ [46] ∧ (∃ f ∈ fm.files, f.filename = name) ∧
    ∀ f ∈ fm.files, f.filename = name → f.content = content

/-- A list of Upload-Data messages, each with its surroundings, handled one after the other. -/
def uploadAll : ClientHandler → List (Env × List Nat) → ClientHandler
  | h, [] => h
  | h, (env, payload) :: rest =>
    uploadAll (ClientHandler.handleMessage env h MSG_UPLOAD_DATA payload).2 rest

/-- The session is authenticated and in the middle of an upload to the file `name`, whose
content so far is `content`. -/
def Uploading (h : ClientHandler) (name content : List Nat) : Prop :=
  h.m_authenticated = true ∧
  ∃ visible pending,
    h.m_uploadFile = { target := some name, failbit := false, pending := pending } ∧
    StoredAs h.fileManager name visible ∧ visible ++ pending = content

/-- A List-Request header whose version byte is 2: `46 53 02 03 00 00 00 00`. -/
def sampleVersionTwoHeader : List Nat := [0x46, 0x53, 2, 0x03, 0, 0, 0, 0]

/-- The receive loop is handed one List-Request frame whose version byte is 2. -/
def sampleVersionTwo : List ClientHandler.Incoming :=
  [{ headerBytes := sampleVersionTwoHeader, payloadBytes := [], env := sampleEnv }]

/-- A payload that is not a well-formed length-prefixed string: fewer than 4 bytes, or a
declared length (the first four bytes, most significant first) that exceeds what follows. -/
def MalformedString (payload : List Nat) : Prop :=
  payload.length < 4 ∨ payload.length < 4 + loadNet32 (fun i => payload.getD i 0)

/-- What the socket delivers for one complete frame of the given type and payload. -/
def frameOf (env : Env) (messageType : Nat) (payload : List Nat) : ClientHandler.Incoming :=
  { headerBytes := storeNet16 MAGIC_NUMBER ++ [PROTOCOL_VERSION, messageType] ++
      storeNet32 payload.length
    payloadBytes := payload
    env := env }

/-- A Connect-Request payload that declares 9 bytes and carries 2. -/
def sampleMalformed : List Nat := [0, 0, 0, 9, 1, 2]

/-! ## Password hash (`SecurityHelper::hashPassword`) -/

/-- The `size_t` that `hash + c` adds for a `char c` holding the byte `b`: where `char` is a
signed type, a byte of 128 or more is a negative `char` and converts to `2^64 - (256 - b)`. -/
def charToSize (charIsSigned : Bool) (b : Nat) : Nat :=
  if charIsSigned && decide (b ≥ 128) then (b + SIZE_MOD - 256) % SIZE_MOD else b % SIZE_MOD

/-- The character code of the lowercase hexadecimal digit `d`. -/
def hexDigit (d : Nat) : Nat := if d < 10 then 48 + d else 87 + d

/-- The last `n` hexadecimal digits of `v`, most significant first. -/
def hexDigits : Nat → Nat → List Nat
  | 0, _ => []
  | n + 1, v => hexDigits n (v / 16) ++ [hexDigit (v % 16)]

/-- What `snprintf(buf, sizeof(buf), "%016zx", hash)` leaves in `buf` for a `size_t` of 64
bits: its hexadecimal digits in lowercase, padded with zeros on the left to 16 characters. -/
def snprintfHex16 (hash : Nat) : List Nat := hexDigits 16 hash

namespace SecurityHelper

/-- The function `hashPassword(password)`; `charIsSigned` tells whether `char` is a signed
type on the platform. -/
def hashPassword (charIsSigned : Bool) (password : List Nat) : List Nat :=
  let hash := password.foldl
    (fun hash c => (((hash <<< 5) % SIZE_MOD + hash) % SIZE_MOD + charToSize charIsSigned c)
      % SIZE_MOD) 5381
  snprintfHex16 hash

end SecurityHelper

/-- The value of a `char` holding the byte `b`. -/
def charValue (charIsSigned : Bool) (b : Nat) : Int :=
  if charIsSigned && decide (b ≥ 128) then (b : Int) - 256 else (b : Int)

/-- The hash value in the spec's words: from 5381, the step `h := (h * 33 + c) mod 2^64` over
the characters of the password. -/
def hashValue (charIsSigned : Bool) (password : List Nat) : Nat :=
  password.foldl
    (fun h c => (((h : Int) * 33 + charValue charIsSigned c) % 18446744073709551616).toNat) 5381

/-- The digit that a lowercase hexadecimal character stands for. -/
def hexValue (c : Nat) : Nat := if c ≤ 57 then c - 48 else c - 87

/-- The number that a string of hexadecimal characters denotes. -/
def parseHex (s : List Nat) : Nat := s.foldl (fun a c => a * 16 + hexValue c) 0

/-- Whether `c` is one of the characters `0`..`9`, `a`..`f`. -/
def IsLowerHex (c : Nat) : Prop := (48 ≤ c ∧ c ≤ 57) ∨ (97 ≤ c ∧ c ≤ 102)

/-- A session of a server whose password is `"ab"`, right after its construction. -/
def sampleSessionAb (charIsSigned : Bool) : ClientHandler :=
  ClientHandler.create sampleStorage (SecurityHelper.hashPassword charIsSigned (ascii "ab")) 100

/-- The Connect-Request payload of a client that hashed the password `"bA"`. -/
def sampleConnectBA (charIsSigned : Bool) : List Nat :=
  storeNet32 16 ++ SecurityHelper.hashPassword charIsSigned (ascii "bA")

/-- A payload that carries the filename `"."`. -/
def sampleNameDot : List Nat := storeNet32 1 ++ [46]

/-- An Upload-Request payload for the filename `"."` with declared size 1. -/
def uploadRequestDot : List Nat := storeNet32 1 ++ [46] ++ ProtocolHelper.serializeUint64 1

/-- The sample session after the accepted Upload-Request for `"a"` and one Upload-Data frame
with the byte `07`; no Upload-Complete has been handled. -/
def afterFirstData : ClientHandler :=
  (ClientHandler.handleMessage sampleEnv afterFirstUpload MSG_UPLOAD_DATA [7]).2

/-! ## Connection dispatcher (`MultiThreadedServer` in `src/server_mt.cpp`)

The accept loop runs in one thread and is the only code that inserts into or erases from the
registry `m_clients` while the server runs.  What the rest of the world decides during one
round of the loop is given to the model as an `AcceptEnv`: the socket returned by `accept`,
the answer of `isRunning()` of each registered handler when the registry is cleaned up, and
whether the worker thread could be started. -/

/-- The struct `ClientInfo`: the handler of a registered session, given by the arguments it was
constructed with (the accepted socket, the client id, the password hash), and its thread. -/
structure ClientInfo where
  handlerSocket : Nat
  handlerClientId : Nat
  handlerPasswordHash : List Nat
  deriving DecidableEq, Repr

/-- What one round of the accept loop does to the outside. -/
inductive ServerEvent where
  | acceptFailed
  | cleanedUp (clientId : Nat)
  | rejected (socket : Nat)
  | handlerCreated (clientId socket : Nat)
  | threadStarted (clientId : Nat)
  | threadFailed (clientId : Nat)
  deriving DecidableEq, Repr

/-- The assignment `m[key] = value` on a `std::map<uint32_t, ClientInfo>`, which keeps its
entries in the order of their keys: an entry with that key is overwritten, otherwise the entry
is inserted at its place. -/
def mapAssign : List (Nat × ClientInfo) → Nat → ClientInfo → List (Nat × ClientInfo)
  | [], key, value => [(key, value)]
  | (k, v) :: rest, key, value =>
    if key < k then (key, value) :: (k, v) :: rest
    else if key = k then (key, value) :: rest
    else (k, v) :: mapAssign rest key value

/-- What the surroundings decide during one round of the accept loop. -/
structure AcceptEnv where
  accepted : Option Nat
  isRunning : Nat → Bool
  threadStarts : Bool

/-- The members of `MultiThreadedServer` that the accept loop uses, and the record of what the
loop did. -/
structure MultiThreadedServer where
  m_maxClients : Int
  m_nextClientId : Nat
  m_passwordHash : List Nat
  m_clients : List (Nat × ClientInfo)
  events : List ServerEvent
  deriving DecidableEq, Repr

namespace MultiThreadedServer

/-- The constructor. -/
def create (maxClients : Int) (charIsSigned : Bool) (password : List Nat) :
    MultiThreadedServer :=
  { m_maxClients := maxClients
    m_nextClientId := 1
    m_passwordHash := SecurityHelper.hashPassword charIsSigned password
    m_clients := []
    events := [] }

/-- The function `cleanupFinishedClients()`: every entry whose handler is no longer running is
joined, deleted and erased. -/
def cleanupFinishedClients (env : AcceptEnv) (s : MultiThreadedServer) : MultiThreadedServer :=
  { s with
    m_clients := s.m_clients.filter (fun e => env.isRunning e.1)
    events := s.events ++
      (s.m_clients.filter (fun e => !env.isRunning e.1)).map (fun e => ServerEvent.cleanedUp e.1) }

/-- The test `m_clients.size() >= static_cast<size_t>(m_maxClients)`: the `int` is converted
to `size_t` modulo `2^64`. -/
def capacityReached (s : MultiThreadedServer) : Bool :=
  decide (s.m_clients.length ≥ (s.m_maxClients % (SIZE_MOD : Int)).toNat)

/-- One round of the loop in `run()`. -/
def acceptIteration (env : AcceptEnv) (s : MultiThreadedServer) : MultiThreadedServer :=
  match env.accepted with
  | none => { s with events := s.events ++ [ServerEvent.acceptFailed] }
  | some clientSocket =>
    let s := cleanupFinishedClients env s
    if capacityReached s then
      { s with events := s.events ++ [ServerEvent.rejected clientSocket] }
    else
      let clientId := s.m_nextClientId
      let s := { s with m_nextClientId := (s.m_nextClientId + 1) % U32_MOD }
      let handler : ClientInfo :=
        { handlerSocket := clientSocket, handlerClientId := clientId,
          handlerPasswordHash := s.m_passwordHash }
      let s := { s with events := s.events ++ [ServerEvent.handlerCreated clientId clientSocket] }
      if env.threadStarts then
        { s with
          m_clients := mapAssign s.m_clients clientId handler
          events := s.events ++ [ServerEvent.threadStarted clientId] }
      else { s with events := s.events ++ [ServerEvent.threadFailed clientId] }

/-- The loop of `run()` over as many rounds as `envs` has entries. -/
def run : MultiThreadedServer → List AcceptEnv → MultiThreadedServer
  | s, [] => s
  | s, env :: rest => run (acceptIteration env s) rest

end MultiThreadedServer

/-- Surroundings in which `accept` returns the socket `socket`, every registered handler is
still running and the worker thread starts. -/
def busyAccept (socket : Nat) : AcceptEnv :=
  { accepted := some socket, isRunning := fun _ => true, threadStarts := true }

/-- The state of the registry that the accept loop keeps: the keys are in increasing order and
fit `uint32_t`. -/
def RegistryOrdered (m : List (Nat × ClientInfo)) : Prop :=
  (m.map Prod.fst).Pairwise (· < ·) ∧ ∀ k ∈ m.map Prod.fst, k < 4294967296

/-- No connection was rejected for capacity in the rounds recorded in `events`. -/
def NoRejection (events : List ServerEvent) : Prop :=
  ∀ socket, ServerEvent.rejected socket ∉ events

/-! ## Wire codec: theorems -/

section CodecLemmas

open ProtocolHelper

theorem list_of_length_eight (l : List Nat) (h : l.length = 8) :
    ∃ a b c d e f g k, l = [a, b, c, d, e, f, g, k] := by
  rcases l with _ | ⟨a, _ | ⟨b, _ | ⟨c, _ | ⟨d, _ | ⟨e, _ | ⟨f, _ | ⟨g, _ | ⟨k, _ | ⟨m, l⟩⟩⟩⟩⟩⟩⟩⟩⟩ <;>
    simp at h
  exact ⟨a, b, c, d, e, f, g, k, rfl⟩

theorem serializeHeader_eight (hd : MessageHeader) (a b c d e f g k : Nat) :
    serializeHeader hd [a, b, c, d, e, f, g, k] =
      (true, storeNet16 hd.magicNumber ++ [hd.version, hd.messageType] ++
        storeNet32 hd.payloadLength) := by
  simp only [serializeHeader, storeNet16, storeNet32, memcpy]
  simp

end CodecLemmas

section CodecTheorems

open ProtocolHelper

/-- C1. Header round trip: serialising `MessageHeader(t, n)` into an 8-byte buffer succeeds, and
deserialising those 8 bytes succeeds and gives back the same four fields. -/
theorem serializeHeader_deserializeHeader_roundtrip (t n : Nat) (buffer : List Nat)
    (initial : MessageHeader) (beyond : Nat → Nat)
    (_ht : t < 256) (hn : n < 2 ^ 32) (hlen : buffer.length = 8) :
    (serializeHeader (MessageHeader.ofType t n) buffer).1 = true ∧
    (serializeHeader (MessageHeader.ofType t n) buffer).2.length = 8 ∧
    (deserializeHeader (vectorData (serializeHeader (MessageHeader.ofType t n) buffer).2 beyond)
      8 initial).ok = true ∧
    (deserializeHeader (vectorData (serializeHeader (MessageHeader.ofType t n) buffer).2 beyond)
      8 initial).header =
      { magicNumber := 0x4653, version := 1, messageType := t, payloadLength := n } := by
  obtain ⟨a, b, c, d, e, f, g, k, rfl⟩ := list_of_length_eight buffer hlen
  have h32 : (n / 16777216 % 256 * 16777216 + n / 65536 % 256 * 65536 + n / 256 % 256 * 256
      + n % 256) % 4294967296 = n := by omega
  rw [serializeHeader_eight]
  simp only [deserializeHeader, MessageHeader.ofType, storeNet16, storeNet32,
    loadNet16, loadNet32, advance, vectorData, MAGIC_NUMBER, PROTOCOL_VERSION, U32_MOD]
  simp [h32]

end CodecTheorems

section CodecLemmas2

open ProtocolHelper

theorem loadNet32_storeNet32 (n : Nat) (hn : n < 4294967296) (beyond : Nat → Nat)
    (rest : List Nat) : loadNet32 (vectorData (storeNet32 n ++ rest) beyond) = n := by
  simp only [loadNet32, vectorData, storeNet32, U32_MOD]
  simp
  omega

theorem loadNet32_lt (buffer : Nat → Nat) : loadNet32 buffer < 4294967296 := by
  simp only [loadNet32, U32_MOD]
  omega

theorem readBytes_vectorData (pre s rest : List Nat) (beyond : Nat → Nat) :
    readBytes (advance (vectorData (pre ++ s ++ rest) beyond) pre.length) s.length = s := by
  apply List.ext_getElem
  · simp [readBytes]
  · intro i h1 h2
    simp only [readBytes, advance, vectorData, List.getElem_map, List.getElem_range]
    have h3 : pre.length + i < (pre ++ s ++ rest).length := by simp; omega
    rw [List.getD_eq_getElem _ _ h3]
    simp [List.getElem_append, h2]

theorem serializeString_eq (s buffer : List Nat) (hs : s.length < 4294967296)
    (hbuf : 4 + s.length ≤ buffer.length) :
    serializeString s buffer =
      (4 + s.length, storeNet32 s.length ++ s ++ buffer.drop (4 + s.length)) := by
  have h1 : s.length % 4294967296 = s.length := Nat.mod_eq_of_lt hs
  have h2 : (4 + s.length) % 18446744073709551616 = 4 + s.length :=
    Nat.mod_eq_of_lt (by omega)
  have h3 : ¬ buffer.length < 4 + s.length := by omega
  have h4 : (storeNet32 s.length).length = 4 := rfl
  simp only [serializeString, U32_MOD, SIZE_MOD, Nat.reducePow, h1, h2, h3, if_false, memcpy,
    List.take_zero, List.nil_append, Nat.zero_add, h4, List.take_length]
  rw [List.take_append_of_le_length (by simp [h4]), List.take_of_length_le (by simp [h4])]
  rw [List.drop_append_eq_append_drop]
  simp [h4, List.drop_drop, Nat.add_comm]

end CodecLemmas2

section CodecTheorems2

open ProtocolHelper

/-- C2. `deserializeHeader` returns false exactly when fewer than 8 bytes are available or the
first two bytes, read big-endian, are not the magic number; on at least 8 bytes that start with
`0x46 0x53` it succeeds whatever the version byte, and stores that byte as the version. -/
theorem deserializeHeader_fails_iff (buffer : Nat → Nat) (bufferSize : Nat)
    (initial : MessageHeader) (hbytes : ∀ i, buffer i < 256) :
    ((deserializeHeader buffer bufferSize initial).ok = false ↔
      (bufferSize < 8 ∨ buffer 0 * 256 + buffer 1 ≠ 0x4653)) ∧
    (8 ≤ bufferSize → buffer 0 = 0x46 → buffer 1 = 0x53 →
      (deserializeHeader buffer bufferSize initial).ok = true ∧
      (deserializeHeader buffer bufferSize initial).header.version = buffer 2) := by
  have h0 := hbytes 0
  have h1 := hbytes 1
  have hm : (buffer 0 * 256 + buffer 1) % 65536 = buffer 0 * 256 + buffer 1 :=
    Nat.mod_eq_of_lt (by omega)
  constructor
  · by_cases hsz : bufferSize < 8
    · simp [deserializeHeader, hsz]
    · by_cases hmagic : buffer 0 * 256 + buffer 1 = 18003
      · simp [deserializeHeader, hsz, loadNet16, MAGIC_NUMBER, hm, hmagic]
      · simp [deserializeHeader, hsz, loadNet16, MAGIC_NUMBER, hm, hmagic]
  · intro hsz hb0 hb1
    have hsz2 : ¬ bufferSize < 8 := by omega
    simp [deserializeHeader, hsz2, loadNet16, MAGIC_NUMBER, hb0, hb1]

/-- C3. String round trip: `serializeString` returns `4 + |s|` and writes the length as four
big-endian bytes followed by the bytes of `s`; `deserializeString` on that output succeeds,
returns `s` and sets `bytesRead` to `4 + |s|`. -/
theorem serializeString_deserializeString_roundtrip (s buffer : List Nat) (str0 : List Nat)
    (bytesRead0 : Nat) (beyond : Nat → Nat)
    (hs : s.length < 2 ^ 32) (hbuf : 4 + s.length ≤ buffer.length) :
    (serializeString s buffer).1 = 4 + s.length ∧
    (serializeString s buffer).2 = storeNet32 s.length ++ s ++ buffer.drop (4 + s.length) ∧
    (deserializeString (vectorData (serializeString s buffer).2 beyond) buffer.length
      str0 bytesRead0).ok = true ∧
    (deserializeString (vectorData (serializeString s buffer).2 beyond) buffer.length
      str0 bytesRead0).str = s ∧
    (deserializeString (vectorData (serializeString s buffer).2 beyond) buffer.length
      str0 bytesRead0).bytesRead = 4 + s.length := by
  have hs2 : s.length < 4294967296 := by norm_num at hs; exact hs
  rw [serializeString_eq s buffer hs2 hbuf]
  refine ⟨rfl, rfl, ?_⟩
  have hl : loadNet32 (vectorData (storeNet32 s.length ++ s ++
      List.drop (4 + s.length) buffer) beyond) = s.length := by
    rw [List.append_assoc]
    exact loadNet32_storeNet32 _ hs2 _ _
  have h2 : (4 + s.length) % 18446744073709551616 = 4 + s.length :=
    Nat.mod_eq_of_lt (by omega)
  have h3 : ¬ buffer.length < 4 + s.length := by omega
  have h4 : ¬ buffer.length < 4 := by omega
  have hr := readBytes_vectorData (storeNet32 s.length) s (List.drop (4 + s.length) buffer) beyond
  have h5 : (storeNet32 s.length).length = 4 := rfl
  rw [h5] at hr
  simp only [deserializeString, h4, if_false, hl, SIZE_MOD, Nat.reducePow, h2, h3, hr]
  simp

end CodecTheorems2

section CodecTheorems3

open ProtocolHelper

theorem sizeSub_of_le (a b : Nat) (ha : a < 18446744073709551616) (hb : b ≤ a) :
    sizeSub a b = a - b := by
  simp only [sizeSub, SIZE_MOD]
  omega

theorem deserializeString_reads_lt (buffer : Nat → Nat) (bufferSize : Nat) (str0 : List Nat)
    (bytesRead0 : Nat) :
    ∀ i ∈ (deserializeString buffer bufferSize str0 bytesRead0).reads, i < bufferSize := by
  have hl := loadNet32_lt buffer
  have h2 : (4 + loadNet32 buffer) % 18446744073709551616 = 4 + loadNet32 buffer :=
    Nat.mod_eq_of_lt (by omega)
  intro i hi
  unfold deserializeString at hi
  simp only [SIZE_MOD, Nat.reducePow, h2] at hi
  split_ifs at hi with h4 h5
  · simp at hi
  · simp at hi
    omega
  · simp at hi
    rcases hi with h | h | h | h | ⟨a, ha, rfl⟩ <;> omega

theorem deserializeString_ok_iff (buffer : Nat → Nat) (bufferSize : Nat) (str0 : List Nat)
    (bytesRead0 : Nat) :
    (deserializeString buffer bufferSize str0 bytesRead0).ok = true ↔
      4 + loadNet32 buffer ≤ bufferSize := by
  have hl := loadNet32_lt buffer
  have h2 : (4 + loadNet32 buffer) % 18446744073709551616 = 4 + loadNet32 buffer :=
    Nat.mod_eq_of_lt (by omega)
  unfold deserializeString
  simp only [SIZE_MOD, Nat.reducePow, h2]
  split_ifs with h4 h5
  · simp; omega
  · simp; omega
  · simp; omega

theorem deserializeString_of_le (buffer : Nat → Nat) (bufferSize : Nat) (str0 : List Nat)
    (bytesRead0 : Nat) (hle : 4 + loadNet32 buffer ≤ bufferSize) :
    deserializeString buffer bufferSize str0 bytesRead0 =
      { ok := true
        str := readBytes (advance buffer 4) (loadNet32 buffer)
        bytesRead := 4 + loadNet32 buffer
        reads := [0, 1, 2, 3] ++ (List.range (loadNet32 buffer)).map (4 + ·) } := by
  have hl := loadNet32_lt buffer
  have h2 : (4 + loadNet32 buffer) % 18446744073709551616 = 4 + loadNet32 buffer :=
    Nat.mod_eq_of_lt (by omega)
  have h4 : ¬ bufferSize < 4 := by omega
  have h5 : ¬ bufferSize < 4 + loadNet32 buffer := by omega
  unfold deserializeString
  simp only [SIZE_MOD, Nat.reducePow, h2, h4, h5, if_false]

theorem deserializeString_bytesRead (buffer : Nat → Nat) (bufferSize : Nat) (str0 : List Nat)
    (bytesRead0 : Nat) (hok : (deserializeString buffer bufferSize str0 bytesRead0).ok = true) :
    (deserializeString buffer bufferSize str0 bytesRead0).bytesRead = 4 + loadNet32 buffer := by
  rw [deserializeString_of_le _ _ _ _ ((deserializeString_ok_iff _ _ _ _).mp hok)]

/-- C4. Truncated payloads are rejected: `deserializeString` returns false when the buffer
holds fewer than 4 bytes or fewer than 4 + declared length bytes, `deserializeFileInfo` returns
false when it holds fewer than 4 + declared filename length + 16 bytes, and neither reads a
byte at an index at or beyond `bufferSize`. -/
theorem decoders_reject_truncated (buffer : Nat → Nat) (bufferSize : Nat) (str0 : List Nat)
    (bytesRead0 : Nat) (fileInfo0 : FileInfo) (hsize : bufferSize < 2 ^ 64) :
    ((bufferSize < 4 ∨ bufferSize < 4 + loadNet32 buffer) →
      (deserializeString buffer bufferSize str0 bytesRead0).ok = false) ∧
    (∀ i ∈ (deserializeString buffer bufferSize str0 bytesRead0).reads, i < bufferSize) ∧
    (bufferSize < 4 + loadNet32 buffer + 16 →
      (deserializeFileInfo buffer bufferSize fileInfo0 bytesRead0).ok = false) ∧
    (∀ i ∈ (deserializeFileInfo buffer bufferSize fileInfo0 bytesRead0).reads,
      i < bufferSize) := by
  have hsz : bufferSize < 18446744073709551616 := by norm_num at hsize; exact hsize
  have hl := loadNet32_lt buffer
  have hreads := deserializeString_reads_lt buffer bufferSize fileInfo0.filename 0
  have hm1 : (4 + loadNet32 buffer) % 18446744073709551616 = 4 + loadNet32 buffer :=
    Nat.mod_eq_of_lt (by omega)
  have hm2 : (4 + loadNet32 buffer + 8) % 18446744073709551616 = 4 + loadNet32 buffer + 8 :=
    Nat.mod_eq_of_lt (by omega)
  refine ⟨?_, deserializeString_reads_lt buffer bufferSize str0 bytesRead0, ?_, ?_⟩
  · intro h
    have := deserializeString_ok_iff buffer bufferSize str0 bytesRead0
    cases hok : (deserializeString buffer bufferSize str0 bytesRead0).ok
    · rfl
    · rw [hok] at this
      have := this.mp rfl
      omega
  · intro h
    unfold deserializeFileInfo
    dsimp only
    split_ifs with c1 c2 c3
    · rfl
    · rfl
    · rfl
    · exfalso
      have hok : (deserializeString buffer bufferSize fileInfo0.filename 0).ok = true := by
        simpa using c1
      have hle := (deserializeString_ok_iff buffer bufferSize fileInfo0.filename 0).mp hok
      rw [deserializeString_bytesRead _ _ _ _ hok] at c2 c3
      simp only [SIZE_MOD, Nat.reducePow, hm1, hm2] at c2 c3
      rw [sizeSub_of_le bufferSize _ hsz hle] at c2
      rw [sizeSub_of_le bufferSize _ hsz (by omega)] at c3
      omega
  · intro i hi
    unfold deserializeFileInfo at hi
    dsimp only at hi
    split_ifs at hi with c1 c2 c3
    · exact hreads i hi
    · exact hreads i hi
    · have hok : (deserializeString buffer bufferSize fileInfo0.filename 0).ok = true := by
        simpa using c1
      have hle := (deserializeString_ok_iff buffer bufferSize fileInfo0.filename 0).mp hok
      rw [deserializeString_bytesRead _ _ _ _ hok] at c2 hi
      simp only [SIZE_MOD, Nat.reducePow, hm1] at c2 hi
      rw [sizeSub_of_le bufferSize _ hsz hle] at c2
      simp only [deserializeUint64, List.mem_append, List.mem_map, List.mem_range] at hi
      rcases hi with hi | ⟨a, ha, rfl⟩
      · exact hreads i hi
      · omega
    · have hok : (deserializeString buffer bufferSize fileInfo0.filename 0).ok = true := by
        simpa using c1
      have hle := (deserializeString_ok_iff buffer bufferSize fileInfo0.filename 0).mp hok
      rw [deserializeString_bytesRead _ _ _ _ hok] at c2 c3 hi
      simp only [SIZE_MOD, Nat.reducePow, hm1, hm2] at c2 c3 hi
      rw [sizeSub_of_le bufferSize _ hsz hle] at c2
      rw [sizeSub_of_le bufferSize _ hsz (by omega)] at c3
      simp only [deserializeUint64, List.mem_append, List.mem_map, List.mem_range] at hi
      rcases hi with (hi | ⟨a, ha, rfl⟩) | ⟨a, ha, rfl⟩
      · exact hreads i hi
      · omega
      · omega

end CodecTheorems3

section CodecWitnesses

open ProtocolHelper

theorem serializeHeader_deserializeHeader_roundtrip_witness :
    (5 < 256 ∧ 300 < 2 ^ 32 ∧ (List.replicate 8 0).length = 8) ∧
    (serializeHeader (MessageHeader.ofType 5 300) (List.replicate 8 0)).1 = true ∧
    (serializeHeader (MessageHeader.ofType 5 300) (List.replicate 8 0)).2.length = 8 ∧
    (deserializeHeader
      (vectorData (serializeHeader (MessageHeader.ofType 5 300) (List.replicate 8 0)).2
        (fun _ => 0)) 8 MessageHeader.default).ok = true ∧
    (deserializeHeader
      (vectorData (serializeHeader (MessageHeader.ofType 5 300) (List.replicate 8 0)).2
        (fun _ => 0)) 8 MessageHeader.default).header =
      { magicNumber := 0x4653, version := 1, messageType := 5, payloadLength := 300 } :=
  ⟨by decide,
    serializeHeader_deserializeHeader_roundtrip 5 300 (List.replicate 8 0) MessageHeader.default
      (fun _ => 0) (by decide) (by decide) (by decide)⟩

theorem sampleHeaderBytes_lt (i : Nat) : sampleHeaderBytes i < 256 := by
  unfold sampleHeaderBytes
  split_ifs <;> decide

theorem deserializeHeader_fails_iff_witness :
    (∀ i, sampleHeaderBytes i < 256) ∧
    (deserializeHeader sampleHeaderBytes 8 MessageHeader.default).ok = true ∧
    (deserializeHeader sampleHeaderBytes 8 MessageHeader.default).header.version = 9 :=
  ⟨sampleHeaderBytes_lt,
    (deserializeHeader_fails_iff sampleHeaderBytes 8 MessageHeader.default
      sampleHeaderBytes_lt).2 (by decide) (by decide) (by decide)⟩

theorem serializeString_deserializeString_roundtrip_witness :
    ([104, 0, 105].length < 2 ^ 32 ∧ 4 + [104, 0, 105].length ≤ (List.replicate 10 7).length) ∧
    (serializeString [104, 0, 105] (List.replicate 10 7)).1 = 4 + [104, 0, 105].length ∧
    (serializeString [104, 0, 105] (List.replicate 10 7)).2 =
      storeNet32 [104, 0, 105].length ++ [104, 0, 105] ++
        (List.replicate 10 7).drop (4 + [104, 0, 105].length) ∧
    (deserializeString (vectorData (serializeString [104, 0, 105] (List.replicate 10 7)).2
      (fun _ => 0)) (List.replicate 10 7).length [] 0).ok = true ∧
    (deserializeString (vectorData (serializeString [104, 0, 105] (List.replicate 10 7)).2
      (fun _ => 0)) (List.replicate 10 7).length [] 0).str = [104, 0, 105] ∧
    (deserializeString (vectorData (serializeString [104, 0, 105] (List.replicate 10 7)).2
      (fun _ => 0)) (List.replicate 10 7).length [] 0).bytesRead = 4 + [104, 0, 105].length :=
  ⟨by decide,
    serializeString_deserializeString_roundtrip [104, 0, 105] (List.replicate 10 7) [] 0
      (fun _ => 0) (by decide) (by decide)⟩

theorem decoders_reject_truncated_witness :
    7 < 2 ^ 64 ∧
    (deserializeString sampleTruncated 7 [] 0).ok = false ∧
    (deserializeFileInfo sampleTruncated 7 FileInfo.default 0).ok = false :=
  ⟨by decide,
    (decoders_reject_truncated sampleTruncated 7 [] 0 FileInfo.default (by decide)).1
      (Or.inr (by decide)),
    (decoders_reject_truncated sampleTruncated 7 [] 0 FileInfo.default (by decide)).2.2.1
      (by decide)⟩

end CodecWitnesses

/-! ## Validation helpers and the Upload-Request decoder: theorems -/

section ValidationLemmas

theorem isPrefixOf_iff_exists (needle hay : List Nat) :
    needle.isPrefixOf hay = true ↔ ∃ post, hay = needle ++ post := by
  induction needle generalizing hay with
  | nil => simp
  | cons a needle ih =>
    cases hay with
    | nil => simp
    | cons b hay =>
      simp only [List.isPrefixOf, Bool.and_eq_true, beq_iff_eq, ih, List.cons_append,
        List.cons.injEq]
      constructor
      · rintro ⟨rfl, post, rfl⟩
        exact ⟨post, rfl, rfl⟩
      · rintro ⟨post, rfl, rfl⟩
        exact ⟨rfl, post, rfl⟩

theorem findFrom_eq_none_iff (hay needle : List Nat) (pos : Nat) :
    findFrom hay needle pos = none ↔ ¬ ∃ pre post, hay = pre ++ needle ++ post := by
  induction hay generalizing pos with
  | nil =>
    by_cases hn : needle = []
    · subst hn
      simp only [findFrom, if_true, reduceCtorEq, false_iff, not_not]
      exact ⟨[], [], rfl⟩
    · simp only [findFrom, hn, if_false, true_iff]
      rintro ⟨pre, post, h⟩
      have h1 := congrArg List.length h
      simp only [List.length_nil, List.length_append] at h1
      have : needle.length = 0 := by omega
      exact hn (List.length_eq_zero.mp this)
  | cons c rest ih =>
    by_cases hp : needle.isPrefixOf (c :: rest) = true
    · simp only [findFrom, hp, if_true, reduceCtorEq, false_iff, not_not]
      obtain ⟨post, hpost⟩ := (isPrefixOf_iff_exists needle (c :: rest)).mp hp
      exact ⟨[], post, by simpa using hpost⟩
    · simp only [findFrom, hp, Bool.false_eq_true, if_false, ih]
      constructor
      · rintro hno ⟨pre, post, h⟩
        cases pre with
        | nil =>
          exact hp ((isPrefixOf_iff_exists needle (c :: rest)).mpr ⟨post, by simpa using h⟩)
        | cons p pre =>
          simp only [List.cons_append, List.cons.injEq] at h
          exact hno ⟨pre, post, h.2⟩
      · rintro hno ⟨pre, post, h⟩
        exact hno ⟨c :: pre, post, by simp [h]⟩

theorem find_singleton_eq_none_iff (hay : List Nat) (c : Nat) :
    find hay [c] = none ↔ c ∉ hay := by
  unfold find
  rw [findFrom_eq_none_iff, not_iff_not]
  constructor
  · rintro ⟨pre, post, rfl⟩
    simp
  · intro h
    obtain ⟨pre, post, rfl⟩ := List.append_of_mem h
    exact ⟨pre, post, by simp⟩

end ValidationLemmas

section ValidationTheorems

open ProtocolHelper SecurityHelper ClientHandler

/-- C5, at the payload `00 00 00 01 61` (filename `"a"`, declared size missing): the
Upload-Request handler reads the indices 5 to 12 of a 5-byte payload, and when the bytes found
there spell a size of 1 it opens the file for writing, records an upload and answers with a
Connect-Response instead of an Error-Response. -/
theorem handleUploadRequest_truncated_reads_beyond_payload :
    truncatedUploadRequest.length = 5 ∧
    (handleMessage sampleEnv sampleAuthenticated MSG_UPLOAD_REQUEST
      truncatedUploadRequest).2.payloadReads = [0, 1, 2, 3, 4, 5, 6, 7, 8, 9, 10, 11, 12] ∧
    (handleMessage sampleEnv sampleAuthenticated MSG_UPLOAD_REQUEST
      truncatedUploadRequest).2.calls = [StorageCall.openForWriting [97]] ∧
    (handleMessage sampleEnv sampleAuthenticated MSG_UPLOAD_REQUEST
      truncatedUploadRequest).2.m_uploadFile.target = some [97] ∧
    (handleMessage sampleEnv sampleAuthenticated MSG_UPLOAD_REQUEST
      truncatedUploadRequest).2.m_uploadExpectedSize = 1 ∧
    (handleMessage sampleEnv sampleAuthenticated MSG_UPLOAD_REQUEST
      truncatedUploadRequest).2.sent.map (fun f => f.messageType) = [MSG_CONNECT_RESPONSE] := by
  decide

/-- C6. `isValidFilename(name)` holds exactly when `1 ≤ |name| ≤ 255` and `name` has no `".."`
substring, no `'/'`, no backslash and no zero byte; it rejects `"../../etc/passwd"`, `"a/b"`,
`"a\b"`, the empty string and every 300-character name, and accepts `"report.pdf"`. -/
theorem isValidFilename_iff :
    (∀ name : List Nat, isValidFilename name = true ↔
      (1 ≤ name.length ∧ name.length ≤ 255 ∧
        (¬ ∃ pre post, name = pre ++ [46, 46] ++ post) ∧
        47 ∉ name ∧ 92 ∉ name ∧ 0 ∉ name)) ∧
    isValidFilename (ascii "../../etc/passwd") = false ∧
    isValidFilename (ascii "a/b") = false ∧
    isValidFilename [97, 92, 98] = false ∧
    isValidFilename [] = false ∧
    (∀ name : List Nat, name.length = 300 → isValidFilename name = false) ∧
    isValidFilename (ascii "report.pdf") = true := by
  have key : ∀ name : List Nat, isValidFilename name = true ↔
      (1 ≤ name.length ∧ name.length ≤ 255 ∧
        (¬ ∃ pre post, name = pre ++ [46, 46] ++ post) ∧
        47 ∉ name ∧ 92 ∉ name ∧ 0 ∉ name) := by
    intro name
    have hdots := findFrom_eq_none_iff name [46, 46] 0
    have h47 := find_singleton_eq_none_iff name 47
    have h92 := find_singleton_eq_none_iff name 92
    have h0 := find_singleton_eq_none_iff name 0
    unfold find at h47 h92 h0
    unfold isValidFilename find
    simp only [MAX_FILENAME_LENGTH]
    split_ifs with c1 c2 c3 c4 c5
    · simp only [Bool.false_eq_true, false_iff]
      rintro ⟨h1, h2, -⟩
      omega
    · simp only [Bool.false_eq_true, false_iff]
      rintro ⟨-, -, h3, -⟩
      exact c2 (hdots.mpr h3)
    · simp only [Bool.false_eq_true, false_iff]
      rintro ⟨-, -, -, h4, -⟩
      exact c3 (h47.mpr h4)
    · simp only [Bool.false_eq_true, false_iff]
      rintro ⟨-, -, -, -, h5, -⟩
      exact c4 (h92.mpr h5)
    · simp only [Bool.false_eq_true, false_iff]
      rintro ⟨-, -, -, -, -, h6⟩
      exact c5 (h0.mpr h6)
    · simp only [true_iff]
      refine ⟨by omega, by omega, hdots.mp (by simpa using c2), h47.mp (by simpa using c3),
        h92.mp (by simpa using c4), h0.mp (by simpa using c5)⟩
  refine ⟨key, by decide, by decide, by decide, by decide, ?_, by decide⟩
  intro name hlen
  cases h : isValidFilename name
  · rfl
  · have := (key name).mp h
    omega

end ValidationTheorems

/-! ## Session engine: theorems -/

section SessionLemmas

open ProtocolHelper SecurityHelper ClientHandler

theorem sendMessage_eq (env : Env) (h : ClientHandler) (messageType : Nat) (payload : List Nat) :
    sendMessage env h messageType payload =
      (env.sendOk h.sent.length,
        { h with sent := h.sent ++
            [{ messageType := messageType
               header := storeNet16 MAGIC_NUMBER ++ [PROTOCOL_VERSION, messageType] ++
                 storeNet32 (payload.length % U32_MOD)
               payload := payload
               delivered := env.sendOk h.sent.length }] }) := by
  have h8 : List.replicate 8 0 = [0, 0, 0, 0, 0, 0, 0, 0] := rfl
  unfold sendMessage
  dsimp only
  rw [h8, serializeHeader_eight]
  rfl

theorem sendErrorResponse_eq (env : Env) (h : ClientHandler) (errorMsg : List Nat) :
    sendErrorResponse env h errorMsg =
      { h with sent := h.sent ++
          [{ messageType := MSG_ERROR_RESPONSE
             header := storeNet16 MAGIC_NUMBER ++ [PROTOCOL_VERSION, MSG_ERROR_RESPONSE] ++
               storeNet32 ((createStatusPayload STATUS_ERROR errorMsg).length % U32_MOD)
             payload := createStatusPayload STATUS_ERROR errorMsg
             delivered := env.sendOk h.sent.length }] } := by
  unfold sendErrorResponse
  rw [sendMessage_eq]

theorem sameButLog_refl (h : ClientHandler) : SameButLog h h :=
  ⟨rfl, rfl, rfl, rfl, rfl, rfl, rfl, rfl, rfl, rfl⟩

theorem sameButLog_trans {h h1 h2 : ClientHandler} (a : SameButLog h h1) (b : SameButLog h1 h2) :
    SameButLog h h2 := by
  obtain ⟨a1, a2, a3, a4, a5, a6, a7, a8, a9, a10⟩ := a
  obtain ⟨b1, b2, b3, b4, b5, b6, b7, b8, b9, b10⟩ := b
  exact ⟨b1.trans a1, b2.trans a2, b3.trans a3, b4.trans a4, b5.trans a5, b6.trans a6,
    b7.trans a7, b8.trans a8, b9.trans a9, b10.trans a10⟩

theorem sendMessage_same (env : Env) (h : ClientHandler) (messageType : Nat)
    (payload : List Nat) : SameButLog h (sendMessage env h messageType payload).2 := by
  rw [sendMessage_eq]
  exact ⟨rfl, rfl, rfl, rfl, rfl, rfl, rfl, rfl, rfl, rfl⟩

theorem sendErrorResponse_same (env : Env) (h : ClientHandler) (errorMsg : List Nat) :
    SameButLog h (sendErrorResponse env h errorMsg) :=
  sendMessage_same env h _ _

theorem noteReads_same (h : ClientHandler) (reads : List Nat) :
    SameButLog h (noteReads h reads) :=
  ⟨rfl, rfl, rfl, rfl, rfl, rfl, rfl, rfl, rfl, rfl⟩

theorem downloadLoop_same (env : Env) (content : List Nat) (fileSize : Nat) (fuel : Nat)
    (h : ClientHandler) (totalSent : Nat) (buffer : List Nat) :
    SameButLog h (downloadLoop env content fileSize fuel h totalSent buffer).2 := by
  induction fuel generalizing h totalSent buffer with
  | zero => exact sameButLog_refl h
  | succ fuel ih =>
    unfold downloadLoop
    dsimp only
    split_ifs with c1 c2
    · exact sendMessage_same env h _ _
    · exact sameButLog_trans (sendMessage_same env h _ _) (ih _ _ _)
    · exact sameButLog_refl h

end SessionLemmas

section HandlerLemmas

open ProtocolHelper SecurityHelper ClientHandler

theorem sameButLog_gated {h h1 : ClientHandler} (a : SameButLog h h1) : GatedStep h h1 := by
  obtain ⟨a1, a2, a3, a4, a5, a6, a7, a8, a9, a10⟩ := a
  exact ⟨a1, a2, a4, [], by simpa using a10, by simp⟩

theorem gatedStep_after_same {h h1 h2 : ClientHandler} (a : GatedStep h h1)
    (b : SameButLog h1 h2) : GatedStep h h2 := by
  obtain ⟨a1, a2, a3, new, a4, a5⟩ := a
  obtain ⟨b1, b2, b3, b4, b5, b6, b7, b8, b9, b10⟩ := b
  exact ⟨b1.trans a1, b2.trans a2, b4.trans a3, new, b10.trans a4, a5⟩

theorem handleListFiles_gated (env : Env) (h : ClientHandler) :
    GatedStep h (handleListFiles env h).2 := by
  have base : GatedStep h { h with calls := h.calls ++ [StorageCall.getFileList] } :=
    ⟨rfl, rfl, rfl, [StorageCall.getFileList], rfl, by simp [FilenameGated]⟩
  unfold handleListFiles
  dsimp only
  split
  · exact gatedStep_after_same base (sendErrorResponse_same _ _ _)
  · exact gatedStep_after_same base (sendMessage_same _ _ _ _)

theorem handleDownloadRequest_gated (env : Env) (h : ClientHandler) (payload : List Nat) :
    GatedStep h (handleDownloadRequest env h payload).2 := by
  unfold handleDownloadRequest
  dsimp only
  split_ifs with c1 c2
  · exact sameButLog_gated (sameButLog_trans (noteReads_same h _) (sendErrorResponse_same _ _ _))
  · exact sameButLog_gated (sameButLog_trans (noteReads_same h _) (sendErrorResponse_same _ _ _))
  · have hvalid : isValidFilename
        (deserializeString (vectorData payload env.beyond) payload.length [] 0).str = true := by
      simpa using c2
    have base : GatedStep h
        { noteReads h (deserializeString (vectorData payload env.beyond) payload.length [] 0).reads
          with calls := (noteReads h (deserializeString (vectorData payload env.beyond)
            payload.length [] 0).reads).calls ++ [StorageCall.openForReading
              (deserializeString (vectorData payload env.beyond) payload.length [] 0).str] } :=
      ⟨rfl, rfl, rfl, [_], rfl, by simpa [FilenameGated] using hvalid⟩
    split
    · exact gatedStep_after_same base (sendErrorResponse_same _ _ _)
    · split_ifs
      · exact gatedStep_after_same base (downloadLoop_same _ _ _ _ _ _ _)
      · exact gatedStep_after_same base
          (sameButLog_trans (downloadLoop_same _ _ _ _ _ _ _) (sendMessage_same _ _ _ _))

theorem handleUploadRequest_gated (env : Env) (h : ClientHandler) (payload : List Nat) :
    GatedStep h (handleUploadRequest env h payload).2 := by
  unfold handleUploadRequest
  dsimp only
  split_ifs with c1 c2 c3 c4
  · exact sameButLog_gated (sameButLog_trans (noteReads_same h _) (sendErrorResponse_same _ _ _))
  · exact sameButLog_gated (sameButLog_trans (noteReads_same h _) (sendErrorResponse_same _ _ _))
  · exact sameButLog_gated (sameButLog_trans (noteReads_same h _)
      (sameButLog_trans (noteReads_same _ _) (sendErrorResponse_same _ _ _)))
  · have hvalid : isValidFilename
        (deserializeString (vectorData payload env.beyond) payload.length [] 0).str = true := by
      simpa using c2
    refine gatedStep_after_same ?_ (sendErrorResponse_same _ _ _)
    exact ⟨rfl, rfl, rfl, [_], rfl, by simpa [FilenameGated] using hvalid⟩
  · have hvalid : isValidFilename
        (deserializeString (vectorData payload env.beyond) payload.length [] 0).str = true := by
      simpa using c2
    refine gatedStep_after_same ?_ (sendMessage_same _ _ _ _)
    exact ⟨rfl, rfl, rfl, [_], rfl, by simpa [FilenameGated] using hvalid⟩

theorem handleUploadData_gated (env : Env) (h : ClientHandler) (payload : List Nat) :
    GatedStep h (handleUploadData env h payload).2 := by
  unfold handleUploadData
  dsimp only
  split_ifs with c1
  · exact sameButLog_gated (sendErrorResponse_same _ _ _)
  · exact ⟨rfl, rfl, rfl, [], by simp [noteReads], by simp⟩

theorem handleUploadComplete_gated (h : ClientHandler) :
    GatedStep h (handleUploadComplete h).2 := by
  unfold handleUploadComplete
  dsimp only
  split_ifs with c1
  · exact ⟨rfl, rfl, rfl, [], by simp, by simp⟩
  · exact ⟨rfl, rfl, rfl, [], by simp, by simp⟩

theorem handleDeleteRequest_gated (env : Env) (h : ClientHandler) (payload : List Nat) :
    GatedStep h (handleDeleteRequest env h payload).2 := by
  unfold handleDeleteRequest
  dsimp only
  split_ifs with c1 c2 c3
  · exact sameButLog_gated (sameButLog_trans (noteReads_same h _) (sendErrorResponse_same _ _ _))
  · exact sameButLog_gated (sameButLog_trans (noteReads_same h _) (sendErrorResponse_same _ _ _))
  · have hvalid : isValidFilename
        (deserializeString (vectorData payload env.beyond) payload.length [] 0).str = true := by
      simpa using c2
    refine gatedStep_after_same ?_ (sendMessage_same _ _ _ _)
    exact ⟨rfl, rfl, rfl, [_], rfl, by simpa [FilenameGated] using hvalid⟩
  · have hvalid : isValidFilename
        (deserializeString (vectorData payload env.beyond) payload.length [] 0).str = true := by
      simpa using c2
    refine gatedStep_after_same ?_ (sendErrorResponse_same _ _ _)
    exact ⟨rfl, rfl, rfl, [_], rfl, by simpa [FilenameGated] using hvalid⟩

/-- What `handleAuthentication` may change: the authentication flag, the failure counter and
the records of sent frames and payload reads. -/
theorem handleAuthentication_untouched (env : Env) (h : ClientHandler) (payload : List Nat) :
    StorageUntouched h (handleAuthentication env h payload).2 ∧
    (handleAuthentication env h payload).2.m_serverPasswordHash = h.m_serverPasswordHash ∧
    (h.m_authenticated = true →
      (handleAuthentication env h payload).2.m_authenticated = true) := by
  unfold handleAuthentication
  dsimp only
  split_ifs with c1 c2 c3
  · rw [sendErrorResponse_eq]
    exact ⟨⟨rfl, rfl, rfl, rfl, rfl, rfl⟩, rfl, fun a => a⟩
  · rw [sendMessage_eq]
    exact ⟨⟨rfl, rfl, rfl, rfl, rfl, rfl⟩, rfl, fun _ => rfl⟩
  · rw [sendErrorResponse_eq]
    exact ⟨⟨rfl, rfl, rfl, rfl, rfl, rfl⟩, rfl, fun a => a⟩
  · rw [sendErrorResponse_eq]
    exact ⟨⟨rfl, rfl, rfl, rfl, rfl, rfl⟩, rfl, fun a => a⟩

end HandlerLemmas

section MessageLemmas

open ProtocolHelper SecurityHelper ClientHandler

/-- Case analysis on the two `switch` statements of `handleMessage`: a property holds of the
result as soon as it holds of the result of each reachable branch. -/
theorem dispatch_cases (env : Env) (h : ClientHandler) (messageType : Nat) (payload : List Nat)
    (P : Bool × ClientHandler → Prop)
    (hConnect : messageType = MSG_CONNECT_REQUEST → P (handleAuthentication env h payload))
    (hDisconnect : messageType = MSG_DISCONNECT → P (false, h))
    (hDenied : h.m_authenticated = false →
      (messageType = MSG_LIST_FILES ∨ messageType = MSG_DOWNLOAD_REQUEST ∨
        messageType = MSG_UPLOAD_REQUEST ∨ messageType = MSG_UPLOAD_DATA ∨
        messageType = MSG_UPLOAD_COMPLETE ∨ messageType = MSG_DELETE_REQUEST) →
      P (false, sendErrorResponse env h (ascii "Not authenticated - password required")))
    (hList : h.m_authenticated = true → messageType = MSG_LIST_FILES →
      P (handleListFiles env h))
    (hDownload : h.m_authenticated = true → messageType = MSG_DOWNLOAD_REQUEST →
      P (handleDownloadRequest env h payload))
    (hUpload : h.m_authenticated = true → messageType = MSG_UPLOAD_REQUEST →
      P (handleUploadRequest env h payload))
    (hData : h.m_authenticated = true → messageType = MSG_UPLOAD_DATA →
      P (handleUploadData env h payload))
    (hComplete : h.m_authenticated = true → messageType = MSG_UPLOAD_COMPLETE →
      P (handleUploadComplete h))
    (hDelete : h.m_authenticated = true → messageType = MSG_DELETE_REQUEST →
      P (handleDeleteRequest env h payload))
    (hUnknown : messageType ≠ MSG_CONNECT_REQUEST → messageType ≠ MSG_DISCONNECT →
      ¬ (messageType = MSG_LIST_FILES ∨ messageType = MSG_DOWNLOAD_REQUEST ∨
        messageType = MSG_UPLOAD_REQUEST ∨ messageType = MSG_UPLOAD_DATA ∨
        messageType = MSG_UPLOAD_COMPLETE ∨ messageType = MSG_DELETE_REQUEST) →
      P (true, sendErrorResponse env h (ascii "Unknown message type"))) :
    P (dispatch env h messageType payload) := by
  unfold dispatch
  by_cases c1 : messageType = MSG_CONNECT_REQUEST
  · rw [if_pos c1]
    exact hConnect c1
  rw [if_neg c1]
  by_cases c2 : messageType = MSG_DISCONNECT
  · rw [if_pos c2]
    exact hDisconnect c2
  rw [if_neg c2]
  by_cases c3 : messageType = MSG_LIST_FILES ∨ messageType = MSG_DOWNLOAD_REQUEST ∨
      messageType = MSG_UPLOAD_REQUEST ∨ messageType = MSG_UPLOAD_DATA ∨
      messageType = MSG_UPLOAD_COMPLETE ∨ messageType = MSG_DELETE_REQUEST
  · rw [if_pos c3]
    cases hauth : h.m_authenticated
    · have c4 : (!checkAuthenticated h) = true := by
        unfold checkAuthenticated
        rw [hauth]
        rfl
      rw [if_pos c4]
      exact hDenied hauth c3
    · have c4 : ¬ (!checkAuthenticated h) = true := by
        unfold checkAuthenticated
        rw [hauth]
        exact Bool.false_ne_true
      rw [if_neg c4]
      by_cases d1 : messageType = MSG_LIST_FILES
      · rw [if_pos d1]
        exact hList hauth d1
      rw [if_neg d1]
      by_cases d2 : messageType = MSG_DOWNLOAD_REQUEST
      · rw [if_pos d2]
        exact hDownload hauth d2
      rw [if_neg d2]
      by_cases d3 : messageType = MSG_UPLOAD_REQUEST
      · rw [if_pos d3]
        exact hUpload hauth d3
      rw [if_neg d3]
      by_cases d4 : messageType = MSG_UPLOAD_DATA
      · rw [if_pos d4]
        exact hData hauth d4
      rw [if_neg d4]
      by_cases d5 : messageType = MSG_UPLOAD_COMPLETE
      · rw [if_pos d5]
        exact hComplete hauth d5
      rw [if_neg d5]
      by_cases d6 : messageType = MSG_DELETE_REQUEST
      · rw [if_pos d6]
        exact hDelete hauth d6
      · exfalso
        rcases c3 with c | c | c | c | c | c
        · exact d1 c
        · exact d2 c
        · exact d3 c
        · exact d4 c
        · exact d5 c
        · exact d6 c
  · rw [if_neg c3]
    exact hUnknown c1 c2 c3

/-- Case analysis on `handleMessage`: the timeout branch, or the dispatch on the session with
its activity time refreshed. -/
theorem handleMessage_cases (env : Env) (h : ClientHandler) (messageType : Nat)
    (payload : List Nat) (P : Bool × ClientHandler → Prop)
    (hTimeout : env.timeAtCheck - env.timeAtUpdate > 300 →
      P (false, updateActivity env { h with payloadReads := [] }))
    (hDispatch : ¬ env.timeAtCheck - env.timeAtUpdate > 300 →
      P (dispatch env (updateActivity env { h with payloadReads := [] }) messageType payload)) :
    P (handleMessage env h messageType payload) := by
  unfold handleMessage
  by_cases c : env.timeAtCheck - env.timeAtUpdate > 300
  · have c1 : checkTimeout env (updateActivity env { h with payloadReads := [] }) = true :=
      decide_eq_true c
    simp only [c1, if_true]
    exact hTimeout c
  · have c1 : checkTimeout env (updateActivity env { h with payloadReads := [] }) = false :=
      decide_eq_false c
    simp only [c1, Bool.false_eq_true, if_false]
    exact hDispatch c

end MessageLemmas

section StepLemmas

open ProtocolHelper SecurityHelper ClientHandler

theorem gatedStep_step {h h1 : ClientHandler} (a : GatedStep h h1) : MessageStep h h1 := by
  obtain ⟨a1, a2, -, new, a4, a5⟩ := a
  exact ⟨a1, fun t => a2.trans t, new, a4, a5⟩

theorem sameButLog_untouched {h h1 : ClientHandler} (a : SameButLog h h1) :
    StorageUntouched h h1 := by
  obtain ⟨a1, a2, a3, a4, a5, a6, a7, a8, a9, a10⟩ := a
  exact ⟨a10, a9, a5, a6, a7, a8⟩

theorem dispatch_step (env : Env) (h : ClientHandler) (messageType : Nat)
    (payload : List Nat) : MessageStep h (dispatch env h messageType payload).2 := by
  apply dispatch_cases env h messageType payload (fun r => MessageStep h r.2)
  · intro _
    obtain ⟨⟨u1, -⟩, u2, u3⟩ := handleAuthentication_untouched env h payload
    exact ⟨u2, u3, [], by simpa using u1, by simp⟩
  · intro _
    exact gatedStep_step (sameButLog_gated (sameButLog_refl h))
  · intro _ _
    exact gatedStep_step (sameButLog_gated (sendErrorResponse_same env h _))
  · intro _ _
    exact gatedStep_step (handleListFiles_gated env h)
  · intro _ _
    exact gatedStep_step (handleDownloadRequest_gated env h payload)
  · intro _ _
    exact gatedStep_step (handleUploadRequest_gated env h payload)
  · intro _ _
    exact gatedStep_step (handleUploadData_gated env h payload)
  · intro _ _
    exact gatedStep_step (handleUploadComplete_gated h)
  · intro _ _
    exact gatedStep_step (handleDeleteRequest_gated env h payload)
  · intro _ _ _
    exact gatedStep_step (sameButLog_gated (sendErrorResponse_same env h _))

theorem handleMessage_step (env : Env) (h : ClientHandler) (messageType : Nat)
    (payload : List Nat) : MessageStep h (handleMessage env h messageType payload).2 := by
  apply handleMessage_cases env h messageType payload (fun r => MessageStep h r.2)
  · intro _
    exact ⟨rfl, fun a => a, [], by simp [updateActivity], by simp⟩
  · intro _
    exact dispatch_step env (updateActivity env { h with payloadReads := [] }) messageType payload

theorem dispatch_unauthenticated_untouched (env : Env) (h : ClientHandler)
    (messageType : Nat) (payload : List Nat) (hauth : h.m_authenticated = false) :
    StorageUntouched h (dispatch env h messageType payload).2 := by
  have absurd_auth : h.m_authenticated = true → False := by
    intro t
    rw [hauth] at t
    exact Bool.false_ne_true t
  apply dispatch_cases env h messageType payload (fun r => StorageUntouched h r.2)
  · intro _
    exact (handleAuthentication_untouched env h payload).1
  · intro _
    exact sameButLog_untouched (sameButLog_refl h)
  · intro _ _
    exact sameButLog_untouched (sendErrorResponse_same env h _)
  · intro t _
    exact (absurd_auth t).elim
  · intro t _
    exact (absurd_auth t).elim
  · intro t _
    exact (absurd_auth t).elim
  · intro t _
    exact (absurd_auth t).elim
  · intro t _
    exact (absurd_auth t).elim
  · intro t _
    exact (absurd_auth t).elim
  · intro _ _ _
    exact sameButLog_untouched (sendErrorResponse_same env h _)

theorem handleMessage_unauthenticated_untouched (env : Env) (h : ClientHandler)
    (messageType : Nat) (payload : List Nat) (hauth : h.m_authenticated = false) :
    StorageUntouched h (handleMessage env h messageType payload).2 := by
  apply handleMessage_cases env h messageType payload (fun r => StorageUntouched h r.2)
  · intro _
    exact ⟨rfl, rfl, rfl, rfl, rfl, rfl⟩
  · intro _
    exact dispatch_unauthenticated_untouched env
      (updateActivity env { h with payloadReads := [] }) messageType payload hauth

end StepLemmas

section SessionTheorems

open ProtocolHelper SecurityHelper ClientHandler

/-- C7. Filename gating: whatever the session state and the message, every call that
`handleMessage` makes to `openForReading`, `openForWriting` or `deleteFile` carries a filename
for which `isValidFilename` holds. -/
theorem handleMessage_filename_gating (env : Env) (h : ClientHandler) (messageType : Nat)
    (payload : List Nat) :
    ∃ new, (handleMessage env h messageType payload).2.calls = h.calls ++ new ∧
      ∀ c ∈ new, ∀ filename,
        (c = StorageCall.openForReading filename ∨ c = StorageCall.openForWriting filename ∨
          c = StorageCall.deleteFile filename) →
        isValidFilename filename = true := by
  obtain ⟨-, -, new, hcalls, hgated⟩ := handleMessage_step env h messageType payload
  refine ⟨new, hcalls, ?_⟩
  intro c hc filename hform
  have hg := hgated c hc
  rcases hform with rfl | rfl | rfl <;> exact hg

end SessionTheorems

section ClientLoopLemmas

open ProtocolHelper SecurityHelper ClientHandler

/-- Case analysis on one round of the receive loop. -/
theorem handleClient_cons_cases (h : ClientHandler) (inc : Incoming) (rest : List Incoming)
    (P : ClientHandler → Prop)
    (hStop : P h)
    (hBad : P (sendErrorResponse inc.env h (ascii "Invalid message header")))
    (hEnd : ∀ messageType payload,
      (handleMessage inc.env h messageType payload).1 = false →
      P (handleMessage inc.env h messageType payload).2)
    (hNext : ∀ messageType payload,
      (handleMessage inc.env h messageType payload).1 = true →
      P (handleClient (handleMessage inc.env h messageType payload).2 rest)) :
    P (handleClient h (inc :: rest)) := by
  unfold handleClient
  by_cases c1 : inc.headerBytes.length = 0
  · rw [if_pos c1]
    exact hStop
  rw [if_neg c1]
  by_cases c2 : inc.headerBytes.length ≠ 8
  · rw [if_pos c2]
    exact hStop
  rw [if_neg c2]
  dsimp only
  cases c3 : (deserializeHeader (fun i => inc.headerBytes.getD i 0) 8 MessageHeader.default).ok
  · rw [if_pos (show (!false) = true from rfl)]
    exact hBad
  · rw [if_neg (show ¬ (!true) = true from Bool.false_ne_true)]
    by_cases c4 : inc.payloadBytes.length <
        (deserializeHeader (fun i => inc.headerBytes.getD i 0) 8
          MessageHeader.default).header.payloadLength
    · rw [if_pos c4]
      exact hStop
    rw [if_neg c4]
    cases c5 : (handleMessage inc.env h
        (deserializeHeader (fun i => inc.headerBytes.getD i 0) 8
          MessageHeader.default).header.messageType
        (inc.payloadBytes.take (deserializeHeader (fun i => inc.headerBytes.getD i 0) 8
          MessageHeader.default).header.payloadLength)).1
    · rw [if_pos (show (!false) = true from rfl)]
      exact hEnd _ _ c5
    · rw [if_neg (show ¬ (!true) = true from Bool.false_ne_true)]
      exact hNext _ _ c5

theorem handleClient_keeps_authenticated (h : ClientHandler) (incs : List Incoming)
    (hauth : h.m_authenticated = true) : (handleClient h incs).m_authenticated = true := by
  induction incs generalizing h with
  | nil => exact hauth
  | cons inc rest ih =>
    apply handleClient_cons_cases h inc rest (fun s => s.m_authenticated = true)
    · exact hauth
    · exact (sendErrorResponse_same inc.env h _).2.1.trans hauth
    · intro messageType payload _
      exact (handleMessage_step inc.env h messageType payload).2.1 hauth
    · intro messageType payload _
      exact ih _ ((handleMessage_step inc.env h messageType payload).2.1 hauth)

theorem storageUntouched_trans {h h1 h2 : ClientHandler} (a : StorageUntouched h h1)
    (b : StorageUntouched h1 h2) : StorageUntouched h h2 := by
  obtain ⟨a1, a2, a3, a4, a5, a6⟩ := a
  obtain ⟨b1, b2, b3, b4, b5, b6⟩ := b
  exact ⟨b1.trans a1, b2.trans a2, b3.trans a3, b4.trans a4, b5.trans a5, b6.trans a6⟩

theorem handleClient_unauthenticated_untouched (h : ClientHandler) (incs : List Incoming)
    (hauth : h.m_authenticated = false)
    (hend : (handleClient h incs).m_authenticated = false) :
    StorageUntouched h (handleClient h incs) := by
  induction incs generalizing h with
  | nil => exact ⟨rfl, rfl, rfl, rfl, rfl, rfl⟩
  | cons inc rest ih =>
    revert hend
    apply handleClient_cons_cases h inc rest
      (fun s => s.m_authenticated = false → StorageUntouched h s)
    · intro _
      exact ⟨rfl, rfl, rfl, rfl, rfl, rfl⟩
    · intro _
      exact sameButLog_untouched (sendErrorResponse_same inc.env h _)
    · intro messageType payload _ _
      exact handleMessage_unauthenticated_untouched inc.env h messageType payload hauth
    · intro messageType payload _ hend
      have hstep := handleMessage_unauthenticated_untouched inc.env h messageType payload hauth
      cases hmid : (handleMessage inc.env h messageType payload).2.m_authenticated
      · exact storageUntouched_trans hstep (ih _ hmid hend)
      · have := handleClient_keeps_authenticated _ rest hmid
        rw [this] at hend
        exact absurd hend (by decide)

end ClientLoopLemmas

section SessionTheorems2

open ProtocolHelper SecurityHelper ClientHandler

/-- C10. No storage access before authentication: along every sequence of rounds of the
receive loop started in an unauthenticated session, as long as the session is still
unauthenticated afterwards no call to the storage manager has been made and the storage and
the upload state are what they were; and the handling of any single message in an
unauthenticated session, the authenticating one included, makes no such call either. -/
theorem no_storage_access_before_authentication (h : ClientHandler)
    (hauth : h.m_authenticated = false) :
    (∀ incs : List Incoming, (handleClient h incs).m_authenticated = false →
      StorageUntouched h (handleClient h incs)) ∧
    (∀ (env : Env) (messageType : Nat) (payload : List Nat),
      StorageUntouched h (handleMessage env h messageType payload).2) :=
  ⟨fun incs hend => handleClient_unauthenticated_untouched h incs hauth hend,
    fun env messageType payload =>
      handleMessage_unauthenticated_untouched env h messageType payload hauth⟩

end SessionTheorems2

section LockoutLemmas

open ProtocolHelper SecurityHelper ClientHandler

theorem sendErrorResponse_sent (env : Env) (h : ClientHandler) (errorMsg : List Nat) :
    (sendErrorResponse env h errorMsg).sent =
      h.sent ++ [errorFrame errorMsg (env.sendOk h.sent.length)] := by
  rw [sendErrorResponse_eq]
  rfl

theorem deserializeString_wire (s extra : List Nat) (beyond : Nat → Nat)
    (hs : s.length < 4294967296) (str0 : List Nat) (bytesRead0 : Nat) :
    deserializeString (vectorData (storeNet32 s.length ++ s ++ extra) beyond)
      (storeNet32 s.length ++ s ++ extra).length str0 bytesRead0 =
      { ok := true, str := s, bytesRead := 4 + s.length,
        reads := [0, 1, 2, 3] ++ (List.range s.length).map (4 + ·) } := by
  have hl : loadNet32 (vectorData (storeNet32 s.length ++ s ++ extra) beyond) = s.length := by
    rw [List.append_assoc]
    exact loadNet32_storeNet32 _ hs _ _
  have h4 : (storeNet32 s.length).length = 4 := rfl
  have hle : 4 + loadNet32 (vectorData (storeNet32 s.length ++ s ++ extra) beyond) ≤
      (storeNet32 s.length ++ s ++ extra).length := by
    rw [hl]
    simp only [List.length_append, h4]
    omega
  rw [deserializeString_of_le _ _ _ _ hle, hl]
  have hr := readBytes_vectorData (storeNet32 s.length) s extra beyond
  rw [h4] at hr
  rw [hr]

/-- One Connect-Request that carries a hash other than the server's: the failure counter goes
up by one, an Error-Response is sent, and the session closes when the counter reaches 3. -/
theorem handleMessage_wrong_hash (env : Env) (h : ClientHandler) (hash extra : List Nat)
    (hlen : hash.length < 4294967296) (hne : hash ≠ h.m_serverPasswordHash)
    (hclock : ¬ env.timeAtCheck - env.timeAtUpdate > 300) :
    (handleMessage env h MSG_CONNECT_REQUEST (storeNet32 hash.length ++ hash ++ extra)).1 =
      decide (h.m_failedAttempts + 1 < 3) ∧
    (handleMessage env h MSG_CONNECT_REQUEST
      (storeNet32 hash.length ++ hash ++ extra)).2.m_failedAttempts = h.m_failedAttempts + 1 ∧
    (handleMessage env h MSG_CONNECT_REQUEST
      (storeNet32 hash.length ++ hash ++ extra)).2.m_authenticated = h.m_authenticated ∧
    (handleMessage env h MSG_CONNECT_REQUEST
      (storeNet32 hash.length ++ hash ++ extra)).2.m_serverPasswordHash =
        h.m_serverPasswordHash ∧
    (handleMessage env h MSG_CONNECT_REQUEST (storeNet32 hash.length ++ hash ++ extra)).2.sent =
      h.sent ++ [errorFrame
        (if h.m_failedAttempts + 1 < 3 then ascii "Invalid password"
          else ascii "Too many failed attempts - disconnecting")
        (env.sendOk h.sent.length)] := by
  have c1 : checkTimeout env (updateActivity env { h with payloadReads := [] }) = false :=
    decide_eq_false hclock
  unfold handleMessage
  simp only [c1, Bool.false_eq_true, if_false]
  unfold dispatch
  rw [if_pos rfl]
  unfold handleAuthentication
  simp only [deserializeString_wire hash extra env.beyond hlen, Bool.not_true,
    Bool.false_eq_true, if_false]
  have hne2 : ¬ hash = (noteReads (updateActivity env { h with payloadReads := [] })
      ([0, 1, 2, 3] ++ (List.range hash.length).map (4 + ·))).m_serverPasswordHash := hne
  rw [if_neg hne2]
  by_cases c3 : h.m_failedAttempts + 1 < 3
  · have c4 : ¬ ({ noteReads (updateActivity env { h with payloadReads := [] })
        ([0, 1, 2, 3] ++ (List.range hash.length).map (4 + ·)) with
        m_failedAttempts := (noteReads (updateActivity env { h with payloadReads := [] })
          ([0, 1, 2, 3] ++ (List.range hash.length).map (4 + ·))).m_failedAttempts + 1 }
        : ClientHandler).m_failedAttempts ≥ 3 := by
      show ¬ h.m_failedAttempts + 1 ≥ 3
      omega
    rw [if_neg c4, if_pos c3]
    refine ⟨(decide_eq_true c3).symm, ?_, ?_, ?_, ?_⟩
    · rw [sendErrorResponse_eq]; rfl
    · rw [sendErrorResponse_eq]; rfl
    · rw [sendErrorResponse_eq]; rfl
    · rw [sendErrorResponse_sent]; rfl
  · have c4 : ({ noteReads (updateActivity env { h with payloadReads := [] })
        ([0, 1, 2, 3] ++ (List.range hash.length).map (4 + ·)) with
        m_failedAttempts := (noteReads (updateActivity env { h with payloadReads := [] })
          ([0, 1, 2, 3] ++ (List.range hash.length).map (4 + ·))).m_failedAttempts + 1 }
        : ClientHandler).m_failedAttempts ≥ 3 := by
      show h.m_failedAttempts + 1 ≥ 3
      omega
    rw [if_pos c4, if_neg c3]
    refine ⟨(decide_eq_false c3).symm, ?_, ?_, ?_, ?_⟩
    · rw [sendErrorResponse_eq]; rfl
    · rw [sendErrorResponse_eq]; rfl
    · rw [sendErrorResponse_eq]; rfl
    · rw [sendErrorResponse_sent]; rfl

end LockoutLemmas

section SessionTheorems3

open ProtocolHelper SecurityHelper ClientHandler

/-- C8. Auth lockout: in a fresh session, the first and the second Connect-Request that carry
a well-formed hash other than the server's each produce one Error-Response frame and leave the
session open and unauthenticated; the third makes `handleMessage` return false. The clock is
read twice while a message is handled; for the first two messages the two readings are taken
to lie at most 300 seconds apart. -/
theorem auth_lockout (fileManager : FileManager) (serverHash hash extra : List Nat) (now : Int)
    (e1 e2 e3 : Env) (hne : hash ≠ serverHash) (hlen : hash.length < 2 ^ 32)
    (hc1 : ¬ e1.timeAtCheck - e1.timeAtUpdate > 300)
    (hc2 : ¬ e2.timeAtCheck - e2.timeAtUpdate > 300) :
    let payload := storeNet32 hash.length ++ hash ++ extra
    let r1 := handleMessage e1 (ClientHandler.create fileManager serverHash now)
      MSG_CONNECT_REQUEST payload
    let r2 := handleMessage e2 r1.2 MSG_CONNECT_REQUEST payload
    let r3 := handleMessage e3 r2.2 MSG_CONNECT_REQUEST payload
    (r1.1 = true ∧ r1.2.m_authenticated = false ∧
      r1.2.sent = [errorFrame (ascii "Invalid password") (e1.sendOk 0)]) ∧
    (r2.1 = true ∧ r2.2.m_authenticated = false ∧
      r2.2.sent = r1.2.sent ++ [errorFrame (ascii "Invalid password") (e2.sendOk 1)]) ∧
    r3.1 = false := by
  intro payload r1 r2 r3
  have hlen2 : hash.length < 4294967296 := by norm_num at hlen; exact hlen
  obtain ⟨a1, a2, a3, a4, a5⟩ := handleMessage_wrong_hash e1
    (ClientHandler.create fileManager serverHash now) hash extra hlen2 hne hc1
  have hne1 : hash ≠ r1.2.m_serverPasswordHash := by
    show hash ≠ (handleMessage e1 (ClientHandler.create fileManager serverHash now)
      MSG_CONNECT_REQUEST (storeNet32 hash.length ++ hash ++ extra)).2.m_serverPasswordHash
    rw [a4]
    exact hne
  obtain ⟨b1, b2, b3, b4, b5⟩ := handleMessage_wrong_hash e2 r1.2 hash extra hlen2 hne1 hc2
  have hne2 : hash ≠ r2.2.m_serverPasswordHash := by
    show hash ≠ (handleMessage e2 r1.2 MSG_CONNECT_REQUEST
      (storeNet32 hash.length ++ hash ++ extra)).2.m_serverPasswordHash
    rw [b4]
    exact hne1
  have f0 : (ClientHandler.create fileManager serverHash now).m_failedAttempts = 0 := rfl
  have f1 : r1.2.m_failedAttempts = 1 := by
    show (handleMessage e1 (ClientHandler.create fileManager serverHash now)
      MSG_CONNECT_REQUEST (storeNet32 hash.length ++ hash ++ extra)).2.m_failedAttempts = 1
    rw [a2, f0]
    rfl
  have f2 : r2.2.m_failedAttempts = 2 := by
    show (handleMessage e2 r1.2 MSG_CONNECT_REQUEST
      (storeNet32 hash.length ++ hash ++ extra)).2.m_failedAttempts = 2
    rw [b2, f1]
    rfl
  have s1 : r1.2.sent = [errorFrame (ascii "Invalid password") (e1.sendOk 0)] := by
    show (handleMessage e1 (ClientHandler.create fileManager serverHash now)
      MSG_CONNECT_REQUEST (storeNet32 hash.length ++ hash ++ extra)).2.sent = _
    rw [a5, f0]
    rfl
  have l1 : r1.2.sent.length = 1 := by rw [s1]; rfl
  refine ⟨⟨?_, ?_, s1⟩, ⟨?_, ?_, ?_⟩, ?_⟩
  · show (handleMessage e1 (ClientHandler.create fileManager serverHash now)
      MSG_CONNECT_REQUEST (storeNet32 hash.length ++ hash ++ extra)).1 = true
    rw [a1, f0]
    rfl
  · show (handleMessage e1 (ClientHandler.create fileManager serverHash now)
      MSG_CONNECT_REQUEST (storeNet32 hash.length ++ hash ++ extra)).2.m_authenticated = false
    rw [a3]
    rfl
  · show (handleMessage e2 r1.2 MSG_CONNECT_REQUEST
      (storeNet32 hash.length ++ hash ++ extra)).1 = true
    rw [b1, f1]
    rfl
  · show (handleMessage e2 r1.2 MSG_CONNECT_REQUEST
      (storeNet32 hash.length ++ hash ++ extra)).2.m_authenticated = false
    rw [b3]
    show (handleMessage e1 (ClientHandler.create fileManager serverHash now)
      MSG_CONNECT_REQUEST (storeNet32 hash.length ++ hash ++ extra)).2.m_authenticated = false
    rw [a3]
    rfl
  · show (handleMessage e2 r1.2 MSG_CONNECT_REQUEST
      (storeNet32 hash.length ++ hash ++ extra)).2.sent = _
    rw [b5, f1, l1]
    rfl
  · show (handleMessage e3 r2.2 MSG_CONNECT_REQUEST
      (storeNet32 hash.length ++ hash ++ extra)).1 = false
    by_cases hc3 : e3.timeAtCheck - e3.timeAtUpdate > 300
    · exact handleMessage_cases e3 r2.2 MSG_CONNECT_REQUEST
        (storeNet32 hash.length ++ hash ++ extra) (fun r => r.1 = false) (fun _ => rfl)
        (fun hn => absurd hc3 hn)
    · rw [(handleMessage_wrong_hash e3 r2.2 hash extra hlen2 hne2 hc3).1, f2]
      rfl

theorem auth_lockout_witness :
    (ascii "wrong" ≠ ascii "secret" ∧ (ascii "wrong").length < 2 ^ 32 ∧
      ¬ sampleEnv.timeAtCheck - sampleEnv.timeAtUpdate > 300) ∧
    (handleMessage sampleEnv (handleMessage sampleEnv (handleMessage sampleEnv
      (ClientHandler.create sampleStorage (ascii "secret") 100) MSG_CONNECT_REQUEST
        (storeNet32 (ascii "wrong").length ++ ascii "wrong" ++ [])).2 MSG_CONNECT_REQUEST
        (storeNet32 (ascii "wrong").length ++ ascii "wrong" ++ [])).2 MSG_CONNECT_REQUEST
        (storeNet32 (ascii "wrong").length ++ ascii "wrong" ++ [])).1 = false :=
  ⟨by decide,
    (auth_lockout sampleStorage (ascii "secret") (ascii "wrong") [] 100 sampleEnv sampleEnv
      sampleEnv (by decide) (by decide) (by decide) (by decide)).2.2⟩

end SessionTheorems3

section SessionTheorems4

open ProtocolHelper SecurityHelper ClientHandler

/-- C9 as stated fails: in a fresh, unauthenticated session a message of type 0x02
(Connect-Response, neither Connect-Request nor Disconnect) is answered with one
Error-Response, yet `handleMessage` returns true and the session stays open. -/
theorem unauthenticated_unknown_type_stays_open :
    sampleFresh.m_authenticated = false ∧
    MSG_CONNECT_RESPONSE ≠ MSG_CONNECT_REQUEST ∧ MSG_CONNECT_RESPONSE ≠ MSG_DISCONNECT ∧
    (handleMessage sampleEnv sampleFresh MSG_CONNECT_RESPONSE []).2.sent.map
      (fun f => f.messageType) = [MSG_ERROR_RESPONSE] ∧
    (handleMessage sampleEnv sampleFresh MSG_CONNECT_RESPONSE []).1 = true := by
  decide

/-- C9, amended. In an unauthenticated session every message whose type is neither
Connect-Request nor Disconnect is answered with one Error-Response; the session is closed
(`handleMessage` returns false) when the type is one of the six requests that need
authentication, and stays open (`handleMessage` returns true) for every other type. -/
theorem unauthenticated_other_message (env : Env) (h : ClientHandler) (messageType : Nat)
    (payload : List Nat) (hauth : h.m_authenticated = false)
    (hclock : ¬ env.timeAtCheck - env.timeAtUpdate > 300)
    (h1 : messageType ≠ MSG_CONNECT_REQUEST) (h2 : messageType ≠ MSG_DISCONNECT) :
    (needsAuthentication messageType →
      (handleMessage env h messageType payload).1 = false ∧
      (handleMessage env h messageType payload).2.sent = h.sent ++
        [errorFrame (ascii "Not authenticated - password required")
          (env.sendOk h.sent.length)]) ∧
    (¬ needsAuthentication messageType →
      (handleMessage env h messageType payload).1 = true ∧
      (handleMessage env h messageType payload).2.sent = h.sent ++
        [errorFrame (ascii "Unknown message type") (env.sendOk h.sent.length)]) := by
  have absurd_auth : (updateActivity env { h with payloadReads := [] }).m_authenticated = true →
      False := by
    intro t
    have t2 : h.m_authenticated = true := t
    rw [hauth] at t2
    exact Bool.false_ne_true t2
  apply handleMessage_cases env h messageType payload (fun r =>
    (needsAuthentication messageType →
      r.1 = false ∧ r.2.sent = h.sent ++
        [errorFrame (ascii "Not authenticated - password required")
          (env.sendOk h.sent.length)]) ∧
    (¬ needsAuthentication messageType →
      r.1 = true ∧ r.2.sent = h.sent ++
        [errorFrame (ascii "Unknown message type") (env.sendOk h.sent.length)]))
  · intro t
    exact absurd t hclock
  · intro _
    apply dispatch_cases env (updateActivity env { h with payloadReads := [] }) messageType
      payload (fun r =>
        (needsAuthentication messageType →
          r.1 = false ∧ r.2.sent = h.sent ++
            [errorFrame (ascii "Not authenticated - password required")
              (env.sendOk h.sent.length)]) ∧
        (¬ needsAuthentication messageType →
          r.1 = true ∧ r.2.sent = h.sent ++
            [errorFrame (ascii "Unknown message type") (env.sendOk h.sent.length)]))
    · intro t
      exact absurd t h1
    · intro t
      exact absurd t h2
    · intro _ hsix
      refine ⟨fun _ => ⟨rfl, ?_⟩, fun hn => absurd hsix hn⟩
      exact sendErrorResponse_sent env _ _
    · intro t _
      exact (absurd_auth t).elim
    · intro t _
      exact (absurd_auth t).elim
    · intro t _
      exact (absurd_auth t).elim
    · intro t _
      exact (absurd_auth t).elim
    · intro t _
      exact (absurd_auth t).elim
    · intro t _
      exact (absurd_auth t).elim
    · intro _ _ hn
      refine ⟨fun hsix => absurd hsix hn, fun _ => ⟨rfl, ?_⟩⟩
      exact sendErrorResponse_sent env _ _

theorem unauthenticated_other_message_witness :
    (sampleFresh.m_authenticated = false ∧
      ¬ sampleEnv.timeAtCheck - sampleEnv.timeAtUpdate > 300 ∧
      MSG_UPLOAD_REQUEST ≠ MSG_CONNECT_REQUEST ∧ MSG_UPLOAD_REQUEST ≠ MSG_DISCONNECT ∧
      needsAuthentication MSG_UPLOAD_REQUEST) ∧
    (handleMessage sampleEnv sampleFresh MSG_UPLOAD_REQUEST truncatedUploadRequest).1 = false ∧
    (handleMessage sampleEnv sampleFresh MSG_UPLOAD_REQUEST truncatedUploadRequest).2.sent =
      sampleFresh.sent ++ [errorFrame (ascii "Not authenticated - password required")
        (sampleEnv.sendOk sampleFresh.sent.length)] :=
  ⟨⟨by decide, by decide, by decide, by decide, Or.inr (Or.inr (Or.inl rfl))⟩,
    (unauthenticated_other_message sampleEnv sampleFresh MSG_UPLOAD_REQUEST
      truncatedUploadRequest (by decide) (by decide) (by decide) (by decide)).1
      (Or.inr (Or.inr (Or.inl rfl)))⟩

theorem no_storage_access_before_authentication_witness :
    sampleFresh.m_authenticated = false ∧
    StorageUntouched sampleFresh (handleClient sampleFresh sampleIncoming) ∧
    StorageUntouched sampleFresh
      (handleMessage sampleEnv sampleFresh MSG_UPLOAD_REQUEST truncatedUploadRequest).2 :=
  ⟨by decide,
    (no_storage_access_before_authentication sampleFresh (by decide)).1 sampleIncoming
      (by decide),
    (no_storage_access_before_authentication sampleFresh (by decide)).2 sampleEnv
      MSG_UPLOAD_REQUEST truncatedUploadRequest⟩

end SessionTheorems4

/-! ## Integers, sizes and the header layout: theorems -/

section IntegerLemmas

open ProtocolHelper SecurityHelper

theorem or_eq_add_of_dvd (a b k : Nat) (ha : 2 ^ k ∣ a) (hb : b < 2 ^ k) : a ||| b = a + b := by
  obtain ⟨c, rfl⟩ := ha
  exact (Nat.mul_add_lt_is_or hb c).symm

theorem uint64Byte_eq (value i : Nat) : uint64Byte value i = value / 2 ^ (i * 8) % 256 := by
  unfold uint64Byte
  rw [Nat.shiftRight_eq_div_pow]
  exact Nat.and_pow_two_sub_one_eq_mod _ 8

theorem serializeUint64_eq (value : Nat) :
    serializeUint64 value =
      [value / 72057594037927936 % 256, value / 281474976710656 % 256,
        value / 1099511627776 % 256, value / 4294967296 % 256, value / 16777216 % 256,
        value / 65536 % 256, value / 256 % 256, value % 256] := by
  unfold serializeUint64
  simp only [List.map, uint64Byte_eq]
  norm_num

theorem deserializeUint64_value (buffer : Nat → Nat) (hb : ∀ i, i < 8 → buffer i < 256) :
    (deserializeUint64 buffer).value =
      buffer 0 * 72057594037927936 + buffer 1 * 281474976710656 + buffer 2 * 1099511627776 +
        buffer 3 * 4294967296 + buffer 4 * 16777216 + buffer 5 * 65536 + buffer 6 * 256 +
        buffer 7 := by
  have h0 := hb 0 (by omega)
  have h1 := hb 1 (by omega)
  have h2 := hb 2 (by omega)
  have h3 := hb 3 (by omega)
  have h4 := hb 4 (by omega)
  have h5 := hb 5 (by omega)
  have h6 := hb 6 (by omega)
  have h7 := hb 7 (by omega)
  have hr : List.range 8 = [0, 1, 2, 3, 4, 5, 6, 7] := by decide
  unfold deserializeUint64
  simp only [hr, List.foldl, Nat.shiftLeft_eq, SIZE_MOD]
  norm_num
  rw [Nat.mod_eq_of_lt (by omega : buffer 0 * 72057594037927936 < 18446744073709551616),
    Nat.mod_eq_of_lt (by omega : buffer 1 * 281474976710656 < 18446744073709551616),
    Nat.mod_eq_of_lt (by omega : buffer 2 * 1099511627776 < 18446744073709551616),
    Nat.mod_eq_of_lt (by omega : buffer 3 * 4294967296 < 18446744073709551616),
    Nat.mod_eq_of_lt (by omega : buffer 4 * 16777216 < 18446744073709551616),
    Nat.mod_eq_of_lt (by omega : buffer 5 * 65536 < 18446744073709551616),
    Nat.mod_eq_of_lt (by omega : buffer 6 * 256 < 18446744073709551616),
    Nat.mod_eq_of_lt (by omega : buffer 7 < 18446744073709551616)]
  rw [or_eq_add_of_dvd (buffer 0 * 72057594037927936) (buffer 1 * 281474976710656) 56
      (by norm_num) (by norm_num; omega),
    or_eq_add_of_dvd _ (buffer 2 * 1099511627776) 48 (by norm_num; omega) (by norm_num; omega),
    or_eq_add_of_dvd _ (buffer 3 * 4294967296) 40 (by norm_num; omega) (by norm_num; omega),
    or_eq_add_of_dvd _ (buffer 4 * 16777216) 32 (by norm_num; omega) (by norm_num; omega),
    or_eq_add_of_dvd _ (buffer 5 * 65536) 24 (by norm_num; omega) (by norm_num; omega),
    or_eq_add_of_dvd _ (buffer 6 * 256) 16 (by norm_num; omega) (by norm_num; omega),
    or_eq_add_of_dvd _ (buffer 7) 8 (by norm_num; omega) (by norm_num; omega)]

end IntegerLemmas

section IntegerTheorems

open ProtocolHelper SecurityHelper

/-- C18. Header wire layout: on a buffer of at least 8 bytes `serializeHeader` returns true
and writes exactly the first 8 bytes: the magic number most significant byte first (`0x46`,
`0x53` for the protocol constant), the version byte, the message-type byte, then the payload
length as four bytes most significant first; on a smaller buffer it returns false and writes
nothing. -/
theorem serializeHeader_layout (header : MessageHeader) (buffer : List Nat) :
    (8 ≤ buffer.length →
      serializeHeader header buffer =
        (true,
          [header.magicNumber / 256 % 256, header.magicNumber % 256, header.version,
            header.messageType, header.payloadLength / 16777216 % 256,
            header.payloadLength / 65536 % 256, header.payloadLength / 256 % 256,
            header.payloadLength % 256] ++ buffer.drop 8)) ∧
    (buffer.length < 8 → serializeHeader header buffer = (false, buffer)) ∧
    storeNet16 MAGIC_NUMBER = [0x46, 0x53] := by
  refine ⟨?_, ?_, by decide⟩
  · intro hlen
    rcases buffer with _ | ⟨a, _ | ⟨b, _ | ⟨c, _ | ⟨d, _ | ⟨e, _ | ⟨f, _ | ⟨g, _ | ⟨k, rest⟩⟩⟩⟩⟩⟩⟩⟩ <;>
      simp at hlen
    simp only [serializeHeader, storeNet16, storeNet32, memcpy]
    simp
  · intro hlen
    simp only [serializeHeader, hlen, if_true]

/-- C19. 64-bit integer round trip: for `v < 2^64`, `serializeUint64` writes the eight bytes of
`v` most significant first and `deserializeUint64` reads `v` back from them; and for eight
bytes `b`, `serializeUint64 (deserializeUint64 b)` writes `b` again. -/
theorem uint64_roundtrip :
    (∀ (v : Nat) (beyond : Nat → Nat), v < 2 ^ 64 →
      serializeUint64 v =
        [v / 2 ^ 56 % 256, v / 2 ^ 48 % 256, v / 2 ^ 40 % 256, v / 2 ^ 32 % 256,
          v / 2 ^ 24 % 256, v / 2 ^ 16 % 256, v / 2 ^ 8 % 256, v % 256] ∧
      (deserializeUint64 (vectorData (serializeUint64 v) beyond)).value = v) ∧
    (∀ b0 b1 b2 b3 b4 b5 b6 b7 : Nat, ∀ beyond : Nat → Nat,
      b0 < 256 → b1 < 256 → b2 < 256 → b3 < 256 → b4 < 256 → b5 < 256 → b6 < 256 → b7 < 256 →
      serializeUint64
        (deserializeUint64 (vectorData [b0, b1, b2, b3, b4, b5, b6, b7] beyond)).value =
        [b0, b1, b2, b3, b4, b5, b6, b7]) := by
  constructor
  · intro v beyond hv
    have hv2 : v < 18446744073709551616 := by norm_num at hv; exact hv
    refine ⟨by rw [serializeUint64_eq]; norm_num, ?_⟩
    rw [deserializeUint64_value]
    · rw [serializeUint64_eq]
      simp only [vectorData]
      simp
      omega
    · intro i hi
      rw [serializeUint64_eq]
      simp only [vectorData]
      rcases i with _ | _ | _ | _ | _ | _ | _ | _ | i
      all_goals (simp; omega)
  · intro b0 b1 b2 b3 b4 b5 b6 b7 beyond h0 h1 h2 h3 h4 h5 h6 h7
    rw [deserializeUint64_value]
    · rw [serializeUint64_eq]
      simp only [vectorData]
      simp
      refine ⟨?_, ?_, ?_, ?_, ?_, ?_, ?_, ?_⟩ <;> omega
    · intro i hi
      simp only [vectorData]
      rcases i with _ | _ | _ | _ | _ | _ | _ | _ | i
      all_goals (simp; omega)

/-- C20. `isValidFileSize(n)` holds exactly when `1 ≤ n ≤ 2^30`; it rejects 0 and `2^30 + 1`
and accepts 1 and `2^30`. -/
theorem isValidFileSize_iff :
    (∀ n : Nat, isValidFileSize n = true ↔ (1 ≤ n ∧ n ≤ 2 ^ 30)) ∧
    (2 : Nat) ^ 30 = 1073741824 ∧
    isValidFileSize 0 = false ∧ isValidFileSize (2 ^ 30 + 1) = false ∧
    isValidFileSize 1 = true ∧ isValidFileSize (2 ^ 30) = true := by
  refine ⟨?_, by norm_num, by decide, by decide, by decide, by decide⟩
  intro n
  simp only [isValidFileSize, MAX_FILE_SIZE, Bool.and_eq_true, decide_eq_true_eq]
  norm_num
  omega

end IntegerTheorems

/-! ## Authentication, timeout and application errors: theorems -/

section AuthLemmas

open ProtocolHelper SecurityHelper ClientHandler

theorem sendMessage_sent (env : Env) (h : ClientHandler) (messageType : Nat)
    (payload : List Nat) :
    (sendMessage env h messageType payload).2.sent =
      h.sent ++ [sentFrame messageType payload (env.sendOk h.sent.length)] := by
  rw [sendMessage_eq]
  rfl

theorem sendMessage_fst (env : Env) (h : ClientHandler) (messageType : Nat)
    (payload : List Nat) :
    (sendMessage env h messageType payload).1 = env.sendOk h.sent.length := by
  rw [sendMessage_eq]

end AuthLemmas

section AuthTheorems

open ProtocolHelper SecurityHelper ClientHandler

/-- C11. Successful authentication: when the payload of a Connect-Request decodes to the
server's password hash, `handleAuthentication` sets `m_authenticated`, resets
`m_failedAttempts` to 0 and passes exactly one Connect-Response frame to the socket; its
result, which keeps the session open, is the outcome of that send. -/
theorem handleAuthentication_success (env : Env) (h : ClientHandler) (payload : List Nat)
    (hok : (deserializeString (vectorData payload env.beyond) payload.length [] 0).ok = true)
    (hhash : (deserializeString (vectorData payload env.beyond) payload.length [] 0).str =
      h.m_serverPasswordHash) :
    (handleAuthentication env h payload).2.m_authenticated = true ∧
    (handleAuthentication env h payload).2.m_failedAttempts = 0 ∧
    (handleAuthentication env h payload).2.sent = h.sent ++
      [sentFrame MSG_CONNECT_RESPONSE
        (createTextPayload (ascii "Authentication successful - Welcome to File Server"))
        (env.sendOk h.sent.length)] ∧
    (handleAuthentication env h payload).1 = env.sendOk h.sent.length := by
  have c1 : ¬ (!(deserializeString (vectorData payload env.beyond) payload.length [] 0).ok) =
      true := by
    rw [hok]
    exact Bool.false_ne_true
  have c2 : (deserializeString (vectorData payload env.beyond) payload.length [] 0).str =
      (noteReads h (deserializeString (vectorData payload env.beyond) payload.length
        [] 0).reads).m_serverPasswordHash := hhash
  unfold handleAuthentication
  dsimp only
  rw [if_neg c1, if_pos c2]
  refine ⟨?_, ?_, ?_, ?_⟩
  · rw [sendMessage_eq]
  · rw [sendMessage_eq]
  · rw [sendMessage_sent]
    rfl
  · rw [sendMessage_fst]
    rfl

theorem handleAuthentication_success_witness :
    ((deserializeString (vectorData sampleConnectRequest sampleEnv.beyond)
        sampleConnectRequest.length [] 0).ok = true ∧
      (deserializeString (vectorData sampleConnectRequest sampleEnv.beyond)
        sampleConnectRequest.length [] 0).str = sampleFresh.m_serverPasswordHash) ∧
    (handleAuthentication sampleEnv sampleFresh sampleConnectRequest).2.m_authenticated = true ∧
    (handleAuthentication sampleEnv sampleFresh sampleConnectRequest).2.m_failedAttempts = 0 ∧
    (handleAuthentication sampleEnv sampleFresh sampleConnectRequest).2.sent =
      sampleFresh.sent ++
        [sentFrame MSG_CONNECT_RESPONSE
          (createTextPayload (ascii "Authentication successful - Welcome to File Server"))
          (sampleEnv.sendOk sampleFresh.sent.length)] ∧
    (handleAuthentication sampleEnv sampleFresh sampleConnectRequest).1 =
      sampleEnv.sendOk sampleFresh.sent.length :=
  ⟨by decide,
    handleAuthentication_success sampleEnv sampleFresh sampleConnectRequest (by decide)
      (by decide)⟩

end AuthTheorems

section DispatchEquations

open ProtocolHelper SecurityHelper ClientHandler

theorem handleMessage_no_timeout (env : Env) (h : ClientHandler) (messageType : Nat)
    (payload : List Nat) (hclock : ¬ env.timeAtCheck - env.timeAtUpdate > 300) :
    handleMessage env h messageType payload =
      dispatch env (updateActivity env { h with payloadReads := [] }) messageType payload := by
  have c1 : checkTimeout env (updateActivity env { h with payloadReads := [] }) = false :=
    decide_eq_false hclock
  unfold handleMessage
  simp only [c1, Bool.false_eq_true, if_false]

theorem dispatch_authenticated (env : Env) (h : ClientHandler) (messageType : Nat)
    (payload : List Nat) (hauth : h.m_authenticated = true)
    (hneed : needsAuthentication messageType) :
    dispatch env h messageType payload =
      if messageType = MSG_LIST_FILES then handleListFiles env h
      else if messageType = MSG_DOWNLOAD_REQUEST then handleDownloadRequest env h payload
      else if messageType = MSG_UPLOAD_REQUEST then handleUploadRequest env h payload
      else if messageType = MSG_UPLOAD_DATA then handleUploadData env h payload
      else if messageType = MSG_UPLOAD_COMPLETE then handleUploadComplete h
      else if messageType = MSG_DELETE_REQUEST then handleDeleteRequest env h payload
      else (true, h) := by
  have hc : ¬ messageType = MSG_CONNECT_REQUEST := by
    unfold needsAuthentication at hneed
    rcases hneed with c | c | c | c | c | c <;> rw [c] <;> decide
  have hd : ¬ messageType = MSG_DISCONNECT := by
    unfold needsAuthentication at hneed
    rcases hneed with c | c | c | c | c | c <;> rw [c] <;> decide
  have ha : ¬ (!checkAuthenticated h) = true := by
    unfold checkAuthenticated
    rw [hauth]
    exact Bool.false_ne_true
  unfold needsAuthentication at hneed
  unfold dispatch
  rw [if_neg hc, if_neg hd, if_pos hneed, if_neg ha]

theorem handleMessage_download (env : Env) (h : ClientHandler) (payload : List Nat)
    (hauth : h.m_authenticated = true) (hclock : ¬ env.timeAtCheck - env.timeAtUpdate > 300) :
    handleMessage env h MSG_DOWNLOAD_REQUEST payload =
      handleDownloadRequest env (updateActivity env { h with payloadReads := [] }) payload := by
  rw [handleMessage_no_timeout env h _ _ hclock,
    dispatch_authenticated env (updateActivity env { h with payloadReads := [] }) _ _ hauth (Or.inr (Or.inl rfl)),
    if_neg (by decide), if_pos rfl]

theorem handleMessage_upload (env : Env) (h : ClientHandler) (payload : List Nat)
    (hauth : h.m_authenticated = true) (hclock : ¬ env.timeAtCheck - env.timeAtUpdate > 300) :
    handleMessage env h MSG_UPLOAD_REQUEST payload =
      handleUploadRequest env (updateActivity env { h with payloadReads := [] }) payload := by
  rw [handleMessage_no_timeout env h _ _ hclock,
    dispatch_authenticated env (updateActivity env { h with payloadReads := [] }) _ _ hauth (Or.inr (Or.inr (Or.inl rfl))),
    if_neg (by decide), if_neg (by decide), if_pos rfl]

theorem handleMessage_data (env : Env) (h : ClientHandler) (payload : List Nat)
    (hauth : h.m_authenticated = true) (hclock : ¬ env.timeAtCheck - env.timeAtUpdate > 300) :
    handleMessage env h MSG_UPLOAD_DATA payload =
      handleUploadData env (updateActivity env { h with payloadReads := [] }) payload := by
  rw [handleMessage_no_timeout env h _ _ hclock,
    dispatch_authenticated env (updateActivity env { h with payloadReads := [] }) _ _ hauth (Or.inr (Or.inr (Or.inr (Or.inl rfl)))),
    if_neg (by decide), if_neg (by decide), if_neg (by decide), if_pos rfl]

theorem handleMessage_complete (env : Env) (h : ClientHandler) (payload : List Nat)
    (hauth : h.m_authenticated = true) (hclock : ¬ env.timeAtCheck - env.timeAtUpdate > 300) :
    handleMessage env h MSG_UPLOAD_COMPLETE payload =
      handleUploadComplete (updateActivity env { h with payloadReads := [] }) := by
  rw [handleMessage_no_timeout env h _ _ hclock,
    dispatch_authenticated env (updateActivity env { h with payloadReads := [] }) _ _ hauth (Or.inr (Or.inr (Or.inr (Or.inr (Or.inl rfl))))),
    if_neg (by decide), if_neg (by decide), if_neg (by decide), if_neg (by decide), if_pos rfl]

theorem handleMessage_delete (env : Env) (h : ClientHandler) (payload : List Nat)
    (hauth : h.m_authenticated = true) (hclock : ¬ env.timeAtCheck - env.timeAtUpdate > 300) :
    handleMessage env h MSG_DELETE_REQUEST payload =
      handleDeleteRequest env (updateActivity env { h with payloadReads := [] }) payload := by
  rw [handleMessage_no_timeout env h _ _ hclock,
    dispatch_authenticated env (updateActivity env { h with payloadReads := [] }) _ _ hauth
      (Or.inr (Or.inr (Or.inr (Or.inr (Or.inr rfl))))),
    if_neg (by decide), if_neg (by decide), if_neg (by decide), if_neg (by decide),
    if_neg (by decide), if_pos rfl]

theorem handleMessage_list (env : Env) (h : ClientHandler) (payload : List Nat)
    (hauth : h.m_authenticated = true) (hclock : ¬ env.timeAtCheck - env.timeAtUpdate > 300) :
    handleMessage env h MSG_LIST_FILES payload =
      handleListFiles env (updateActivity env { h with payloadReads := [] }) := by
  rw [handleMessage_no_timeout env h _ _ hclock,
    dispatch_authenticated env (updateActivity env { h with payloadReads := [] }) _ _ hauth (Or.inl rfl), if_pos rfl]

end DispatchEquations

section ErrorLemmas

open ProtocolHelper SecurityHelper ClientHandler

theorem errorReply_of_same (env : Env) (h hX : ClientHandler) (errorMsg : List Nat)
    (hs : hX.sent = h.sent) (ha : hX.m_authenticated = h.m_authenticated)
    (hf : hX.m_failedAttempts = h.m_failedAttempts) :
    ErrorReply env h (true, sendErrorResponse env hX errorMsg) := by
  refine ⟨rfl, ?_, ?_, errorMsg, ?_⟩
  · rw [sendErrorResponse_eq]
    exact ha
  · rw [sendErrorResponse_eq]
    exact hf
  · show (sendErrorResponse env hX errorMsg).sent = _
    rw [sendErrorResponse_sent, hs]

theorem handleDeleteRequest_fails (env : Env) (h : ClientHandler) (payload : List Nat)
    (hok : (deserializeString (vectorData payload env.beyond) payload.length [] 0).ok = true)
    (hvalid : isValidFilename
      (deserializeString (vectorData payload env.beyond) payload.length [] 0).str = true)
    (hfail : (h.fileManager.deleteFile
      (deserializeString (vectorData payload env.beyond) payload.length [] 0).str).1 = false) :
    ErrorReply env h (handleDeleteRequest env h payload) := by
  unfold handleDeleteRequest
  dsimp only [noteReads]
  generalize deserializeString (vectorData payload env.beyond) payload.length [] 0 = d at *
  rw [hok, if_neg (show ¬ (!true) = true from Bool.false_ne_true), hvalid,
    if_neg (show ¬ (!true) = true from Bool.false_ne_true), hfail,
    if_neg Bool.false_ne_true]
  exact errorReply_of_same env h _ _ rfl rfl rfl

end ErrorLemmas

section ErrorTheorems

open ProtocolHelper SecurityHelper ClientHandler

/-- The activity time a session had before a message has no influence on how `handleMessage`
treats the message: `updateActivity` overwrites it before `checkTimeout` reads it. -/
theorem handleMessage_ignores_previous_activity (env : Env) (h : ClientHandler)
    (previous : Int) (messageType : Nat) (payload : List Nat) :
    handleMessage env { h with m_lastActivity := previous } messageType payload =
      handleMessage env h messageType payload := rfl

/-- C16, at a List-Request handled at time 1000 by an authenticated session whose previous
activity was at time 100: more than 300 seconds have passed, yet `handleMessage` dispatches
the message (the storage is listed, a File-List-Response is sent) and returns true. -/
theorem handleMessage_late_message_dispatched :
    sampleAuthenticated.m_lastActivity = 100 ∧
    sampleLateEnv.timeAtUpdate - sampleAuthenticated.m_lastActivity > 300 ∧
    sampleLateEnv.timeAtCheck - sampleAuthenticated.m_lastActivity > 300 ∧
    (handleMessage sampleLateEnv sampleAuthenticated MSG_LIST_FILES []).1 = true ∧
    (handleMessage sampleLateEnv sampleAuthenticated MSG_LIST_FILES []).2.calls =
      [StorageCall.getFileList] ∧
    (handleMessage sampleLateEnv sampleAuthenticated MSG_LIST_FILES []).2.sent.map
      (fun f => f.messageType) = [MSG_FILE_LIST_RESPONSE] := by
  decide

end ErrorTheorems

/-! ## Download: theorems -/

section DownloadLemmas

open ProtocolHelper SecurityHelper ClientHandler

theorem take_min_drop (content : List Nat) (t : Nat) :
    (content.drop t).take (min 4096 (content.length - t)) = (content.drop t).take 4096 := by
  by_cases c : 4096 ≤ content.length - t
  · rw [Nat.min_eq_left c]
  · have c2 : content.length - t ≤ 4096 := by omega
    rw [Nat.min_eq_right c2]
    have hl : (content.drop t).length = content.length - t := List.length_drop t content
    rw [List.take_of_length_le (by omega), List.take_of_length_le (by omega)]

/-- What is sent after a `read` of a whole chunk: the chunk, whatever the buffer held. -/
theorem take_buffer (content buffer : List Nat) (t : Nat) :
    ((content.drop t).take (min 4096 (content.length - t)) ++
      buffer.drop ((content.drop t).take (min 4096 (content.length - t))).length).take
        (min 4096 (content.length - t)) = (content.drop t).take 4096 := by
  have hl : ((content.drop t).take (min 4096 (content.length - t))).length =
      min 4096 (content.length - t) := by
    rw [List.length_take, List.length_drop]
    omega
  rw [List.take_left' hl, take_min_drop]

/-- The chunk loop when every send succeeds: started at the beginning of block `i`, it sends
the remaining blocks in order and nothing else. -/
theorem downloadLoop_sends_chunks (env : Env) (content : List Nat)
    (hsend : ∀ k, env.sendOk k = true) (hlen : content.length < 18446744073709551616) :
    ∀ (k i fuel : Nat) (h : ClientHandler) (buffer : List Nat),
      i + k = (content.length + 4095) / 4096 → k + 1 ≤ fuel →
      (downloadLoop env content content.length fuel h (min (4096 * i) content.length)
        buffer).1 = true ∧
      (downloadLoop env content content.length fuel h (min (4096 * i) content.length)
        buffer).2.sent = h.sent ++ dataFrames content i k := by
  intro k
  induction k with
  | zero =>
    intro i fuel h buffer hik hfuel
    obtain ⟨f, rfl⟩ : ∃ f, fuel = f + 1 := ⟨fuel - 1, by omega⟩
    have hge : ¬ min (4096 * i) content.length < content.length := by
      have : content.length ≤ 4096 * i := by omega
      rw [Nat.min_eq_right this]
      omega
    unfold downloadLoop
    rw [if_neg hge]
    exact ⟨rfl, by simp [dataFrames]⟩
  | succ k ih =>
    intro i fuel h buffer hik hfuel
    obtain ⟨f, rfl⟩ : ∃ f, fuel = f + 1 := ⟨fuel - 1, by omega⟩
    have hlt : 4096 * i < content.length := by omega
    have hmin : min (4096 * i) content.length = 4096 * i := Nat.min_eq_left (by omega)
    have hnext : (4096 * i + min 4096 (content.length - 4096 * i)) % 18446744073709551616 =
        min (4096 * (i + 1)) content.length := by
      rw [Nat.mod_eq_of_lt (by omega)]
      omega
    unfold downloadLoop
    rw [hmin, if_pos hlt]
    dsimp only
    rw [take_buffer, sendMessage_fst, hsend,
      if_neg (show ¬ (!true) = true from Bool.false_ne_true)]
    simp only [SIZE_MOD, Nat.reducePow, hnext]
    have key := fun buffer1 => ih (i + 1) f
      (sendMessage env h MSG_DOWNLOAD_DATA (List.take 4096 (List.drop (4096 * i) content))).2
      buffer1 (by omega) (by omega)
    refine ⟨(key _).1, ?_⟩
    rw [(key _).2, sendMessage_sent, hsend]
    simp [dataFrames, chunkAt, List.range'_succ]

theorem createStatusPayload_ok : createStatusPayload STATUS_OK [] = [0] := by decide

end DownloadLemmas

section DownloadTheorems

open ProtocolHelper SecurityHelper ClientHandler

theorem chunks_join (content : List Nat) :
    ∀ k i : Nat, i + k = (content.length + 4095) / 4096 →
      ((List.range' i k).map (chunkAt content)).flatten = content.drop (4096 * i) := by
  intro k
  induction k with
  | zero =>
    intro i hik
    have : content.length ≤ 4096 * i := by omega
    simp [List.drop_of_length_le this]
  | succ k ih =>
    intro i hik
    rw [List.range'_succ, List.map_cons, List.flatten_cons, ih (i + 1) (by omega)]
    unfold chunkAt
    have : 4096 * (i + 1) = 4096 * i + 4096 := by omega
    rw [this, ← List.drop_drop, List.take_append_drop]

/-- C13. Download chunking: when every send succeeds, `handleDownloadRequest` on a readable
file of `n` bytes passes to the socket `ceil(n / 4096)` Download-Data frames, the blocks of the
file in order, each of 4096 bytes except a last one of `n mod 4096` bytes when that is not 0,
then exactly one Download-Complete frame whose payload is the status byte OK; for `n = 0` only
the Download-Complete frame. -/
theorem download_chunking (env : Env) (h : ClientHandler) (payload content : List Nat)
    (hsend : ∀ k, env.sendOk k = true)
    (hok : (deserializeString (vectorData payload env.beyond) payload.length [] 0).ok = true)
    (hvalid : isValidFilename
      (deserializeString (vectorData payload env.beyond) payload.length [] 0).str = true)
    (hopen : h.fileManager.openForReading
      (deserializeString (vectorData payload env.beyond) payload.length [] 0).str =
        some (IfStream.regular content))
    (hlen : content.length < 2 ^ 63) :
    (handleDownloadRequest env h payload).1 = true ∧
    (handleDownloadRequest env h payload).2.sent =
      h.sent ++ dataFrames content 0 ((content.length + 4095) / 4096) ++
        [sentFrame MSG_DOWNLOAD_COMPLETE [STATUS_OK] true] ∧
    (content.length + 4095) / 4096 =
      content.length / 4096 + (if content.length % 4096 = 0 then 0 else 1) ∧
    (∀ i, i < content.length / 4096 → (chunkAt content i).length = 4096) ∧
    (content.length % 4096 ≠ 0 →
      (chunkAt content (content.length / 4096)).length = content.length % 4096) ∧
    ((List.range ((content.length + 4095) / 4096)).map (chunkAt content)).flatten = content ∧
    (content.length = 0 →
      (handleDownloadRequest env h payload).2.sent =
        h.sent ++ [sentFrame MSG_DOWNLOAD_COMPLETE [STATUS_OK] true]) := by
  have hlen2 : content.length < 18446744073709551616 := by norm_num at hlen; omega
  have hmain : (handleDownloadRequest env h payload).1 = true ∧
      (handleDownloadRequest env h payload).2.sent =
        h.sent ++ dataFrames content 0 ((content.length + 4095) / 4096) ++
          [sentFrame MSG_DOWNLOAD_COMPLETE [STATUS_OK] true] := by
    unfold handleDownloadRequest
    dsimp only [noteReads]
    generalize deserializeString (vectorData payload env.beyond) payload.length [] 0 = d at *
    rw [hok, if_neg (show ¬ (!true) = true from Bool.false_ne_true), hvalid,
      if_neg (show ¬ (!true) = true from Bool.false_ne_true), hopen]
    dsimp only [IfStream.tellEnd, IfStream.readable]
    have hloop := fun hX hB => downloadLoop_sends_chunks env content hsend hlen2
      ((content.length + 4095) / 4096) 0 (content.length + 1) hX hB (by omega) (by omega)
    simp only [Nat.mul_zero, Nat.zero_min] at hloop
    rw [(hloop _ _).1, if_neg (show ¬ (!true) = true from Bool.false_ne_true)]
    refine ⟨rfl, ?_⟩
    rw [sendMessage_sent, (hloop _ _).2, hsend, createStatusPayload_ok]
    rfl
  refine ⟨hmain.1, hmain.2, ?_, ?_, ?_, ?_, ?_⟩
  · split_ifs <;> omega
  · intro i hi
    unfold chunkAt
    rw [List.length_take, List.length_drop]
    omega
  · intro hne
    unfold chunkAt
    rw [List.length_take, List.length_drop]
    omega
  · rw [List.range_eq_range']
    have := chunks_join content ((content.length + 4095) / 4096) 0 (by omega)
    simpa using this
  · intro hzero
    rw [hmain.2, hzero]
    simp [dataFrames]

end DownloadTheorems

section DownloadWitness

open ProtocolHelper SecurityHelper ClientHandler

theorem download_chunking_witness :
    ((∀ k, sampleEnv.sendOk k = true) ∧
      sampleWithFile.fileManager.openForReading
        (deserializeString (vectorData sampleNameA sampleEnv.beyond) sampleNameA.length
          [] 0).str = some (IfStream.regular [1, 2, 3]) ∧
      [1, 2, 3].length < 2 ^ 63) ∧
    (handleDownloadRequest sampleEnv sampleWithFile sampleNameA).1 = true ∧
    (handleDownloadRequest sampleEnv sampleWithFile sampleNameA).2.sent =
      sampleWithFile.sent ++ dataFrames [1, 2, 3] 0 (([1, 2, 3].length + 4095) / 4096) ++
        [sentFrame MSG_DOWNLOAD_COMPLETE [STATUS_OK] true] :=
  ⟨⟨fun _ => rfl, by decide, by decide⟩,
    (download_chunking sampleEnv sampleWithFile sampleNameA [1, 2, 3] (fun _ => rfl)
      (by decide) (by decide) (by decide) (by decide)).1,
    (download_chunking sampleEnv sampleWithFile sampleNameA [1, 2, 3] (fun _ => rfl)
      (by decide) (by decide) (by decide) (by decide)).2.1⟩

end DownloadWitness

/-! ## File listing: theorems -/

section ListingLemmas

open ProtocolHelper SecurityHelper ClientHandler

theorem advance_vectorData_append (pre l : List Nat) (beyond : Nat → Nat) :
    advance (vectorData (pre ++ l) beyond) pre.length = vectorData l beyond := by
  funext i
  simp only [advance, vectorData, List.length_append]
  have e : pre.length + i - (pre.length + l.length) = i - l.length := by omega
  rw [e]
  by_cases hi : i < l.length
  · rw [List.getD_eq_getElem _ _ (by simp; omega), List.getD_eq_getElem _ _ hi,
      List.getElem_append_right (by omega)]
    simp
  · rw [List.getD_eq_default _ _ (by simp; omega), List.getD_eq_default _ _ (by omega)]

theorem serializeUint64_length (value : Nat) : (serializeUint64 value).length = 8 := rfl

theorem deserializeUint64_serializeUint64 (v : Nat) (rest : List Nat) (beyond : Nat → Nat)
    (hv : v < 18446744073709551616) :
    (deserializeUint64 (vectorData (serializeUint64 v ++ rest) beyond)).value = v := by
  rw [deserializeUint64_value]
  · rw [serializeUint64_eq]
    simp only [vectorData]
    simp
    omega
  · intro i hi
    rw [serializeUint64_eq]
    simp only [vectorData]
    rcases i with _ | _ | _ | _ | _ | _ | _ | _ | i
    all_goals (simp; omega)

theorem encodeFileInfo_length (r : FileInfo) :
    (encodeFileInfo r).length = 4 + r.filename.length + 16 := by
  unfold encodeFileInfo
  simp only [List.length_append, serializeUint64_length]
  have : (storeNet32 r.filename.length).length = 4 := rfl
  omega

end ListingLemmas

section ListingCodec

open ProtocolHelper SecurityHelper ClientHandler

theorem deserializeFileInfo_encode (r : FileInfo) (rest : List Nat) (beyond : Nat → Nat)
    (fileInfo0 : FileInfo) (bytesRead0 : Nat)
    (hname : r.filename.length < 4294967296) (hsize : r.fileSize < 18446744073709551616)
    (htime : r.timestamp < 18446744073709551616)
    (htotal : (encodeFileInfo r ++ rest).length < 18446744073709551616) :
    (deserializeFileInfo (vectorData (encodeFileInfo r ++ rest) beyond)
      (encodeFileInfo r ++ rest).length fileInfo0 bytesRead0).ok = true ∧
    (deserializeFileInfo (vectorData (encodeFileInfo r ++ rest) beyond)
      (encodeFileInfo r ++ rest).length fileInfo0 bytesRead0).fileInfo = r ∧
    (deserializeFileInfo (vectorData (encodeFileInfo r ++ rest) beyond)
      (encodeFileInfo r ++ rest).length fileInfo0 bytesRead0).bytesRead =
        4 + r.filename.length + 16 := by
  obtain ⟨name, size, time⟩ := r
  dsimp only at hname hsize htime
  have h4 : (storeNet32 name.length).length = 4 := rfl
  have e1 : encodeFileInfo ⟨name, size, time⟩ ++ rest =
      storeNet32 name.length ++ name ++
        (serializeUint64 size ++ (serializeUint64 time ++ rest)) := by
    simp [encodeFileInfo]
  rw [e1] at htotal ⊢
  have hlenP : (storeNet32 name.length ++ name ++
      (serializeUint64 size ++ (serializeUint64 time ++ rest))).length =
      4 + name.length + 16 + rest.length := by
    simp only [List.length_append, h4, serializeUint64_length]
    omega
  have hstr := deserializeString_wire name
    (serializeUint64 size ++ (serializeUint64 time ++ rest)) beyond hname fileInfo0.filename 0
  have hadv1 : advance (vectorData (storeNet32 name.length ++ name ++
      (serializeUint64 size ++ (serializeUint64 time ++ rest))) beyond) (4 + name.length) =
      vectorData (serializeUint64 size ++ (serializeUint64 time ++ rest)) beyond := by
    have := advance_vectorData_append (storeNet32 name.length ++ name)
      (serializeUint64 size ++ (serializeUint64 time ++ rest)) beyond
    rw [List.length_append, h4] at this
    exact this
  have hadv2 : advance (vectorData (storeNet32 name.length ++ name ++
      (serializeUint64 size ++ (serializeUint64 time ++ rest))) beyond) (4 + name.length + 8) =
      vectorData (serializeUint64 time ++ rest) beyond := by
    have := advance_vectorData_append (storeNet32 name.length ++ name ++ serializeUint64 size)
      (serializeUint64 time ++ rest) beyond
    rw [List.length_append, List.length_append, h4, serializeUint64_length] at this
    rw [← this]
    simp only [List.append_assoc]
  have hm1 : (4 + name.length + 8) % 18446744073709551616 = 4 + name.length + 8 :=
    Nat.mod_eq_of_lt (by omega)
  have hm2 : (4 + name.length + 8 + 8) % 18446744073709551616 = 4 + name.length + 16 :=
    Nat.mod_eq_of_lt (by omega)
  have hs1 : ¬ sizeSub (storeNet32 name.length ++ name ++
      (serializeUint64 size ++ (serializeUint64 time ++ rest))).length (4 + name.length) < 8 := by
    rw [sizeSub_of_le _ _ htotal (by omega)]
    omega
  have hs2 : ¬ sizeSub (storeNet32 name.length ++ name ++
      (serializeUint64 size ++ (serializeUint64 time ++ rest))).length
      (4 + name.length + 8) < 8 := by
    rw [sizeSub_of_le _ _ htotal (by omega)]
    omega
  unfold deserializeFileInfo
  simp only [hstr, Bool.not_true, Bool.false_eq_true, if_false, SIZE_MOD, Nat.reducePow, hm1,
    hm2, hs1, hs2, hadv1, hadv2, deserializeUint64_serializeUint64 size _ beyond hsize,
    deserializeUint64_serializeUint64 time _ beyond htime]
  exact ⟨trivial, trivial, trivial⟩

end ListingCodec

section ListingEncode

open ProtocolHelper SecurityHelper ClientHandler

theorem memcpy_at (pre tail src : List Nat) (offset : Nat) (hoff : offset = pre.length) :
    memcpy (pre ++ tail) offset src = pre ++ src ++ tail.drop src.length := by
  subst hoff
  unfold memcpy
  rw [List.take_left', List.drop_append]
  rfl

theorem serializeFileInfo_eq (r : FileInfo) (buffer : List Nat)
    (hname : r.filename.length < 4294967296)
    (hroom : 4 + r.filename.length + 16 ≤ buffer.length)
    (hsize : buffer.length < 18446744073709551616) :
    serializeFileInfo r buffer =
      (4 + r.filename.length + 16,
        encodeFileInfo r ++ buffer.drop (4 + r.filename.length + 16)) := by
  have h4 : (storeNet32 r.filename.length).length = 4 := rfl
  have hne : ¬ 4 + r.filename.length = 0 := by omega
  have hm1 : (4 + r.filename.length + 8) % 18446744073709551616 = 4 + r.filename.length + 8 :=
    Nat.mod_eq_of_lt (by omega)
  have hm2 : (4 + r.filename.length + 8 + 8) % 18446744073709551616 =
      4 + r.filename.length + 16 := Nat.mod_eq_of_lt (by omega)
  have hs1 : ¬ sizeSub buffer.length (4 + r.filename.length) < 8 := by
    rw [sizeSub_of_le _ _ hsize (by omega)]
    omega
  have hs2 : ¬ sizeSub buffer.length (4 + r.filename.length + 8) < 8 := by
    rw [sizeSub_of_le _ _ hsize (by omega)]
    omega
  have hw1 : memcpy (storeNet32 r.filename.length ++ r.filename ++
      List.drop (4 + r.filename.length) buffer) (4 + r.filename.length)
      (serializeUint64 r.fileSize) =
      storeNet32 r.filename.length ++ r.filename ++ serializeUint64 r.fileSize ++
        List.drop (4 + r.filename.length + 8) buffer := by
    rw [memcpy_at _ _ _ _ (by rw [List.length_append, h4]), serializeUint64_length,
      List.drop_drop]
  have hw2 : memcpy (storeNet32 r.filename.length ++ r.filename ++ serializeUint64 r.fileSize ++
      List.drop (4 + r.filename.length + 8) buffer) (4 + r.filename.length + 8)
      (serializeUint64 r.timestamp) =
      storeNet32 r.filename.length ++ r.filename ++ serializeUint64 r.fileSize ++
        serializeUint64 r.timestamp ++ List.drop (4 + r.filename.length + 16) buffer := by
    rw [memcpy_at _ _ _ _ (by
      rw [List.length_append, List.length_append, h4, serializeUint64_length]),
      serializeUint64_length, List.drop_drop]
  unfold serializeFileInfo
  simp only [serializeString_eq r.filename buffer hname (by omega), hne, if_false, hs1, SIZE_MOD,
    Nat.reducePow, hm1, hm2, hs2, hw1, hw2]
  rfl

theorem writeFileInfos_eq (files : List FileInfo) :
    ∀ pre tail : List Nat,
      (∀ r ∈ files, r.filename.length < 4294967296) →
      pre.length + tail.length < 18446744073709551616 →
      (files.map (fun r => 4 + r.filename.length + 16)).sum ≤ tail.length →
      writeFileInfos files (pre ++ tail) pre.length =
        some (pre ++ (files.map encodeFileInfo).flatten ++
          tail.drop (files.map (fun r => 4 + r.filename.length + 16)).sum) := by
  induction files with
  | nil =>
    intro pre tail _ _ _
    simp [writeFileInfos]
  | cons r rs ih =>
    intro pre tail hnames htotal hroom
    have hr := hnames r (List.mem_cons_self r rs)
    simp only [List.map_cons, List.sum_cons] at hroom
    have hser := serializeFileInfo_eq r tail hr (by omega) (by omega)
    have hne : ¬ 4 + r.filename.length + 16 = 0 := by omega
    have hoff : (pre.length + (4 + r.filename.length + 16)) % 18446744073709551616 =
        (pre ++ encodeFileInfo r).length := by
      rw [Nat.mod_eq_of_lt (by omega), List.length_append, encodeFileInfo_length]
    have hnew : List.take pre.length (pre ++ tail) ++
        (encodeFileInfo r ++ List.drop (4 + r.filename.length + 16) tail) =
        (pre ++ encodeFileInfo r) ++ List.drop (4 + r.filename.length + 16) tail := by
      rw [List.take_left' rfl, List.append_assoc]
    unfold writeFileInfos
    simp only [List.drop_left', hser, hne, if_false, SIZE_MOD, Nat.reducePow, hoff, hnew]
    rw [ih (pre ++ encodeFileInfo r) (List.drop (4 + r.filename.length + 16) tail)
      (fun x hx => hnames x (List.mem_cons_of_mem r hx))
      (by rw [List.length_append, encodeFileInfo_length, List.length_drop]; omega)
      (by rw [List.length_drop]; omega)]
    simp only [List.map_cons, List.flatten_cons, List.sum_cons, List.drop_drop,
      List.append_assoc]

theorem payloadSize_eq (files : List FileInfo) :
    ∀ acc : Nat,
      acc + (files.map (fun r => 4 + r.filename.length + 16)).sum < 18446744073709551616 →
      files.foldl (fun size file =>
        (size + ((4 + file.filename.length) % SIZE_MOD) + 8 + 8) % SIZE_MOD) acc =
        acc + (files.map (fun r => 4 + r.filename.length + 16)).sum := by
  induction files with
  | nil =>
    intro acc _
    simp
  | cons r rs ih =>
    intro acc hacc
    simp only [List.map_cons, List.sum_cons] at hacc
    have h1 : (4 + r.filename.length) % 18446744073709551616 = 4 + r.filename.length :=
      Nat.mod_eq_of_lt (by omega)
    have h2 : (acc + (4 + r.filename.length) + 8 + 8) % 18446744073709551616 =
        acc + (4 + r.filename.length + 16) := by
      rw [Nat.mod_eq_of_lt (by omega)]
      omega
    simp only [List.foldl_cons, SIZE_MOD, Nat.reducePow, h1, h2, List.map_cons, List.sum_cons]
    have := ih (acc + (4 + r.filename.length + 16)) (by omega)
    simp only [SIZE_MOD, Nat.reducePow] at this
    rw [this]
    omega

end ListingEncode

section ListingLoop

open ProtocolHelper SecurityHelper ClientHandler

theorem encodeFileList_length (files : List FileInfo) :
    (encodeFileList files).length =
      4 + (files.map (fun r => 4 + r.filename.length + 16)).sum := by
  have hflat : (files.map encodeFileInfo).flatten.length =
      (files.map (fun r => 4 + r.filename.length + 16)).sum := by
    induction files with
    | nil => rfl
    | cons r rs ih =>
      simp only [List.map_cons, List.flatten_cons, List.length_append, List.sum_cons,
        encodeFileInfo_length, ih]
  have h4 : (storeNet32 files.length).length = 4 := rfl
  unfold encodeFileList
  rw [List.length_append, h4, hflat]

theorem handleListFiles_payload (files : List FileInfo)
    (hcount : files.length < 4294967296)
    (hnames : ∀ r ∈ files, r.filename.length < 4294967296)
    (htotal : 4 + (files.map (fun r => 4 + r.filename.length + 16)).sum <
      18446744073709551616) :
    writeFileInfos files
      (memcpy (List.replicate (files.foldl (fun size file =>
        (size + ((4 + file.filename.length) % SIZE_MOD) + 8 + 8) % SIZE_MOD) 4) 0) 0
        (storeNet32 (files.length % U32_MOD))) 4 = some (encodeFileList files) := by
  have h4 : (storeNet32 files.length).length = 4 := rfl
  have hc : files.length % 4294967296 = files.length := Nat.mod_eq_of_lt hcount
  rw [payloadSize_eq files 4 htotal]
  simp only [U32_MOD, Nat.reducePow, hc]
  have hpay : memcpy (List.replicate
      (4 + (files.map (fun r => 4 + r.filename.length + 16)).sum) 0) 0
      (storeNet32 files.length) =
      storeNet32 files.length ++
        List.replicate (files.map (fun r => 4 + r.filename.length + 16)).sum 0 := by
    have := memcpy_at [] (List.replicate
      (4 + (files.map (fun r => 4 + r.filename.length + 16)).sum) 0)
      (storeNet32 files.length) 0 rfl
    rw [List.nil_append] at this
    rw [this, h4, List.drop_replicate]
    simp
  rw [hpay]
  have := writeFileInfos_eq files (storeNet32 files.length)
    (List.replicate (files.map (fun r => 4 + r.filename.length + 16)).sum 0) hnames
    (by rw [h4, List.length_replicate]; omega) (by rw [List.length_replicate])
  rw [h4] at this
  rw [this, List.drop_replicate]
  simp [encodeFileList]

theorem readFileInfos_encoded (files : List FileInfo) (rest : List Nat) (beyond : Nat → Nat) :
    ∀ pre : List Nat,
      (∀ r ∈ files, r.filename.length < 4294967296 ∧ r.fileSize < 18446744073709551616 ∧
        r.timestamp < 18446744073709551616) →
      (pre ++ (files.map encodeFileInfo).flatten ++ rest).length < 18446744073709551616 →
      SimpleClient.readFileInfos
        (vectorData (pre ++ (files.map encodeFileInfo).flatten ++ rest) beyond)
        (pre ++ (files.map encodeFileInfo).flatten ++ rest).length files.length pre.length =
        files := by
  induction files with
  | nil =>
    intro pre _ _
    rfl
  | cons r rs ih =>
    intro pre hrec htotal
    obtain ⟨hn, hs, ht⟩ := hrec r (List.mem_cons_self r rs)
    have e1 : pre ++ ((r :: rs).map encodeFileInfo).flatten ++ rest =
        pre ++ (encodeFileInfo r ++ ((rs.map encodeFileInfo).flatten ++ rest)) := by
      simp
    have e2 : pre ++ (encodeFileInfo r ++ ((rs.map encodeFileInfo).flatten ++ rest)) =
        (pre ++ encodeFileInfo r) ++ (rs.map encodeFileInfo).flatten ++ rest := by
      simp
    rw [e1] at htotal ⊢
    have hsub : sizeSub (pre ++ (encodeFileInfo r ++
        ((rs.map encodeFileInfo).flatten ++ rest))).length pre.length =
        (encodeFileInfo r ++ ((rs.map encodeFileInfo).flatten ++ rest)).length := by
      rw [sizeSub_of_le _ _ htotal (by rw [List.length_append]; omega), List.length_append]
      omega
    have hdec := deserializeFileInfo_encode r ((rs.map encodeFileInfo).flatten ++ rest) beyond
      FileInfo.default 0 hn hs ht (by rw [List.length_append] at htotal; omega)
    obtain ⟨d1, d2, d3⟩ := hdec
    have hoff : (pre.length + (4 + r.filename.length + 16)) % 18446744073709551616 =
        (pre ++ encodeFileInfo r).length := by
      simp only [List.length_append, encodeFileInfo_length] at htotal
      rw [Nat.mod_eq_of_lt (by omega), List.length_append, encodeFileInfo_length]
    show SimpleClient.readFileInfos _ _ (rs.length + 1) pre.length = r :: rs
    unfold SimpleClient.readFileInfos
    simp only [advance_vectorData_append, hsub, d1, d2, d3, if_true, SIZE_MOD, Nat.reducePow,
      hoff]
    rw [e2] at htotal ⊢
    rw [ih (pre ++ encodeFileInfo r) (fun x hx => hrec x (List.mem_cons_of_mem r hx)) htotal]

theorem listFiles_encodeFileList (files : List FileInfo) (beyond : Nat → Nat)
    (hcount : files.length < 4294967296)
    (hrec : ∀ r ∈ files, r.filename.length < 4294967296 ∧ r.fileSize < 18446744073709551616 ∧
      r.timestamp < 18446744073709551616)
    (htotal : 4 + (files.map (fun r => 4 + r.filename.length + 16)).sum <
      18446744073709551616) :
    SimpleClient.listFiles (encodeFileList files) beyond = files := by
  have h4 : (storeNet32 files.length).length = 4 := rfl
  have hlen := encodeFileList_length files
  have hcnt : loadNet32 (vectorData (encodeFileList files) beyond) = files.length := by
    unfold encodeFileList
    exact loadNet32_storeNet32 _ hcount _ _
  unfold SimpleClient.listFiles
  simp only [hcnt]
  have e : encodeFileList files =
      storeNet32 files.length ++ (files.map encodeFileInfo).flatten ++ [] := by
    simp [encodeFileList]
  rw [e] at hlen ⊢
  have := readFileInfos_encoded files [] beyond (storeNet32 files.length) hrec (by omega)
  rw [h4] at this
  exact this

end ListingLoop

section ListingTheorems

open ProtocolHelper SecurityHelper ClientHandler

theorem getFileList_fileSize_lt (fm : FileManager) :
    ∀ r ∈ fm.getFileList, r.fileSize < 18446744073709551616 := by
  intro r hr
  unfold FileManager.getFileList at hr
  rw [List.mem_map] at hr
  obtain ⟨f, -, rfl⟩ := hr
  simp only [SIZE_MOD]
  omega

/-- C17. List-response encoding: for the records that the storage manager returns,
`handleListFiles` passes to the socket one File-List-Response whose payload has length
`4 + Σ (4 + |filename| + 16)` and consists of the record count as 4 big-endian bytes followed by
each record as `string(filename)`, 8-byte size, 8-byte modification time; serialisation does not
fail; and the client's decoding (read the count, then `deserializeFileInfo` that many times)
gives the records back in order. The records are taken to fit their types: fewer than `2^32`
of them, filenames shorter than `2^32` bytes, times below `2^64`, payload shorter than `2^64`
bytes. -/
theorem list_response_encoding (env : Env) (h : ClientHandler)
    (hcount : h.fileManager.getFileList.length < 2 ^ 32)
    (hrec : ∀ r ∈ h.fileManager.getFileList,
      r.filename.length < 2 ^ 32 ∧ r.timestamp < 2 ^ 64)
    (htotal : 4 + (h.fileManager.getFileList.map (fun r => 4 + r.filename.length + 16)).sum <
      2 ^ 64) :
    (handleListFiles env h).2.sent = h.sent ++
      [sentFrame MSG_FILE_LIST_RESPONSE (encodeFileList h.fileManager.getFileList)
        (env.sendOk h.sent.length)] ∧
    (handleListFiles env h).1 = env.sendOk h.sent.length ∧
    (encodeFileList h.fileManager.getFileList).length =
      4 + (h.fileManager.getFileList.map (fun r => 4 + r.filename.length + 16)).sum ∧
    encodeFileList h.fileManager.getFileList =
      storeNet32 h.fileManager.getFileList.length ++
        (h.fileManager.getFileList.map (fun r =>
          storeNet32 r.filename.length ++ r.filename ++ serializeUint64 r.fileSize ++
            serializeUint64 r.timestamp)).flatten ∧
    (∀ beyond : Nat → Nat,
      SimpleClient.listFiles (encodeFileList h.fileManager.getFileList) beyond =
        h.fileManager.getFileList) := by
  have hcount2 : h.fileManager.getFileList.length < 4294967296 := by
    norm_num at hcount; exact hcount
  have htotal2 : 4 + (h.fileManager.getFileList.map
      (fun r => 4 + r.filename.length + 16)).sum < 18446744073709551616 := by
    simp only [Nat.reducePow] at htotal
    exact htotal
  have hnames : ∀ r ∈ h.fileManager.getFileList, r.filename.length < 4294967296 := by
    intro r hr
    have := (hrec r hr).1
    norm_num at this
    exact this
  have hrec2 : ∀ r ∈ h.fileManager.getFileList, r.filename.length < 4294967296 ∧
      r.fileSize < 18446744073709551616 ∧ r.timestamp < 18446744073709551616 := by
    intro r hr
    have := (hrec r hr).2
    norm_num at this
    exact ⟨hnames r hr, getFileList_fileSize_lt h.fileManager r hr, this⟩
  have hpay := handleListFiles_payload h.fileManager.getFileList hcount2 hnames htotal2
  have hrun : handleListFiles env h =
      sendMessage env { h with calls := h.calls ++ [StorageCall.getFileList] }
        MSG_FILE_LIST_RESPONSE (encodeFileList h.fileManager.getFileList) := by
    unfold handleListFiles
    dsimp only
    rw [hpay]
  refine ⟨?_, ?_, encodeFileList_length _, rfl, ?_⟩
  · rw [hrun, sendMessage_sent]
  · rw [hrun, sendMessage_fst]
  · intro beyond
    exact listFiles_encodeFileList _ beyond hcount2 hrec2 htotal2

theorem list_response_encoding_witness :
    (sampleWithFile.fileManager.getFileList.length < 2 ^ 32 ∧
      (∀ r ∈ sampleWithFile.fileManager.getFileList,
        r.filename.length < 2 ^ 32 ∧ r.timestamp < 2 ^ 64) ∧
      4 + (sampleWithFile.fileManager.getFileList.map
        (fun r => 4 + r.filename.length + 16)).sum < 2 ^ 64) ∧
    (handleListFiles sampleEnv sampleWithFile).2.sent = sampleWithFile.sent ++
      [sentFrame MSG_FILE_LIST_RESPONSE (encodeFileList sampleWithFile.fileManager.getFileList)
        (sampleEnv.sendOk sampleWithFile.sent.length)] ∧
    SimpleClient.listFiles (encodeFileList sampleWithFile.fileManager.getFileList)
      (fun _ => 0) = sampleWithFile.fileManager.getFileList :=
  ⟨⟨by decide, by decide, by decide⟩,
    (list_response_encoding sampleEnv sampleWithFile (by decide) (by decide) (by decide)).1,
    (list_response_encoding sampleEnv sampleWithFile (by decide) (by decide)
      (by decide)).2.2.2.2 (fun _ => 0)⟩

end ListingTheorems

/-! ## Delete: theorems -/

section DeleteLemmas

open ProtocolHelper SecurityHelper ClientHandler

theorem deleteFile_missing (fm : FileManager) (filename : List Nat)
    (hmissing : ∀ f ∈ fm.files, f.filename ≠ filename) :
    (fm.deleteFile filename).1 = false := by
  have hany : fm.files.any (fun f => decide (f.filename = filename)) = false := by
    rw [List.any_eq_false]
    intro f hf
    simpa using hmissing f hf
  unfold FileManager.deleteFile
  rw [hany]
  cases FileManager.isDirectoryName filename <;> rfl

theorem deleteFile_existing (fm : FileManager) (filename : List Nat)
    (hexists : ∃ f ∈ fm.files, f.filename = filename) (hfile : filename ≠ [46]) :
    fm.deleteFile filename =
      (true, { fm with files := fm.files.filter (fun f => !decide (f.filename = filename)) }) := by
  have hany : fm.files.any (fun f => decide (f.filename = filename)) = true := by
    rw [List.any_eq_true]
    obtain ⟨f, hf, hname⟩ := hexists
    exact ⟨f, hf, by simpa using hname⟩
  have hdir : FileManager.isDirectoryName filename = false := by
    unfold FileManager.isDirectoryName
    exact decide_eq_false hfile
  unfold FileManager.deleteFile
  rw [hdir, hany]
  rfl

theorem getFileList_after_delete (fm : FileManager) (filename : List Nat) :
    ({ fm with files := fm.files.filter (fun f => !decide (f.filename = filename)) }
      : FileManager).getFileList =
      fm.getFileList.filter (fun r => !decide (r.filename = filename)) := by
  unfold FileManager.getFileList
  rw [List.filter_map]
  rfl

theorem handleListFiles_run (env : Env) (h : ClientHandler)
    (hcount : h.fileManager.getFileList.length < 4294967296)
    (hnames : ∀ r ∈ h.fileManager.getFileList, r.filename.length < 4294967296)
    (htotal : 4 + (h.fileManager.getFileList.map (fun r => 4 + r.filename.length + 16)).sum <
      18446744073709551616) :
    handleListFiles env h =
      sendMessage env { h with calls := h.calls ++ [StorageCall.getFileList] }
        MSG_FILE_LIST_RESPONSE (encodeFileList h.fileManager.getFileList) := by
  have hpay := handleListFiles_payload h.fileManager.getFileList hcount hnames htotal
  unfold handleListFiles
  dsimp only
  rw [hpay]

theorem filter_sum_le (files : List FileInfo) (p : FileInfo → Bool) (g : FileInfo → Nat) :
    ((files.filter p).map g).sum ≤ (files.map g).sum := by
  induction files with
  | nil => simp
  | cons r rs ih =>
    by_cases hp : p r = true
    · simp only [List.filter_cons_of_pos hp, List.map_cons, List.sum_cons]
      omega
    · simp only [List.filter_cons_of_neg hp, List.map_cons, List.sum_cons]
      omega

end DeleteLemmas

section DeleteTheorems

open ProtocolHelper SecurityHelper ClientHandler

theorem handleDeleteRequest_deleted (env : Env) (h : ClientHandler) (payload : List Nat)
    (fm : FileManager)
    (hok : (deserializeString (vectorData payload env.beyond) payload.length [] 0).ok = true)
    (hvalid : isValidFilename
      (deserializeString (vectorData payload env.beyond) payload.length [] 0).str = true)
    (hdel : h.fileManager.deleteFile
      (deserializeString (vectorData payload env.beyond) payload.length [] 0).str = (true, fm)) :
    (handleDeleteRequest env h payload).1 = true ∧
    (handleDeleteRequest env h payload).2.sent = h.sent ++
      [sentFrame MSG_DELETE_RESPONSE (createStatusPayload STATUS_OK (ascii "File deleted"))
        (env.sendOk h.sent.length)] ∧
    (handleDeleteRequest env h payload).2.fileManager = fm ∧
    (handleDeleteRequest env h payload).2.m_authenticated = h.m_authenticated := by
  unfold handleDeleteRequest
  dsimp only [noteReads]
  generalize deserializeString (vectorData payload env.beyond) payload.length [] 0 = d at *
  rw [hok, if_neg (show ¬ (!true) = true from Bool.false_ne_true), hvalid,
    if_neg (show ¬ (!true) = true from Bool.false_ne_true), hdel]
  dsimp only
  rw [if_pos rfl]
  refine ⟨rfl, ?_, ?_, ?_⟩
  · rw [sendMessage_sent]
  · rw [sendMessage_eq]
  · rw [sendMessage_eq]

/-- C14. Delete: in an authenticated session, a Delete-Request for a valid filename that is
not in storage is answered with one Error-Response and keeps the session open; for a file that
is in storage it is answered with a Delete-Response whose status byte is OK, and the payload of
a following List-Request decodes to records none of which has that filename. -/
theorem delete_request (env env2 : Env) (h : ClientHandler) (payload listPayload : List Nat)
    (hauth : h.m_authenticated = true)
    (hclock : ¬ env.timeAtCheck - env.timeAtUpdate > 300)
    (hclock2 : ¬ env2.timeAtCheck - env2.timeAtUpdate > 300)
    (hok : (deserializeString (vectorData payload env.beyond) payload.length [] 0).ok = true)
    (hvalid : isValidFilename
      (deserializeString (vectorData payload env.beyond) payload.length [] 0).str = true)
    (hstorage : ∀ f ∈ h.fileManager.files, f.filename ≠ [46])
    (hcount : h.fileManager.getFileList.length < 2 ^ 32)
    (hrec : ∀ r ∈ h.fileManager.getFileList,
      r.filename.length < 2 ^ 32 ∧ r.timestamp < 2 ^ 64)
    (htotal : 4 + (h.fileManager.getFileList.map (fun r => 4 + r.filename.length + 16)).sum <
      2 ^ 64) :
    let name := (deserializeString (vectorData payload env.beyond) payload.length [] 0).str
    let r := handleMessage env h MSG_DELETE_REQUEST payload
    let r2 := handleMessage env2 r.2 MSG_LIST_FILES listPayload
    ((∀ f ∈ h.fileManager.files, f.filename ≠ name) → ErrorReply env h r) ∧
    ((∃ f ∈ h.fileManager.files, f.filename = name) →
      r.1 = true ∧
      r.2.sent = h.sent ++
        [sentFrame MSG_DELETE_RESPONSE (createStatusPayload STATUS_OK (ascii "File deleted"))
          (env.sendOk h.sent.length)] ∧
      (createStatusPayload STATUS_OK (ascii "File deleted")).head? = some STATUS_OK ∧
      ∃ listing,
        r2.2.sent = r.2.sent ++
          [sentFrame MSG_FILE_LIST_RESPONSE listing (env2.sendOk r.2.sent.length)] ∧
        ∀ beyond : Nat → Nat, ∀ rec ∈ SimpleClient.listFiles listing beyond,
          rec.filename ≠ name) := by
  intro name r r2
  have hr : r = handleDeleteRequest env (updateActivity env { h with payloadReads := [] })
      payload := handleMessage_delete env h payload hauth hclock
  constructor
  · intro hmissing
    rw [hr]
    have lift : ∀ x : Bool × ClientHandler,
        ErrorReply env (updateActivity env { h with payloadReads := [] }) x →
        ErrorReply env h x := fun _ a => a
    exact lift _ (handleDeleteRequest_fails env _ payload hok hvalid
      (deleteFile_missing h.fileManager name hmissing))
  · intro hexists
    have hfile : name ≠ [46] := by
      obtain ⟨f, hf, hname⟩ := hexists
      rw [← hname]
      exact hstorage f hf
    have hdel := deleteFile_existing h.fileManager name hexists hfile
    obtain ⟨a1, a2, a3, a4⟩ := handleDeleteRequest_deleted env
      (updateActivity env { h with payloadReads := [] }) payload _ hok hvalid hdel
    rw [← hr] at a1 a2 a3 a4
    refine ⟨a1, a2, by decide, ?_⟩
    have hauth2 : r.2.m_authenticated = true := a4.trans hauth
    have hr2 : r2 = handleListFiles env2 (updateActivity env2 { r.2 with payloadReads := [] }) :=
      handleMessage_list env2 r.2 listPayload hauth2 hclock2
    have hlist : (updateActivity env2 { r.2 with payloadReads := [] }).fileManager.getFileList =
        h.fileManager.getFileList.filter (fun x => !decide (x.filename = name)) := by
      show r.2.fileManager.getFileList = _
      rw [a3]
      exact getFileList_after_delete h.fileManager name
    have hcount2 : (h.fileManager.getFileList.filter
        (fun x => !decide (x.filename = name))).length < 4294967296 := by
      have := List.length_filter_le (fun x : FileInfo => !decide (x.filename = name))
        h.fileManager.getFileList
      norm_num at hcount
      omega
    have hrec2 : ∀ x ∈ h.fileManager.getFileList.filter
        (fun x => !decide (x.filename = name)),
        x.filename.length < 4294967296 ∧ x.fileSize < 18446744073709551616 ∧
          x.timestamp < 18446744073709551616 := by
      intro x hx
      have hmem := (List.mem_filter.mp hx).1
      have := hrec x hmem
      norm_num at this
      exact ⟨this.1, getFileList_fileSize_lt h.fileManager x hmem, this.2⟩
    have htotal2 : 4 + ((h.fileManager.getFileList.filter
        (fun x => !decide (x.filename = name))).map
          (fun r => 4 + r.filename.length + 16)).sum < 18446744073709551616 := by
      have := filter_sum_le h.fileManager.getFileList
        (fun x => !decide (x.filename = name)) (fun r => 4 + r.filename.length + 16)
      simp only [Nat.reducePow] at htotal
      omega
    have hrun := handleListFiles_run env2 (updateActivity env2 { r.2 with payloadReads := [] })
      (by rw [hlist]; exact hcount2) (by rw [hlist]; exact fun x hx => (hrec2 x hx).1)
      (by rw [hlist]; exact htotal2)
    refine ⟨encodeFileList (h.fileManager.getFileList.filter
      (fun x => !decide (x.filename = name))), ?_, ?_⟩
    · rw [hr2, hrun, sendMessage_sent, hlist]
      rfl
    · intro beyond rec hmem
      rw [listFiles_encodeFileList _ beyond hcount2 hrec2 htotal2] at hmem
      have := (List.mem_filter.mp hmem).2
      simpa using this

end DeleteTheorems

section DeleteWitness

open ProtocolHelper SecurityHelper ClientHandler

theorem delete_request_witness :
    (sampleWithFile.m_authenticated = true ∧
      ¬ sampleEnv.timeAtCheck - sampleEnv.timeAtUpdate > 300 ∧
      (∃ f ∈ sampleWithFile.fileManager.files, f.filename =
        (deserializeString (vectorData sampleNameA sampleEnv.beyond) sampleNameA.length
          [] 0).str)) ∧
    (handleMessage sampleEnv sampleWithFile MSG_DELETE_REQUEST sampleNameA).1 = true ∧
    (handleMessage sampleEnv sampleWithFile MSG_DELETE_REQUEST sampleNameA).2.sent =
      sampleWithFile.sent ++
        [sentFrame MSG_DELETE_RESPONSE (createStatusPayload STATUS_OK (ascii "File deleted"))
          (sampleEnv.sendOk sampleWithFile.sent.length)] :=
  ⟨⟨by decide, by decide, by decide⟩,
    ((delete_request sampleEnv sampleEnv sampleWithFile sampleNameA [] (by decide) (by decide)
      (by decide) (by decide) (by decide) (by decide) (by decide) (by decide) (by decide)).2
      (by decide)).1,
    ((delete_request sampleEnv sampleEnv sampleWithFile sampleNameA [] (by decide) (by decide)
      (by decide) (by decide) (by decide) (by decide) (by decide) (by decide) (by decide)).2
      (by decide)).2.1⟩

end DeleteWitness

/-! ## Upload: theorems -/

section UploadTheorems

open ProtocolHelper SecurityHelper ClientHandler

/-- C12, at an Upload-Request for `"b"` that arrives while the upload stream of an earlier
Upload-Request for `"a"` is still open: the request is accepted (a Connect-Response with status
OK is sent and `"b"` becomes the upload filename), but `open` on the open stream has failed, so
the Upload-Data bytes `01 02 03` are written nowhere, no file `"b"` exists after
Upload-Complete, and the Download-Request for `"b"` is answered with an Error-Response. -/
theorem second_upload_accepted_but_lost :
    sampleAuthenticated.m_authenticated = true ∧
    isValidFilename [98] = true ∧ isValidFileSize 3 = true ∧
    afterFirstUpload.m_uploadFile = { target := some [97], failbit := false } ∧
    afterSecondUpload.sent.map (fun f => (f.messageType, f.payload)) =
      [(MSG_CONNECT_RESPONSE, [STATUS_OK]), (MSG_CONNECT_RESPONSE, [STATUS_OK])] ∧
    afterSecondUpload.m_uploadFilename = [98] ∧
    afterSecondUpload.m_uploadFile = { target := some [97], failbit := true } ∧
    afterSecondData.m_uploadReceivedSize = 3 ∧
    afterSecondComplete.fileManager.files.map (fun f => (f.filename, f.content)) =
      [([97], [])] ∧
    afterSecondComplete.fileManager.openForReading [98] = none ∧
    (handleMessage sampleEnv afterSecondComplete MSG_DOWNLOAD_REQUEST sampleNameB).2.sent.map
      (fun f => f.messageType) =
      [MSG_CONNECT_RESPONSE, MSG_CONNECT_RESPONSE, MSG_ERROR_RESPONSE] := by
  decide

end UploadTheorems

section UploadStorageLemmas

open ProtocolHelper SecurityHelper ClientHandler

theorem openForWriting_closed (fm : FileManager) (name : List Nat) (file : OfStream) (now : Nat)
    (hclosed : file.target = none) (hopen : (fm.openForWriting name file now).1 = true) :
    (fm.openForWriting name file now).2.1 = { target := some name, failbit := false } ∧
    StoredAs (fm.openForWriting name file now).2.2 name [] := by
  have hnot : file.is_open = false := by
    unfold OfStream.is_open
    rw [hclosed]
    rfl
  unfold FileManager.openForWriting at hopen ⊢
  rw [hnot] at hopen ⊢
  simp only [Bool.false_eq_true, if_false] at hopen ⊢
  revert hopen
  cases hdir : FileManager.isDirectoryName name
  · have hname : name ≠ [46] := by
      unfold FileManager.isDirectoryName at hdir
      exact of_decide_eq_false hdir
    simp only [Bool.false_eq_true, if_false]
    cases hfind : fm.files.find? (fun f => decide (f.filename = name)) with
    | none =>
      intro _
      refine ⟨rfl, hname, ⟨_, List.mem_append_right _ (List.mem_singleton_self _), rfl⟩, ?_⟩
      intro f hf hfn
      rcases List.mem_append.mp hf with hf | hf
      · have := List.find?_eq_none.mp hfind f hf
        simp at this
        exact absurd hfn this
      · rw [List.mem_singleton.mp hf]
    | some g =>
      dsimp only
      cases hw : g.writable
      · simp
      · simp only [if_true]
        intro _
        have hg : g ∈ fm.files := List.mem_of_find?_eq_some hfind
        have hgn : g.filename = name := by
          have := List.find?_some hfind
          simpa using this
        refine ⟨trivial, hname, ⟨{ g with content := [], mtime := now }, ?_, hgn⟩, ?_⟩
        · rw [List.mem_map]
          exact ⟨g, hg, by rw [if_pos hgn]⟩
        · intro f hf hfn
          rw [List.mem_map] at hf
          obtain ⟨x, -, rfl⟩ := hf
          by_cases hx : x.filename = name
          · rw [if_pos hx]
          · rw [if_neg hx] at hfn
            exact absurd hfn hx
  · simp

theorem appendTo_storedAs (fm : FileManager) (name content data : List Nat) (now : Nat)
    (hstored : StoredAs fm name content) :
    StoredAs (fm.appendTo name data now) name (content ++ data) := by
  unfold FileManager.appendTo
  by_cases hdata : data = []
  · rw [if_pos hdata, hdata, List.append_nil]
    exact hstored
  rw [if_neg hdata]
  obtain ⟨hname, ⟨g, hg, hgn⟩, hall⟩ := hstored
  refine ⟨hname, ⟨{ g with content := g.content ++ data, mtime := now }, ?_, hgn⟩, ?_⟩
  · rw [List.mem_map]
    exact ⟨g, hg, by rw [if_pos hgn]⟩
  · intro f hf hfn
    rw [List.mem_map] at hf
    obtain ⟨x, hx, rfl⟩ := hf
    by_cases hxn : x.filename = name
    · rw [if_pos hxn]
      show x.content ++ data = content ++ data
      rw [hall x hx hxn]
    · rw [if_neg hxn] at hfn
      exact absurd hfn hxn

theorem write_storedAs (fm : FileManager) (name visible pending data : List Nat)
    (now flushed : Nat) (hstored : StoredAs fm name visible) :
    (OfStream.write { target := some name, failbit := false, pending := pending } fm data now
      flushed).1 =
      { target := some name, failbit := false, pending := (pending ++ data).drop flushed } ∧
    StoredAs (OfStream.write { target := some name, failbit := false, pending := pending } fm
      data now flushed).2 name (visible ++ (pending ++ data).take flushed) := by
  unfold OfStream.write
  simp only [Bool.false_eq_true, if_false]
  exact ⟨trivial, appendTo_storedAs fm name visible _ now hstored⟩

theorem close_storedAs (fm : FileManager) (name visible pending : List Nat) (now : Nat)
    (hstored : StoredAs fm name visible) :
    (OfStream.close { target := some name, failbit := false, pending := pending } fm now).1 =
      { target := none, failbit := false, pending := [] } ∧
    StoredAs (OfStream.close { target := some name, failbit := false, pending := pending } fm
      now).2 name (visible ++ pending) := by
  unfold OfStream.close
  exact ⟨rfl, appendTo_storedAs fm name visible _ now hstored⟩

theorem storedAs_openForReading (fm : FileManager) (name content : List Nat)
    (hstored : StoredAs fm name content) :
    fm.openForReading name = some (IfStream.regular content) := by
  obtain ⟨hname, ⟨g, hg, hgn⟩, hall⟩ := hstored
  have hdir : FileManager.isDirectoryName name = false := by
    unfold FileManager.isDirectoryName
    exact decide_eq_false hname
  unfold FileManager.openForReading
  rw [hdir]
  simp only [Bool.false_eq_true, if_false]
  cases hfind : fm.files.find? (fun f => decide (f.filename = name)) with
  | none =>
    have := List.find?_eq_none.mp hfind g hg
    simp at this
    exact absurd hgn this
  | some x =>
    have hx : x ∈ fm.files := List.mem_of_find?_eq_some hfind
    have hxn : x.filename = name := by
      have := List.find?_some hfind
      simpa using this
    simp only [Option.map_some', hall x hx hxn]

end UploadStorageLemmas

section UploadFlowLemmas

open ProtocolHelper SecurityHelper ClientHandler

theorem handleUploadRequest_accepted (env : Env) (h : ClientHandler) (payload : List Nat)
    (hok : (deserializeString (vectorData payload env.beyond) payload.length [] 0).ok = true)
    (hvalid : isValidFilename
      (deserializeString (vectorData payload env.beyond) payload.length [] 0).str = true)
    (hsize : isValidFileSize (deserializeUint64 (advance (vectorData payload env.beyond)
      (deserializeString (vectorData payload env.beyond) payload.length
        [] 0).bytesRead)).value = true)
    (hopen : (h.fileManager.openForWriting
      (deserializeString (vectorData payload env.beyond) payload.length [] 0).str
      h.m_uploadFile h.m_lastActivity.toNat).1 = true) :
    (handleUploadRequest env h payload).2.m_authenticated = h.m_authenticated ∧
    (handleUploadRequest env h payload).2.m_uploadFile =
      (h.fileManager.openForWriting
        (deserializeString (vectorData payload env.beyond) payload.length [] 0).str
        h.m_uploadFile h.m_lastActivity.toNat).2.1 ∧
    (handleUploadRequest env h payload).2.fileManager =
      (h.fileManager.openForWriting
        (deserializeString (vectorData payload env.beyond) payload.length [] 0).str
        h.m_uploadFile h.m_lastActivity.toNat).2.2 ∧
    (handleUploadRequest env h payload).2.sent = h.sent ++
      [sentFrame MSG_CONNECT_RESPONSE [STATUS_OK] (env.sendOk h.sent.length)] := by
  unfold handleUploadRequest
  dsimp only [noteReads]
  generalize deserializeString (vectorData payload env.beyond) payload.length [] 0 = d at *
  rw [hok, if_neg (show ¬ (!true) = true from Bool.false_ne_true), hvalid,
    if_neg (show ¬ (!true) = true from Bool.false_ne_true), hsize,
    if_neg (show ¬ (!true) = true from Bool.false_ne_true), hopen,
    if_neg (show ¬ (!true) = true from Bool.false_ne_true)]
  refine ⟨?_, ?_, ?_, ?_⟩
  · rw [sendMessage_eq]
  · rw [sendMessage_eq]
  · rw [sendMessage_eq]
  · rw [sendMessage_sent, createStatusPayload_ok]
    rfl

theorem handleUploadData_uploading (env : Env) (h : ClientHandler) (payload : List Nat)
    (name content : List Nat) (hup : Uploading h name content) :
    Uploading (handleUploadData env h payload).2 name (content ++ payload) := by
  obtain ⟨hauth, visible, pending, hfile, hstored, hsum⟩ := hup
  have hopen : ¬ (!h.m_uploadFile.is_open) = true := by
    rw [hfile]
    exact Bool.false_ne_true
  obtain ⟨w1, w2⟩ := write_storedAs h.fileManager name visible pending payload
    h.m_lastActivity.toNat env.flushed hstored
  unfold handleUploadData
  rw [if_neg hopen]
  dsimp only [noteReads]
  rw [hfile]
  refine ⟨hauth, visible ++ (pending ++ payload).take env.flushed,
    (pending ++ payload).drop env.flushed, w1, w2, ?_⟩
  rw [List.append_assoc, List.take_append_drop, ← List.append_assoc, hsum]

theorem uploadAll_uploading (datas : List (Env × List Nat)) :
    ∀ (h : ClientHandler) (name content : List Nat),
      Uploading h name content →
      (∀ e ∈ datas, ¬ e.1.timeAtCheck - e.1.timeAtUpdate > 300) →
      Uploading (uploadAll h datas) name (content ++ (datas.map Prod.snd).flatten) := by
  induction datas with
  | nil =>
    intro h name content hup _
    simpa [uploadAll] using hup
  | cons e rest ih =>
    intro h name content hup hclocks
    obtain ⟨env, payload⟩ := e
    have hclock := hclocks (env, payload) (List.mem_cons_self _ _)
    have hstep : Uploading (handleMessage env h MSG_UPLOAD_DATA payload).2 name
        (content ++ payload) := by
      rw [handleMessage_data env h payload hup.1 hclock]
      exact handleUploadData_uploading env (updateActivity env { h with payloadReads := [] })
        payload name content hup
    have := ih _ name (content ++ payload) hstep
      (fun x hx => hclocks x (List.mem_cons_of_mem _ hx))
    simpa [uploadAll, List.append_assoc] using this

theorem handleUploadComplete_stored (h : ClientHandler) (name content : List Nat)
    (hup : Uploading h name content) :
    (handleUploadComplete h).2.m_authenticated = true ∧
    StoredAs (handleUploadComplete h).2.fileManager name content ∧
    (handleUploadComplete h).2.m_uploadFile.target = none := by
  obtain ⟨hauth, visible, pending, hfile, hstored, hsum⟩ := hup
  have hopen : h.m_uploadFile.is_open = true := by
    rw [hfile]
    rfl
  obtain ⟨c1, c2⟩ := close_storedAs h.fileManager name visible pending
    h.m_lastActivity.toNat hstored
  unfold handleUploadComplete
  rw [if_pos hopen]
  dsimp only
  rw [hfile, c1]
  rw [hsum] at c2
  exact ⟨hauth, c2, rfl⟩

theorem handleDownloadRequest_frames (env : Env) (h : ClientHandler)
    (payload content : List Nat) (hsend : ∀ k, env.sendOk k = true)
    (hok : (deserializeString (vectorData payload env.beyond) payload.length [] 0).ok = true)
    (hvalid : isValidFilename
      (deserializeString (vectorData payload env.beyond) payload.length [] 0).str = true)
    (hopen : h.fileManager.openForReading
      (deserializeString (vectorData payload env.beyond) payload.length [] 0).str =
        some (IfStream.regular content))
    (hlen : content.length < 18446744073709551616) :
    (handleDownloadRequest env h payload).1 = true ∧
    (handleDownloadRequest env h payload).2.sent =
      h.sent ++ dataFrames content 0 ((content.length + 4095) / 4096) ++
        [sentFrame MSG_DOWNLOAD_COMPLETE [STATUS_OK] true] := by
  unfold handleDownloadRequest
  dsimp only [noteReads]
  generalize deserializeString (vectorData payload env.beyond) payload.length [] 0 = d at *
  rw [hok, if_neg (show ¬ (!true) = true from Bool.false_ne_true), hvalid,
    if_neg (show ¬ (!true) = true from Bool.false_ne_true), hopen]
  dsimp only [IfStream.tellEnd, IfStream.readable]
  have hloop := fun hX hB => downloadLoop_sends_chunks env content hsend hlen
    ((content.length + 4095) / 4096) 0 (content.length + 1) hX hB (by omega) (by omega)
  simp only [Nat.mul_zero, Nat.zero_min] at hloop
  rw [(hloop _ _).1, if_neg (show ¬ (!true) = true from Bool.false_ne_true)]
  refine ⟨rfl, ?_⟩
  rw [sendMessage_sent, (hloop _ _).2, hsend, createStatusPayload_ok]
  rfl

end UploadFlowLemmas

section UploadRoundTrip

open ProtocolHelper SecurityHelper ClientHandler

/-- Supporting lemma for C12: when no upload stream is open at the Upload-Request, the
accepted upload followed by its Upload-Data messages and Upload-Complete stores exactly the
concatenated data, and a later Download-Request for the same name sends it back in 4096-byte
Download-Data frames followed by Download-Complete. -/
theorem upload_download_roundtrip_when_stream_closed
    (envU envC envD : Env) (h : ClientHandler) (request download : List Nat)
    (datas : List (Env × List Nat))
    (hauth : h.m_authenticated = true)
    (hclosed : h.m_uploadFile.target = none)
    (hclockU : ¬ envU.timeAtCheck - envU.timeAtUpdate > 300)
    (hclockC : ¬ envC.timeAtCheck - envC.timeAtUpdate > 300)
    (hclockD : ¬ envD.timeAtCheck - envD.timeAtUpdate > 300)
    (hclocks : ∀ e ∈ datas, ¬ e.1.timeAtCheck - e.1.timeAtUpdate > 300)
    (hok : (deserializeString (vectorData request envU.beyond) request.length [] 0).ok = true)
    (hvalid : isValidFilename
      (deserializeString (vectorData request envU.beyond) request.length [] 0).str = true)
    (hsize : isValidFileSize (deserializeUint64 (advance (vectorData request envU.beyond)
      (deserializeString (vectorData request envU.beyond) request.length
        [] 0).bytesRead)).value = true)
    (hopen : (h.fileManager.openForWriting
      (deserializeString (vectorData request envU.beyond) request.length [] 0).str
      h.m_uploadFile envU.timeAtUpdate.toNat).1 = true)
    (hokD : (deserializeString (vectorData download envD.beyond) download.length [] 0).ok
      = true)
    (hsame : (deserializeString (vectorData download envD.beyond) download.length [] 0).str =
      (deserializeString (vectorData request envU.beyond) request.length [] 0).str)
    (hsend : ∀ k, envD.sendOk k = true)
    (hlen : ((datas.map Prod.snd).flatten).length < 18446744073709551616) :
    (handleMessage envD
      (handleMessage envC
        (uploadAll (handleMessage envU h MSG_UPLOAD_REQUEST request).2 datas)
        MSG_UPLOAD_COMPLETE []).2
      MSG_DOWNLOAD_REQUEST download).2.sent =
    (handleMessage envC
        (uploadAll (handleMessage envU h MSG_UPLOAD_REQUEST request).2 datas)
        MSG_UPLOAD_COMPLETE []).2.sent ++
      dataFrames ((datas.map Prod.snd).flatten) 0
        ((((datas.map Prod.snd).flatten).length + 4095) / 4096) ++
      [sentFrame MSG_DOWNLOAD_COMPLETE [STATUS_OK] true] := by
  have h1 : Uploading (handleMessage envU h MSG_UPLOAD_REQUEST request).2
      (deserializeString (vectorData request envU.beyond) request.length [] 0).str [] := by
    rw [handleMessage_upload envU h request hauth hclockU]
    have hacc := handleUploadRequest_accepted envU
      (updateActivity envU { h with payloadReads := [] }) request hok hvalid hsize hopen
    have hcl := openForWriting_closed h.fileManager
      (deserializeString (vectorData request envU.beyond) request.length [] 0).str
      h.m_uploadFile envU.timeAtUpdate.toNat hclosed hopen
    exact ⟨hacc.1.trans hauth, [], [], hacc.2.1.trans hcl.1,
      by rw [hacc.2.2.1]; exact hcl.2, rfl⟩
  have h2 := uploadAll_uploading datas _ _ _ h1 hclocks
  rw [List.nil_append] at h2
  generalize uploadAll (handleMessage envU h MSG_UPLOAD_REQUEST request).2 datas = hu at h2 ⊢
  have h3 : (handleMessage envC hu MSG_UPLOAD_COMPLETE []).2.m_authenticated = true ∧
      StoredAs (handleMessage envC hu MSG_UPLOAD_COMPLETE []).2.fileManager
        (deserializeString (vectorData request envU.beyond) request.length [] 0).str
        ((datas.map Prod.snd).flatten) := by
    rw [handleMessage_complete envC hu [] h2.1 hclockC]
    have := handleUploadComplete_stored (updateActivity envC { hu with payloadReads := [] })
      _ _ h2
    exact ⟨this.1, this.2.1⟩
  generalize (handleMessage envC hu MSG_UPLOAD_COMPLETE []).2 = hc at h3 ⊢
  rw [handleMessage_download envD hc download h3.1 hclockD]
  have hread := storedAs_openForReading hc.fileManager _ _ h3.2
  rw [← hsame] at hread hvalid
  exact (handleDownloadRequest_frames envD (updateActivity envD { hc with payloadReads := [] })
    download _ hsend hokD hvalid hread hlen).2

end UploadRoundTrip

/-- The round trip at a concrete session: `"b"` uploaded with the bytes `01 02 03` into a
session with no upload in progress comes back as one Download-Data frame. -/
theorem upload_download_roundtrip_sample :
    (ClientHandler.handleMessage sampleEnv
      (ClientHandler.handleMessage sampleEnv
        (uploadAll (ClientHandler.handleMessage sampleEnv sampleAuthenticated
          MSG_UPLOAD_REQUEST uploadRequestB).2 [(sampleEnv, [1, 2, 3])])
        MSG_UPLOAD_COMPLETE []).2
      MSG_DOWNLOAD_REQUEST sampleNameB).2.sent =
    (ClientHandler.handleMessage sampleEnv
        (uploadAll (ClientHandler.handleMessage sampleEnv sampleAuthenticated
          MSG_UPLOAD_REQUEST uploadRequestB).2 [(sampleEnv, [1, 2, 3])])
        MSG_UPLOAD_COMPLETE []).2.sent ++
      dataFrames [1, 2, 3] 0 1 ++ [sentFrame MSG_DOWNLOAD_COMPLETE [STATUS_OK] true] :=
  upload_download_roundtrip_when_stream_closed sampleEnv sampleEnv sampleEnv
    sampleAuthenticated uploadRequestB sampleNameB [(sampleEnv, [1, 2, 3])]
    rfl rfl (by decide) (by decide) (by decide) (by decide) (by decide) (by decide)
    (by decide) (by decide) (by decide) (by decide) (fun _ => rfl) (by decide)

/-! ## Download of the storage directory: theorems -/

section DirectoryLemmas

open ProtocolHelper SecurityHelper ClientHandler

theorem downloadLoop_sent_prefix (env : Env) (content : List Nat) (fileSize : Nat)
    (fuel : Nat) (h : ClientHandler) (totalSent : Nat) (buffer : List Nat) :
    ∃ new, (downloadLoop env content fileSize fuel h totalSent buffer).2.sent = h.sent ++ new := by
  induction fuel generalizing h totalSent buffer with
  | zero => exact ⟨[], by simp [downloadLoop]⟩
  | succ fuel ih =>
    unfold downloadLoop
    dsimp only
    split_ifs with c1 c2
    · exact ⟨_, sendMessage_sent env h _ _⟩
    · obtain ⟨new, hnew⟩ := ih (sendMessage env h MSG_DOWNLOAD_DATA
        (List.take (min 4096 (fileSize - totalSent))
          (List.take (min 4096 (fileSize - totalSent)) (List.drop totalSent content) ++
            List.drop (List.take (min 4096 (fileSize - totalSent))
              (List.drop totalSent content)).length buffer))).2
        ((totalSent + min 4096 (fileSize - totalSent)) % SIZE_MOD)
        (List.take (min 4096 (fileSize - totalSent)) (List.drop totalSent content) ++
          List.drop (List.take (min 4096 (fileSize - totalSent))
            (List.drop totalSent content)).length buffer)
      rw [hnew, sendMessage_sent, List.append_assoc]
      exact ⟨_, rfl⟩
    · exact ⟨[], by simp⟩

/-- A Download-Request for the name `"."`, which `isValidFilename` accepts: the storage manager
opens a stream on the storage directory, so no Error-Response is sent; when `tellg()` reports a
position other than 0 at its end and the sends succeed, the first frame sent is a Download-Data
frame of zero bytes (every `read` fails and leaves the buffer as it was allocated). -/
theorem handleDownloadRequest_directory (env : Env) (h : ClientHandler) (payload : List Nat)
    (hsend : ∀ k, env.sendOk k = true)
    (hok : (deserializeString (vectorData payload env.beyond) payload.length [] 0).ok = true)
    (hname : (deserializeString (vectorData payload env.beyond) payload.length [] 0).str =
      ascii ".")
    (hend : 0 < env.directoryEnd % SIZE_MOD) :
    ∃ rest, (handleDownloadRequest env h payload).2.sent =
      h.sent ++ sentFrame MSG_DOWNLOAD_DATA
        (List.replicate (min 4096 (env.directoryEnd % SIZE_MOD)) 0) true :: rest := by
  have hvalid : isValidFilename (ascii ".") = true := by decide
  have hopen : ∀ fm : FileManager, fm.openForReading (ascii ".") = some IfStream.directory :=
    fun fm => rfl
  unfold handleDownloadRequest
  dsimp only [noteReads]
  generalize deserializeString (vectorData payload env.beyond) payload.length [] 0 = d at *
  rw [hok, if_neg (show ¬ (!true) = true from Bool.false_ne_true), hname, hvalid,
    if_neg (show ¬ (!true) = true from Bool.false_ne_true), hopen]
  dsimp only [IfStream.tellEnd, IfStream.readable]
  generalize env.directoryEnd % SIZE_MOD = fileSize at hend ⊢
  have hloop : ∀ s : ClientHandler, ∃ new,
      (downloadLoop env [] fileSize (fileSize + 1) s 0 (List.replicate 4096 0)).2.sent =
        s.sent ++ sentFrame MSG_DOWNLOAD_DATA (List.replicate (min 4096 fileSize) 0) true ::
          new := by
    intro s
    unfold downloadLoop
    rw [if_pos hend]
    dsimp only
    rw [sendMessage_fst, hsend, if_neg (show ¬ (!true) = true from Bool.false_ne_true)]
    obtain ⟨new, hnew⟩ := downloadLoop_sent_prefix env [] fileSize fileSize
      (sendMessage env s MSG_DOWNLOAD_DATA
        (List.take (min 4096 (fileSize - 0))
          (List.take (min 4096 (fileSize - 0)) (List.drop 0 []) ++
            List.drop (List.take (min 4096 (fileSize - 0)) (List.drop 0 [])).length
              (List.replicate 4096 0)))).2
      ((0 + min 4096 (fileSize - 0)) % SIZE_MOD)
      (List.take (min 4096 (fileSize - 0)) (List.drop 0 []) ++
        List.drop (List.take (min 4096 (fileSize - 0)) (List.drop 0 [])).length
          (List.replicate 4096 0))
    refine ⟨new, ?_⟩
    rw [hnew, sendMessage_sent, hsend]
    have hchunk : List.take (min 4096 (fileSize - 0))
        (List.take (min 4096 (fileSize - 0)) (List.drop 0 ([] : List Nat)) ++
          List.drop (List.take (min 4096 (fileSize - 0)) (List.drop 0 ([] : List Nat))).length
            (List.replicate 4096 0)) = List.replicate (min 4096 fileSize) 0 := by
      simp only [List.drop_zero, List.take_nil, List.length_nil, List.nil_append,
        List.take_replicate, Nat.sub_zero]
      congr 1
      omega
    rw [hchunk, List.append_assoc]
    rfl
  obtain ⟨new, hnew⟩ := hloop { h with
    payloadReads := h.payloadReads ++ d.reads
    calls := h.calls ++ [StorageCall.openForReading (ascii ".")] }
  split_ifs
  · exact ⟨new, hnew⟩
  · rw [sendMessage_sent, hnew, List.append_assoc]
    exact ⟨_, rfl⟩

end DirectoryLemmas

/-! ## Protocol version: theorems -/

section VersionLemmas

open ProtocolHelper ClientHandler

theorem getD_set_ne (bytes : List Nat) (v i : Nat) (hi : i ≠ 2) :
    (bytes.set 2 v).getD i 0 = bytes.getD i 0 := by
  simp only [List.getD_eq_getElem?_getD]
  rw [List.getElem?_set_ne (Ne.symm hi)]

theorem deserializeHeader_set_version (bytes : List Nat) (v bufferSize : Nat)
    (header : MessageHeader) :
    (deserializeHeader (fun i => (bytes.set 2 v).getD i 0) bufferSize header).ok =
      (deserializeHeader (fun i => bytes.getD i 0) bufferSize header).ok ∧
    (deserializeHeader (fun i => (bytes.set 2 v).getD i 0) bufferSize header).header.messageType =
      (deserializeHeader (fun i => bytes.getD i 0) bufferSize header).header.messageType ∧
    (deserializeHeader (fun i => (bytes.set 2 v).getD i 0) bufferSize header).header.payloadLength =
      (deserializeHeader (fun i => bytes.getD i 0) bufferSize header).header.payloadLength := by
  unfold deserializeHeader
  by_cases hsize : bufferSize < 8
  · simp only [if_pos hsize, and_self]
  · simp only [if_neg hsize, loadNet16, loadNet32, advance]
    rw [getD_set_ne bytes v 0 (by decide), getD_set_ne bytes v 1 (by decide),
      getD_set_ne bytes v 3 (by decide), getD_set_ne bytes v (4 + 0) (by decide),
      getD_set_ne bytes v (4 + 1) (by decide), getD_set_ne bytes v (4 + 2) (by decide),
      getD_set_ne bytes v (4 + 3) (by decide)]
    split_ifs <;> exact ⟨rfl, rfl, rfl⟩

theorem handleClient_set_version (h : ClientHandler) (inc : Incoming) (rest : List Incoming)
    (v : Nat) :
    handleClient h ({ inc with headerBytes := inc.headerBytes.set 2 v } :: rest) =
      handleClient h (inc :: rest) := by
  obtain ⟨hok, htype, hlen⟩ :=
    deserializeHeader_set_version inc.headerBytes v 8 MessageHeader.default
  unfold handleClient
  simp only [List.length_set]
  rw [hok, htype, hlen]

end VersionLemmas

section VersionTheorems

open ProtocolHelper ClientHandler

/-- C21, the claim as stated fails: the header `46 53 02 03 00 00 00 00` has the right magic and
version byte 2, yet `deserializeHeader` succeeds on it, and the receive loop of an authenticated
session dispatches the frame as a List-Request: the storage is listed and a File-List-Response
is sent. -/
theorem version_two_header_dispatched :
    (deserializeHeader (fun i => sampleVersionTwoHeader.getD i 0) 8 MessageHeader.default).ok
      = true ∧
    (deserializeHeader (fun i => sampleVersionTwoHeader.getD i 0) 8
      MessageHeader.default).header.version = 2 ∧
    (2 : Nat) ≠ PROTOCOL_VERSION ∧
    (handleClient sampleAuthenticated sampleVersionTwo).calls = [StorageCall.getFileList] ∧
    (handleClient sampleAuthenticated sampleVersionTwo).sent =
      [sentFrame MSG_FILE_LIST_RESPONSE [0, 0, 0, 0] true] := by
  decide

/-- C21, amended: only the magic is checked on decode. On every buffer of at least 8 bytes
whose first two bytes are the magic, `deserializeHeader` succeeds whatever the version byte is
and stores that byte in `header.version`; and the receive loop treats a frame whose version
byte is replaced by any value exactly as the original frame. -/
theorem version_stored_not_checked :
    (∀ (buffer : Nat → Nat) (bufferSize : Nat) (header : MessageHeader),
      8 ≤ bufferSize → loadNet16 buffer = MAGIC_NUMBER →
      (deserializeHeader buffer bufferSize header).ok = true ∧
      (deserializeHeader buffer bufferSize header).header.version = buffer 2) ∧
    (∀ (h : ClientHandler) (inc : Incoming) (rest : List Incoming) (v : Nat),
      handleClient h ({ inc with headerBytes := inc.headerBytes.set 2 v } :: rest) =
        handleClient h (inc :: rest)) := by
  refine ⟨?_, handleClient_set_version⟩
  intro buffer bufferSize header hsize hmagic
  unfold deserializeHeader
  rw [if_neg (by omega)]
  simp only [hmagic, ne_eq, not_true_eq_false, if_false, and_self]

end VersionTheorems

/-! ## Unknown types, malformed Connect-Requests and monotone authentication: theorems -/

section AdvisoryLemmas

open ProtocolHelper SecurityHelper ClientHandler

theorem handleMessage_error_same (env : Env) (h : ClientHandler) (errorMsg : List Nat) :
    SameButLog (updateActivity env { h with payloadReads := [] })
      (sendErrorResponse env (updateActivity env { h with payloadReads := [] }) errorMsg) :=
  sendErrorResponse_same env _ errorMsg

end AdvisoryLemmas

section AdvisoryTheorems

open ProtocolHelper SecurityHelper ClientHandler

/-- C25: for every message type outside Connect-Request, Disconnect and the six types that need
authentication, and every session state, `handleMessage` (the two clock readings of the call
not being more than 300 seconds apart) returns true, sends exactly one Error-Response
("Unknown message type"), and leaves the authenticated flag, the failed-attempt counter, the
upload state (stream, filename, expected and received size) and the storage unchanged; it makes
no call to the storage manager. -/
theorem unknown_type_advisory (env : Env) (h : ClientHandler) (messageType : Nat)
    (payload : List Nat) (hclock : ¬ env.timeAtCheck - env.timeAtUpdate > 300)
    (h1 : messageType ≠ MSG_CONNECT_REQUEST) (h2 : messageType ≠ MSG_DISCONNECT)
    (h3 : ¬ needsAuthentication messageType) :
    (handleMessage env h messageType payload).1 = true ∧
    (handleMessage env h messageType payload).2.sent =
      h.sent ++ [errorFrame (ascii "Unknown message type") (env.sendOk h.sent.length)] ∧
    (handleMessage env h messageType payload).2.m_authenticated = h.m_authenticated ∧
    (handleMessage env h messageType payload).2.m_failedAttempts = h.m_failedAttempts ∧
    (handleMessage env h messageType payload).2.m_uploadFile = h.m_uploadFile ∧
    (handleMessage env h messageType payload).2.m_uploadFilename = h.m_uploadFilename ∧
    (handleMessage env h messageType payload).2.m_uploadExpectedSize = h.m_uploadExpectedSize ∧
    (handleMessage env h messageType payload).2.m_uploadReceivedSize = h.m_uploadReceivedSize ∧
    (handleMessage env h messageType payload).2.fileManager = h.fileManager ∧
    (handleMessage env h messageType payload).2.calls = h.calls := by
  have hrun : handleMessage env h messageType payload =
      (true, sendErrorResponse env (updateActivity env { h with payloadReads := [] })
        (ascii "Unknown message type")) := by
    rw [handleMessage_no_timeout env h _ _ hclock]
    unfold dispatch
    rw [if_neg h1, if_neg h2, if_neg (by unfold needsAuthentication at h3; exact h3)]
  obtain ⟨-, s2, -, s4, s5, s6, s7, s8, s9, s10⟩ :=
    handleMessage_error_same env h (ascii "Unknown message type")
  rw [hrun]
  exact ⟨rfl, sendErrorResponse_sent env _ _, s2, s4, s5, s6, s7, s8, s9, s10⟩

/-- C25 at a concrete input: type byte `0x42` on the sample authenticated session. -/
theorem unknown_type_advisory_witness :
    (handleMessage sampleEnv sampleAuthenticated 0x42 []).1 = true ∧
    (handleMessage sampleEnv sampleAuthenticated 0x42 []).2.sent =
      sampleAuthenticated.sent ++ [errorFrame (ascii "Unknown message type")
        (sampleEnv.sendOk sampleAuthenticated.sent.length)] ∧
    (handleMessage sampleEnv sampleAuthenticated 0x42 []).2.m_authenticated =
      sampleAuthenticated.m_authenticated ∧
    (handleMessage sampleEnv sampleAuthenticated 0x42 []).2.m_failedAttempts =
      sampleAuthenticated.m_failedAttempts ∧
    (handleMessage sampleEnv sampleAuthenticated 0x42 []).2.m_uploadFile =
      sampleAuthenticated.m_uploadFile ∧
    (handleMessage sampleEnv sampleAuthenticated 0x42 []).2.m_uploadFilename =
      sampleAuthenticated.m_uploadFilename ∧
    (handleMessage sampleEnv sampleAuthenticated 0x42 []).2.m_uploadExpectedSize =
      sampleAuthenticated.m_uploadExpectedSize ∧
    (handleMessage sampleEnv sampleAuthenticated 0x42 []).2.m_uploadReceivedSize =
      sampleAuthenticated.m_uploadReceivedSize ∧
    (handleMessage sampleEnv sampleAuthenticated 0x42 []).2.fileManager =
      sampleAuthenticated.fileManager ∧
    (handleMessage sampleEnv sampleAuthenticated 0x42 []).2.calls = sampleAuthenticated.calls :=
  unknown_type_advisory sampleEnv sampleAuthenticated 0x42 [] (by decide) (by decide)
    (by decide) (by unfold needsAuthentication; decide)

end AdvisoryTheorems

section MalformedLemmas

open ProtocolHelper SecurityHelper ClientHandler

theorem loadNet32_vectorData (payload : List Nat) (beyond : Nat → Nat)
    (hlen : 4 ≤ payload.length) :
    loadNet32 (vectorData payload beyond) = loadNet32 (fun i => payload.getD i 0) := by
  have hget : ∀ i, i < 4 → vectorData payload beyond i = payload.getD i 0 := by
    intro i hi
    have hlt : i < payload.length := by omega
    simp only [vectorData, List.getD_eq_getElem?_getD, List.getElem?_eq_getElem hlt,
      Option.getD_some]
  simp only [loadNet32]
  rw [hget 0 (by decide), hget 1 (by decide), hget 2 (by decide), hget 3 (by decide)]

theorem deserializeString_malformed (payload : List Nat) (beyond : Nat → Nat)
    (hbad : MalformedString payload) :
    (deserializeString (vectorData payload beyond) payload.length [] 0).ok = false := by
  cases hok : (deserializeString (vectorData payload beyond) payload.length [] 0).ok
  · rfl
  · exfalso
    have hle := (deserializeString_ok_iff _ _ _ _).1 hok
    rcases hbad with hshort | hdecl
    · omega
    · rw [loadNet32_vectorData payload beyond (by omega)] at hle
      omega

theorem handleMessage_malformed_connect (env : Env) (h : ClientHandler) (payload : List Nat)
    (hclock : ¬ env.timeAtCheck - env.timeAtUpdate > 300) (hbad : MalformedString payload) :
    handleMessage env h MSG_CONNECT_REQUEST payload =
      (true, sendErrorResponse env
        (noteReads (updateActivity env { h with payloadReads := [] })
          (deserializeString (vectorData payload env.beyond) payload.length [] 0).reads)
        (ascii "Invalid password format")) := by
  rw [handleMessage_no_timeout env h _ _ hclock]
  unfold dispatch
  rw [if_pos rfl]
  unfold handleAuthentication
  dsimp only
  rw [deserializeString_malformed payload env.beyond hbad, if_pos (show (!false) = true from rfl)]

theorem handleClient_frameOf (h : ClientHandler) (env : Env) (messageType : Nat)
    (payload : List Nat) (rest : List Incoming) (hlen : payload.length < 4294967296) :
    handleClient h (frameOf env messageType payload :: rest) =
      if !(handleMessage env h messageType payload).1 then
        (handleMessage env h messageType payload).2
      else handleClient (handleMessage env h messageType payload).2 rest := by
  have hdec : deserializeHeader
      (fun i => (storeNet16 MAGIC_NUMBER ++ [PROTOCOL_VERSION, messageType] ++
        storeNet32 payload.length).getD i 0) 8 MessageHeader.default =
      { ok := true
        header := { magicNumber := MAGIC_NUMBER, version := PROTOCOL_VERSION,
                    messageType := messageType, payloadLength := payload.length }
        reads := [0, 1, 2, 3, 4, 5, 6, 7] } := by
    simp only [deserializeHeader, loadNet16, loadNet32, advance, storeNet16, storeNet32,
      MAGIC_NUMBER, U32_MOD]
    simp
    omega
  have hl : (storeNet16 MAGIC_NUMBER ++ [PROTOCOL_VERSION, messageType] ++
      storeNet32 payload.length).length = 8 := rfl
  conv_lhs => unfold handleClient
  dsimp only [frameOf]
  rw [hl, if_neg (by decide), if_neg (by decide), hdec]
  dsimp only
  rw [if_neg (show ¬ (!true) = true from Bool.false_ne_true), if_neg (Nat.lt_irrefl _),
    List.take_length]

end MalformedLemmas

section MalformedTheorems

open ProtocolHelper SecurityHelper ClientHandler

theorem malformed_connect_step (env : Env) (h : ClientHandler) (payload : List Nat)
    (hclock : ¬ env.timeAtCheck - env.timeAtUpdate > 300) (hbad : MalformedString payload) :
    (handleMessage env h MSG_CONNECT_REQUEST payload).1 = true ∧
    (handleMessage env h MSG_CONNECT_REQUEST payload).2.sent =
      h.sent ++ [errorFrame (ascii "Invalid password format") (env.sendOk h.sent.length)] ∧
    (handleMessage env h MSG_CONNECT_REQUEST payload).2.m_failedAttempts = h.m_failedAttempts ∧
    (handleMessage env h MSG_CONNECT_REQUEST payload).2.m_authenticated = h.m_authenticated := by
  rw [handleMessage_malformed_connect env h payload hclock hbad]
  obtain ⟨-, s2, -, s4, -⟩ := sendErrorResponse_same env
    (noteReads (updateActivity env { h with payloadReads := [] })
      (deserializeString (vectorData payload env.beyond) payload.length [] 0).reads)
    (ascii "Invalid password format")
  exact ⟨rfl, sendErrorResponse_sent env _ _, s4, s2⟩

theorem malformed_connect_run (frames : List (Env × List Nat)) :
    ∀ (h : ClientHandler) (rest : List Incoming),
      (∀ f ∈ frames, ¬ f.1.timeAtCheck - f.1.timeAtUpdate > 300 ∧ MalformedString f.2 ∧
        f.2.length < 4294967296) →
      ∃ h1 new, handleClient h
          (frames.map (fun f => frameOf f.1 MSG_CONNECT_REQUEST f.2) ++ rest) =
          handleClient h1 rest ∧
        h1.m_failedAttempts = h.m_failedAttempts ∧
        h1.m_authenticated = h.m_authenticated ∧
        h1.sent = h.sent ++ new ∧ new.length = frames.length ∧
        ∀ s ∈ new, s.messageType = MSG_ERROR_RESPONSE := by
  induction frames with
  | nil =>
    intro h rest _
    exact ⟨h, [], rfl, rfl, rfl, by simp, rfl, by simp⟩
  | cons f frames ih =>
    intro h rest hall
    obtain ⟨hclock, hbad, hlen⟩ := hall f (List.mem_cons_self _ _)
    obtain ⟨s1, s2, s3, s4⟩ := malformed_connect_step f.1 h f.2 hclock hbad
    obtain ⟨h1, new, e1, e2, e3, e4, e5, e6⟩ :=
      ih (handleMessage f.1 h MSG_CONNECT_REQUEST f.2).2 rest
        (fun g hg => hall g (List.mem_cons_of_mem _ hg))
    refine ⟨h1, errorFrame (ascii "Invalid password format") (f.1.sendOk h.sent.length) :: new,
      ?_, e2.trans s3, e3.trans s4, ?_, by simp [e5], ?_⟩
    · rw [List.map_cons, List.cons_append, handleClient_frameOf h f.1 _ f.2 _ hlen, s1]
      exact e1
    · rw [e4, s2]
      simp
    · intro s hs
      rcases List.mem_cons.1 hs with rfl | hs
      · rfl
      · exact e6 s hs

/-- C26: a Connect-Request whose payload is not a well-formed length-prefixed string (fewer
than 4 bytes, or a declared length exceeding what follows) is answered with one Error-Response
("Invalid password format"), returns true and leaves the failed-attempt counter and the
authenticated flag as they were; and however many such frames the receive loop is handed in a
row, it handles all of them, sends one Error-Response for each, and goes on to the rest of the
input with the counter and the flag unchanged. -/
theorem malformed_connect_requests_not_counted (h : ClientHandler)
    (frames : List (Env × List Nat)) (rest : List Incoming)
    (hall : ∀ f ∈ frames, ¬ f.1.timeAtCheck - f.1.timeAtUpdate > 300 ∧ MalformedString f.2 ∧
      f.2.length < 4294967296) :
    (∀ f ∈ frames, ∀ s : ClientHandler,
      (handleMessage f.1 s MSG_CONNECT_REQUEST f.2).1 = true ∧
      (handleMessage f.1 s MSG_CONNECT_REQUEST f.2).2.sent =
        s.sent ++ [errorFrame (ascii "Invalid password format") (f.1.sendOk s.sent.length)] ∧
      (handleMessage f.1 s MSG_CONNECT_REQUEST f.2).2.m_failedAttempts = s.m_failedAttempts ∧
      (handleMessage f.1 s MSG_CONNECT_REQUEST f.2).2.m_authenticated = s.m_authenticated) ∧
    ∃ h1 new, handleClient h
        (frames.map (fun f => frameOf f.1 MSG_CONNECT_REQUEST f.2) ++ rest) =
        handleClient h1 rest ∧
      h1.m_failedAttempts = h.m_failedAttempts ∧
      h1.m_authenticated = h.m_authenticated ∧
      h1.sent = h.sent ++ new ∧ new.length = frames.length ∧
      ∀ s ∈ new, s.messageType = MSG_ERROR_RESPONSE :=
  ⟨fun f hf s => malformed_connect_step f.1 s f.2 (hall f hf).1 (hall f hf).2.1,
    malformed_connect_run frames h rest hall⟩

/-- C26 at a concrete input: five malformed Connect-Requests in a row on a fresh session (a
payload declaring 9 bytes and carrying 2, and a 2-byte payload, alternating). -/
theorem malformed_connect_requests_not_counted_witness :
    (∀ f ∈ [(sampleEnv, sampleMalformed), (sampleEnv, [1, 2]), (sampleEnv, sampleMalformed),
        (sampleEnv, [1, 2]), (sampleEnv, sampleMalformed)], ∀ s : ClientHandler,
      (handleMessage f.1 s MSG_CONNECT_REQUEST f.2).1 = true ∧
      (handleMessage f.1 s MSG_CONNECT_REQUEST f.2).2.sent =
        s.sent ++ [errorFrame (ascii "Invalid password format") (f.1.sendOk s.sent.length)] ∧
      (handleMessage f.1 s MSG_CONNECT_REQUEST f.2).2.m_failedAttempts = s.m_failedAttempts ∧
      (handleMessage f.1 s MSG_CONNECT_REQUEST f.2).2.m_authenticated = s.m_authenticated) ∧
    ∃ h1 new, handleClient sampleFresh
        ([(sampleEnv, sampleMalformed), (sampleEnv, [1, 2]), (sampleEnv, sampleMalformed),
          (sampleEnv, [1, 2]), (sampleEnv, sampleMalformed)].map
            (fun f => frameOf f.1 MSG_CONNECT_REQUEST f.2) ++ []) =
        handleClient h1 [] ∧
      h1.m_failedAttempts = sampleFresh.m_failedAttempts ∧
      h1.m_authenticated = sampleFresh.m_authenticated ∧
      h1.sent = sampleFresh.sent ++ new ∧
      new.length = [(sampleEnv, sampleMalformed), (sampleEnv, [1, 2]),
        (sampleEnv, sampleMalformed), (sampleEnv, [1, 2]), (sampleEnv, sampleMalformed)].length ∧
      ∀ s ∈ new, s.messageType = MSG_ERROR_RESPONSE :=
  malformed_connect_requests_not_counted sampleFresh _ []
    (by
      intro f hf
      simp only [List.mem_cons, List.mem_singleton, List.not_mem_nil, or_false] at hf
      rcases hf with rfl | rfl | rfl | rfl | rfl <;>
        exact ⟨by decide, by unfold MalformedString; decide, by decide⟩)

end MalformedTheorems

section MonotoneTheorems

open ProtocolHelper SecurityHelper ClientHandler

theorem handleMessage_connect_untouched (env : Env) (h : ClientHandler) (payload : List Nat) :
    StorageUntouched h (handleMessage env h MSG_CONNECT_REQUEST payload).2 := by
  apply handleMessage_cases env h MSG_CONNECT_REQUEST payload (fun r => StorageUntouched h r.2)
  · intro _
    exact ⟨rfl, rfl, rfl, rfl, rfl, rfl⟩
  · intro _
    unfold dispatch
    rw [if_pos rfl]
    exact (handleAuthentication_untouched env
      (updateActivity env { h with payloadReads := [] }) payload).1

/-- C27: once the authenticated flag of a session is true it stays true, through every single
message of any type and through every input of the receive loop. A later Connect-Request with a
wrong hash (the two clock readings of the call not more than 300 seconds apart) leaves the flag
true, adds one to the failed-attempt counter, touches neither the storage nor the upload state,
and returns true exactly when the counter is still below 3; so, counted from a counter of 0 (as
a successful authentication leaves it), the first and second wrong hash keep the session open
and the third closes it, with the flag still true. -/
theorem authentication_monotone (h : ClientHandler) (hauth : h.m_authenticated = true) :
    (∀ incs : List Incoming, (handleClient h incs).m_authenticated = true) ∧
    (∀ (env : Env) (messageType : Nat) (payload : List Nat),
      (handleMessage env h messageType payload).2.m_authenticated = true) ∧
    (∀ (env : Env) (hash extra : List Nat), hash.length < 4294967296 →
      hash ≠ h.m_serverPasswordHash → ¬ env.timeAtCheck - env.timeAtUpdate > 300 →
      (handleMessage env h MSG_CONNECT_REQUEST (storeNet32 hash.length ++ hash ++ extra)).1 =
        decide (h.m_failedAttempts + 1 < 3) ∧
      (handleMessage env h MSG_CONNECT_REQUEST
        (storeNet32 hash.length ++ hash ++ extra)).2.m_failedAttempts = h.m_failedAttempts + 1 ∧
      (handleMessage env h MSG_CONNECT_REQUEST
        (storeNet32 hash.length ++ hash ++ extra)).2.m_authenticated = true ∧
      StorageUntouched h (handleMessage env h MSG_CONNECT_REQUEST
        (storeNet32 hash.length ++ hash ++ extra)).2) ∧
    (∀ (e1 e2 e3 : Env) (hash extra : List Nat), hash.length < 4294967296 →
      hash ≠ h.m_serverPasswordHash → h.m_failedAttempts = 0 →
      ¬ e1.timeAtCheck - e1.timeAtUpdate > 300 → ¬ e2.timeAtCheck - e2.timeAtUpdate > 300 →
      (handleMessage e1 h MSG_CONNECT_REQUEST (storeNet32 hash.length ++ hash ++ extra)).1
        = true ∧
      (handleMessage e2
        (handleMessage e1 h MSG_CONNECT_REQUEST (storeNet32 hash.length ++ hash ++ extra)).2
        MSG_CONNECT_REQUEST (storeNet32 hash.length ++ hash ++ extra)).1 = true ∧
      (handleMessage e3 (handleMessage e2
        (handleMessage e1 h MSG_CONNECT_REQUEST (storeNet32 hash.length ++ hash ++ extra)).2
        MSG_CONNECT_REQUEST (storeNet32 hash.length ++ hash ++ extra)).2
        MSG_CONNECT_REQUEST (storeNet32 hash.length ++ hash ++ extra)).1 = false ∧
      (handleMessage e3 (handleMessage e2
        (handleMessage e1 h MSG_CONNECT_REQUEST (storeNet32 hash.length ++ hash ++ extra)).2
        MSG_CONNECT_REQUEST (storeNet32 hash.length ++ hash ++ extra)).2
        MSG_CONNECT_REQUEST (storeNet32 hash.length ++ hash ++ extra)).2.m_authenticated
          = true) := by
  refine ⟨fun incs => handleClient_keeps_authenticated h incs hauth,
    fun env messageType payload => (handleMessage_step env h messageType payload).2.1 hauth,
    ?_, ?_⟩
  · intro env hash extra hlen hne hclock
    obtain ⟨w1, w2, w3, -, -⟩ := handleMessage_wrong_hash env h hash extra hlen hne hclock
    exact ⟨w1, w2, w3.trans hauth, handleMessage_connect_untouched env h _⟩
  · intro e1 e2 e3 hash extra hlen hne hzero hc1 hc2
    obtain ⟨a1, a2, a3, a4, -⟩ := handleMessage_wrong_hash e1 h hash extra hlen hne hc1
    generalize handleMessage e1 h MSG_CONNECT_REQUEST
      (storeNet32 hash.length ++ hash ++ extra) = r1 at a1 a2 a3 a4 ⊢
    obtain ⟨b1, b2, b3, b4, -⟩ :=
      handleMessage_wrong_hash e2 r1.2 hash extra hlen (a4 ▸ hne) hc2
    generalize handleMessage e2 r1.2 MSG_CONNECT_REQUEST
      (storeNet32 hash.length ++ hash ++ extra) = r2 at b1 b2 b3 b4 ⊢
    have hauth2 : r2.2.m_authenticated = true := by rw [b3, a3, hauth]
    refine ⟨?_, ?_, ?_, (handleMessage_step e3 r2.2 _ _).2.1 hauth2⟩
    · rw [a1, hzero]
      decide
    · rw [b1, a2, hzero]
      decide
    · apply handleMessage_cases e3 r2.2 MSG_CONNECT_REQUEST _ (fun r => r.1 = false)
      · intro _
        rfl
      · intro hc3
        have hrun := handleMessage_no_timeout e3 r2.2 MSG_CONNECT_REQUEST
          (storeNet32 hash.length ++ hash ++ extra) hc3
        obtain ⟨c1, -⟩ := handleMessage_wrong_hash e3 r2.2 hash extra hlen
          (b4 ▸ a4 ▸ hne) hc3
        rw [hrun] at c1
        rw [c1, b2, a2, hzero]
        decide

/-- C27 at a concrete input: the sample authenticated session. -/
theorem authentication_monotone_witness :
    sampleAuthenticated.m_authenticated = true ∧
    (handleMessage sampleEnv sampleAuthenticated MSG_CONNECT_REQUEST
      (storeNet32 (ascii "wrong").length ++ ascii "wrong" ++ [])).2.m_authenticated = true :=
  ⟨rfl, (authentication_monotone sampleAuthenticated rfl).2.1 sampleEnv MSG_CONNECT_REQUEST _⟩

end MonotoneTheorems

/-! ## Password hash: theorems -/

section HashLemmas

open ProtocolHelper SecurityHelper ClientHandler

theorem hashStep_eq (charIsSigned : Bool) (h c : Nat) :
    (((h <<< 5) % SIZE_MOD + h) % SIZE_MOD + charToSize charIsSigned c) % SIZE_MOD =
      (((h : Int) * 33 + charValue charIsSigned c) % 18446744073709551616).toNat := by
  simp only [charToSize, charValue, SIZE_MOD, Nat.shiftLeft_eq]
  norm_num
  split_ifs <;> omega

theorem hashLoop_eq (charIsSigned : Bool) (password : List Nat) :
    ∀ start : Nat,
      password.foldl (fun hash c => (((hash <<< 5) % SIZE_MOD + hash) % SIZE_MOD +
        charToSize charIsSigned c) % SIZE_MOD) start =
      password.foldl (fun (h : Nat) c =>
        (((h : Int) * 33 + charValue charIsSigned c) % 18446744073709551616).toNat) start := by
  induction password with
  | nil => intro start; rfl
  | cons c rest ih =>
    intro start
    rw [List.foldl_cons, List.foldl_cons, hashStep_eq, ih]

theorem hashValue_lt (charIsSigned : Bool) (password : List Nat) :
    hashValue charIsSigned password < 18446744073709551616 := by
  unfold hashValue
  have hgen : ∀ start : Nat, start < 18446744073709551616 →
      password.foldl (fun (h : Nat) c =>
        (((h : Int) * 33 + charValue charIsSigned c) % 18446744073709551616).toNat) start <
        18446744073709551616 := by
    induction password with
    | nil => intro start hs; exact hs
    | cons c rest ih =>
      intro start _
      rw [List.foldl_cons]
      apply ih
      omega
  exact hgen 5381 (by norm_num)

theorem hexDigits_length (n v : Nat) : (hexDigits n v).length = n := by
  induction n generalizing v with
  | zero => rfl
  | succ n ih => simp [hexDigits, ih]

theorem hexDigit_lower (d : Nat) (hd : d < 16) : IsLowerHex (hexDigit d) := by
  unfold IsLowerHex hexDigit
  split_ifs <;> omega

theorem hexValue_hexDigit (d : Nat) (hd : d < 16) : hexValue (hexDigit d) = d := by
  unfold hexValue hexDigit
  split_ifs <;> omega

theorem hexDigits_lower (n v : Nat) : ∀ c ∈ hexDigits n v, IsLowerHex c := by
  induction n generalizing v with
  | zero => intro c hc; simp [hexDigits] at hc
  | succ n ih =>
    intro c hc
    simp only [hexDigits, List.mem_append, List.mem_singleton] at hc
    rcases hc with hc | rfl
    · exact ih _ c hc
    · exact hexDigit_lower _ (Nat.mod_lt _ (by decide))

theorem parseHex_hexDigits (n v : Nat) : parseHex (hexDigits n v) = v % 16 ^ n := by
  induction n generalizing v with
  | zero => simp [hexDigits, parseHex, Nat.mod_one]
  | succ n ih =>
    have hstep : parseHex (hexDigits n (v / 16) ++ [hexDigit (v % 16)]) =
        parseHex (hexDigits n (v / 16)) * 16 + hexValue (hexDigit (v % 16)) := by
      simp [parseHex, List.foldl_append]
    rw [hexDigits, hstep, ih, hexValue_hexDigit _ (Nat.mod_lt _ (by decide)), pow_succ,
      Nat.mul_comm (16 ^ n) 16, Nat.mod_mul]
    ring

end HashLemmas

section HashTheorems

open ProtocolHelper SecurityHelper ClientHandler

theorem hashPassword_eq (charIsSigned : Bool) (password : List Nat) :
    hashPassword charIsSigned password = hexDigits 16 (hashValue charIsSigned password) := by
  unfold hashPassword hashValue snprintfHex16
  dsimp only
  rw [hashLoop_eq]

/-- C28: `hashPassword` is a function of the password (and of the signedness of `char`) alone.
Its result has exactly 16 characters, each one of `0`..`9`, `a`..`f`, and read as a hexadecimal
number it is the value obtained from 5381 by the step `h := (h * 33 + c) mod 2^64` over the
characters of the password. It is not injective: `"ab"` and `"bA"` are distinct and have the
same hash, so a session of a server whose password is `"ab"` authenticates a client that
hashed `"bA"`. -/
theorem hashPassword_form_and_collision :
    (∀ (charIsSigned : Bool) (password : List Nat),
      (hashPassword charIsSigned password).length = 16 ∧
      (∀ c ∈ hashPassword charIsSigned password, IsLowerHex c) ∧
      parseHex (hashPassword charIsSigned password) = hashValue charIsSigned password) ∧
    (∀ charIsSigned : Bool,
      ascii "ab" ≠ ascii "bA" ∧
      hashPassword charIsSigned (ascii "ab") = hashPassword charIsSigned (ascii "bA")) ∧
    (∀ charIsSigned : Bool,
      (handleMessage sampleEnv (sampleSessionAb charIsSigned) MSG_CONNECT_REQUEST
        (sampleConnectBA charIsSigned)).1 = true ∧
      (handleMessage sampleEnv (sampleSessionAb charIsSigned) MSG_CONNECT_REQUEST
        (sampleConnectBA charIsSigned)).2.m_authenticated = true) := by
  refine ⟨?_, ?_, ?_⟩
  · intro charIsSigned password
    rw [hashPassword_eq]
    refine ⟨hexDigits_length _ _, hexDigits_lower _ _, ?_⟩
    rw [parseHex_hexDigits, Nat.mod_eq_of_lt]
    have := hashValue_lt charIsSigned password
    norm_num
    exact this
  · intro charIsSigned
    refine ⟨by decide, ?_⟩
    rw [hashPassword_eq, hashPassword_eq]
    have hv : hashValue charIsSigned (ascii "ab") = hashValue charIsSigned (ascii "bA") := by
      cases charIsSigned <;> decide
    rw [hv]
  · intro charIsSigned
    cases charIsSigned <;> decide

end HashTheorems

/-! ## Path confinement: theorems -/

section ConfinementTheorems

open ProtocolHelper SecurityHelper ClientHandler

/-- C29, amended: for every name accepted by `isValidFilename`, the path built by the storage
manager is the storage directory, a slash and the name; the name is not empty, is not `".."`,
and holds no slash, backslash or zero byte, so it is a single path component and the path
designates nothing outside the storage directory: an entry directly inside it, or, for the
accepted name `"."`, the storage directory itself. -/
theorem isValidFilename_confined (fm : FileManager) (name : List Nat)
    (hvalid : isValidFilename name = true) :
    fm.getFilePath name = fm.m_storageDir ++ ascii "/" ++ name ∧
    1 ≤ name.length ∧ name ≠ ascii ".." ∧ 47 ∉ name ∧ 92 ∉ name ∧ 0 ∉ name := by
  unfold isValidFilename at hvalid
  split_ifs at hvalid with c1 c2 c3 c4 c5
  simp only [ne_eq, not_not] at c2 c3 c4 c5
  refine ⟨rfl, by omega, ?_, (find_singleton_eq_none_iff name 47).1 c3,
    (find_singleton_eq_none_iff name 92).1 c4, (find_singleton_eq_none_iff name 0).1 c5⟩
  intro hdots
  rw [hdots] at c2
  revert c2
  decide

/-- C29, amended, at a concrete input: the name `"report.pdf"` in the sample storage. -/
theorem isValidFilename_confined_witness :
    isValidFilename (ascii "report.pdf") = true ∧
    sampleStorage.getFilePath (ascii "report.pdf") = ascii "storage/report.pdf" ∧
    ascii "report.pdf" ≠ ascii ".." ∧ 47 ∉ ascii "report.pdf" :=
  ⟨by decide,
    (isValidFilename_confined sampleStorage (ascii "report.pdf") (by decide)).1,
    (isValidFilename_confined sampleStorage (ascii "report.pdf") (by decide)).2.2.1,
    (isValidFilename_confined sampleStorage (ascii "report.pdf") (by decide)).2.2.2.1⟩

/-- C29, the claim as stated fails: `isValidFilename` accepts the name `"."`, for which the
storage manager builds the path `storage/.`, the storage directory itself; the handlers of
Delete-Request and Upload-Request pass that name on to the storage manager, and the storage
manager opens a read stream on it. -/
theorem isValidFilename_accepts_dot :
    isValidFilename (ascii ".") = true ∧
    sampleStorage.getFilePath (ascii ".") = ascii "storage/." ∧
    (handleMessage sampleEnv sampleAuthenticated MSG_DELETE_REQUEST sampleNameDot).2.calls =
      [StorageCall.deleteFile (ascii ".")] ∧
    (handleMessage sampleEnv sampleAuthenticated MSG_UPLOAD_REQUEST uploadRequestDot).2.calls =
      [StorageCall.openForWriting (ascii ".")] ∧
    sampleStorage.openForReading (ascii ".") = some IfStream.directory := by
  decide

end ConfinementTheorems

/-! ## Visibility of a file being uploaded: theorems -/

section VisibilityTheorems

open ProtocolHelper SecurityHelper ClientHandler

/-- C22, the claim as stated fails: after the accepted Upload-Request for `"a"` and one
Upload-Data frame, with the write stream still open (the byte is in its buffer) and no
Upload-Complete handled, a List-Request is answered with a listing that holds `"a"` (with size
0), and a Download-Request for `"a"` opens the file: it is answered with a Download-Complete,
not with an Error-Response. -/
theorem upload_visible_before_complete_sample :
    afterFirstData.m_uploadFile.is_open = true ∧
    afterFirstData.m_uploadFile.pending = [7] ∧
    ((handleMessage sampleEnv afterFirstData MSG_LIST_FILES []).2.sent.drop
        afterFirstData.sent.length).map
      (fun f => (f.messageType, SimpleClient.listFiles f.payload sampleEnv.beyond)) =
      [(MSG_FILE_LIST_RESPONSE, [{ filename := ascii "a", fileSize := 0, timestamp := 100 }])] ∧
    afterFirstData.fileManager.openForReading (ascii "a") = some (IfStream.regular []) ∧
    (handleMessage sampleEnv afterFirstData MSG_DOWNLOAD_REQUEST sampleNameA).2.sent.drop
        afterFirstData.sent.length =
      [sentFrame MSG_DOWNLOAD_COMPLETE [STATUS_OK] true] := by
  decide

end VisibilityTheorems

section VisibilityLemmas

open ProtocolHelper SecurityHelper ClientHandler

theorem uploading_after_request (envU : Env) (h : ClientHandler) (request : List Nat)
    (datas : List (Env × List Nat))
    (hauth : h.m_authenticated = true) (hclosed : h.m_uploadFile.target = none)
    (hclockU : ¬ envU.timeAtCheck - envU.timeAtUpdate > 300)
    (hclocks : ∀ e ∈ datas, ¬ e.1.timeAtCheck - e.1.timeAtUpdate > 300)
    (hok : (deserializeString (vectorData request envU.beyond) request.length [] 0).ok = true)
    (hvalid : isValidFilename
      (deserializeString (vectorData request envU.beyond) request.length [] 0).str = true)
    (hsize : isValidFileSize (deserializeUint64 (advance (vectorData request envU.beyond)
      (deserializeString (vectorData request envU.beyond) request.length
        [] 0).bytesRead)).value = true)
    (hopen : (h.fileManager.openForWriting
      (deserializeString (vectorData request envU.beyond) request.length [] 0).str
      h.m_uploadFile envU.timeAtUpdate.toNat).1 = true) :
    Uploading (uploadAll (handleMessage envU h MSG_UPLOAD_REQUEST request).2 datas)
      (deserializeString (vectorData request envU.beyond) request.length [] 0).str
      ((datas.map Prod.snd).flatten) := by
  have h1 : Uploading (handleMessage envU h MSG_UPLOAD_REQUEST request).2
      (deserializeString (vectorData request envU.beyond) request.length [] 0).str [] := by
    rw [handleMessage_upload envU h request hauth hclockU]
    have hacc := handleUploadRequest_accepted envU
      (updateActivity envU { h with payloadReads := [] }) request hok hvalid hsize hopen
    have hcl := openForWriting_closed h.fileManager
      (deserializeString (vectorData request envU.beyond) request.length [] 0).str
      h.m_uploadFile envU.timeAtUpdate.toNat hclosed hopen
    exact ⟨hacc.1.trans hauth, [], [], hacc.2.1.trans hcl.1,
      by rw [hacc.2.2.1]; exact hcl.2, rfl⟩
  have h2 := uploadAll_uploading datas _ _ _ h1 hclocks
  rw [List.nil_append] at h2
  exact h2

theorem storedAs_listed (fm : FileManager) (name content : List Nat)
    (hstored : StoredAs fm name content) :
    ∃ r ∈ fm.getFileList, r.filename = name ∧ r.fileSize = content.length % SIZE_MOD := by
  obtain ⟨-, ⟨f, hf, hname⟩, hall⟩ := hstored
  refine ⟨⟨f.filename, f.content.length % SIZE_MOD, f.mtime⟩, ?_, hname, ?_⟩
  · unfold FileManager.getFileList
    exact List.mem_map.2 ⟨f, hf, rfl⟩
  · rw [hall f hf hname]

end VisibilityLemmas

section VisibilityTheorems2

open ProtocolHelper SecurityHelper ClientHandler

/-- C22, amended: a file being uploaded is visible under its final name from the accepted
Upload-Request on. In an authenticated session with no upload stream open, after an accepted
Upload-Request for `name` and any number of Upload-Data messages, and before any
Upload-Complete (the write stream is still open), the bytes uploaded so far are split into a
part `visible` that the stream has passed on to the file and a part `pending` still in its
buffer (either may be empty); the storage listing that a List-Request sends holds a record for
`name` whose size is the length of `visible`, and a Download-Request for `name` is answered,
with no Error-Response, by the bytes of `visible` in 4096-byte Download-Data frames and a
Download-Complete. The Upload-Complete closes the stream, and after it the file holds all the
bytes uploaded. -/
theorem upload_visible_before_complete (envU envD envC : Env) (h : ClientHandler)
    (request download : List Nat) (datas : List (Env × List Nat))
    (hauth : h.m_authenticated = true) (hclosed : h.m_uploadFile.target = none)
    (hclockU : ¬ envU.timeAtCheck - envU.timeAtUpdate > 300)
    (hclockD : ¬ envD.timeAtCheck - envD.timeAtUpdate > 300)
    (hclockC : ¬ envC.timeAtCheck - envC.timeAtUpdate > 300)
    (hclocks : ∀ e ∈ datas, ¬ e.1.timeAtCheck - e.1.timeAtUpdate > 300)
    (hok : (deserializeString (vectorData request envU.beyond) request.length [] 0).ok = true)
    (hvalid : isValidFilename
      (deserializeString (vectorData request envU.beyond) request.length [] 0).str = true)
    (hsize : isValidFileSize (deserializeUint64 (advance (vectorData request envU.beyond)
      (deserializeString (vectorData request envU.beyond) request.length
        [] 0).bytesRead)).value = true)
    (hopen : (h.fileManager.openForWriting
      (deserializeString (vectorData request envU.beyond) request.length [] 0).str
      h.m_uploadFile envU.timeAtUpdate.toNat).1 = true)
    (hokD : (deserializeString (vectorData download envD.beyond) download.length [] 0).ok
      = true)
    (hsame : (deserializeString (vectorData download envD.beyond) download.length [] 0).str =
      (deserializeString (vectorData request envU.beyond) request.length [] 0).str)
    (hsend : ∀ k, envD.sendOk k = true)
    (hlen : ((datas.map Prod.snd).flatten).length < 18446744073709551616) :
    (uploadAll (handleMessage envU h MSG_UPLOAD_REQUEST request).2 datas).m_uploadFile.is_open
      = true ∧
    (∃ visible pending,
      visible ++ pending = (datas.map Prod.snd).flatten ∧
      (uploadAll (handleMessage envU h MSG_UPLOAD_REQUEST request).2
        datas).m_uploadFile.pending = pending ∧
      (∃ r ∈ (uploadAll (handleMessage envU h MSG_UPLOAD_REQUEST request).2
          datas).fileManager.getFileList,
        r.filename = (deserializeString (vectorData request envU.beyond) request.length
          [] 0).str ∧
        r.fileSize = visible.length % SIZE_MOD) ∧
      (handleMessage envD (uploadAll (handleMessage envU h MSG_UPLOAD_REQUEST request).2 datas)
        MSG_DOWNLOAD_REQUEST download).2.sent =
        (uploadAll (handleMessage envU h MSG_UPLOAD_REQUEST request).2 datas).sent ++
          dataFrames visible 0 ((visible.length + 4095) / 4096) ++
          [sentFrame MSG_DOWNLOAD_COMPLETE [STATUS_OK] true]) ∧
    (handleMessage envC (uploadAll (handleMessage envU h MSG_UPLOAD_REQUEST request).2 datas)
      MSG_UPLOAD_COMPLETE []).2.m_uploadFile.is_open = false ∧
    (handleMessage envC (uploadAll (handleMessage envU h MSG_UPLOAD_REQUEST request).2 datas)
      MSG_UPLOAD_COMPLETE []).2.fileManager.openForReading
        (deserializeString (vectorData request envU.beyond) request.length [] 0).str =
      some (IfStream.regular ((datas.map Prod.snd).flatten)) := by
  have hup := uploading_after_request envU h request datas hauth hclosed hclockU hclocks hok
    hvalid hsize hopen
  generalize uploadAll (handleMessage envU h MSG_UPLOAD_REQUEST request).2 datas = hu at hup ⊢
  have hdone := handleUploadComplete_stored
    (updateActivity envC { hu with payloadReads := [] }) _ _ hup
  obtain ⟨hauth2, visible, pending, hfile, hstored, hsum⟩ := hup
  have hread := storedAs_openForReading hu.fileManager _ _ hstored
  rw [← hsame] at hread hvalid
  have hvis : visible.length < 18446744073709551616 := by
    have : visible.length ≤ ((datas.map Prod.snd).flatten).length := by
      rw [← hsum, List.length_append]
      omega
    omega
  refine ⟨by rw [hfile]; rfl, ⟨visible, pending, hsum, by rw [hfile],
    storedAs_listed _ _ _ hstored, ?_⟩, ?_, ?_⟩
  · rw [handleMessage_download envD hu download hauth2 hclockD]
    exact (handleDownloadRequest_frames envD
      (updateActivity envD { hu with payloadReads := [] }) download _ hsend hokD hvalid hread
      hvis).2
  · rw [handleMessage_complete envC hu [] hauth2 hclockC]
    unfold OfStream.is_open
    rw [hdone.2.2]
    rfl
  · rw [handleMessage_complete envC hu [] hauth2 hclockC]
    exact storedAs_openForReading _ _ _ hdone.2.1

/-- C22, amended, at a concrete input: the Upload-Request for `"a"` and one Upload-Data frame
with the byte `07` on the sample authenticated session. -/
theorem upload_visible_before_complete_witness :
    (uploadAll (handleMessage sampleEnv sampleAuthenticated MSG_UPLOAD_REQUEST
      uploadRequestA).2 [(sampleEnv, [7])]).m_uploadFile.is_open = true ∧
    (handleMessage sampleEnv (uploadAll (handleMessage sampleEnv sampleAuthenticated
      MSG_UPLOAD_REQUEST uploadRequestA).2 [(sampleEnv, [7])])
      MSG_UPLOAD_COMPLETE []).2.fileManager.openForReading
        (deserializeString (vectorData uploadRequestA sampleEnv.beyond) uploadRequestA.length
          [] 0).str = some (IfStream.regular [7]) :=
  have hall := upload_visible_before_complete sampleEnv sampleEnv sampleEnv
    sampleAuthenticated uploadRequestA sampleNameA [(sampleEnv, [7])]
    rfl rfl (by decide) (by decide) (by decide) (by decide) (by decide) (by decide)
    (by decide) (by decide) (by decide) (by decide) (fun _ => rfl) (by decide)
  ⟨hall.1, hall.2.2.2⟩

end VisibilityTheorems2

/-! ## Connection dispatcher: theorems -/

section DispatcherLemmas

open MultiThreadedServer

theorem mapAssign_length_le (m : List (Nat × ClientInfo)) (key : Nat) (value : ClientInfo) :
    (mapAssign m key value).length ≤ m.length + 1 := by
  induction m with
  | nil => simp [mapAssign]
  | cons e rest ih =>
    obtain ⟨k, v⟩ := e
    unfold mapAssign
    split_ifs
    · simp
    · simp
    · simp only [List.length_cons]
      omega

theorem cleanup_length_le (env : AcceptEnv) (s : MultiThreadedServer) :
    (cleanupFinishedClients env s).m_clients.length ≤ s.m_clients.length :=
  List.length_filter_le _ _

theorem castMaxClients_of_nonneg (maxClients : Int) (h0 : 0 ≤ maxClients)
    (hint : maxClients ≤ 2147483647) :
    (maxClients % (SIZE_MOD : Int)).toNat = maxClients.toNat := by
  simp only [SIZE_MOD]
  norm_num
  omega

theorem acceptIteration_rejects (env : AcceptEnv) (s : MultiThreadedServer) (socket : Nat)
    (hacc : env.accepted = some socket)
    (hfull : capacityReached (cleanupFinishedClients env s) = true) :
    acceptIteration env s =
      { cleanupFinishedClients env s with
        events := (cleanupFinishedClients env s).events ++ [ServerEvent.rejected socket] } := by
  unfold acceptIteration
  rw [hacc]
  dsimp only
  rw [if_pos hfull]

theorem acceptIteration_maxClients (env : AcceptEnv) (s : MultiThreadedServer) :
    (acceptIteration env s).m_maxClients = s.m_maxClients := by
  unfold acceptIteration
  cases env.accepted with
  | none => rfl
  | some socket =>
    dsimp only
    split_ifs <;> rfl

theorem acceptIteration_length_le (env : AcceptEnv) (s : MultiThreadedServer) (n : Nat)
    (hcast : (s.m_maxClients % (SIZE_MOD : Int)).toNat = n) (hle : s.m_clients.length ≤ n) :
    (acceptIteration env s).m_clients.length ≤ n := by
  unfold acceptIteration
  cases env.accepted with
  | none => exact hle
  | some socket =>
    dsimp only
    have hclean := cleanup_length_le env s
    by_cases hfull : capacityReached (cleanupFinishedClients env s) = true
    · rw [if_pos hfull]
      exact le_trans hclean hle
    · rw [if_neg hfull]
      have hlt : (cleanupFinishedClients env s).m_clients.length < n := by
        unfold capacityReached at hfull
        have hsame : (cleanupFinishedClients env s).m_maxClients = s.m_maxClients := rfl
        rw [hsame, hcast] at hfull
        simpa using hfull
      split_ifs
      · exact le_trans (mapAssign_length_le _ _ _) hlt
      · exact le_trans hclean hle

theorem run_length_le (envs : List AcceptEnv) :
    ∀ (s : MultiThreadedServer) (n : Nat),
      (s.m_maxClients % (SIZE_MOD : Int)).toNat = n → s.m_clients.length ≤ n →
      (run s envs).m_clients.length ≤ n := by
  induction envs with
  | nil => intro s n _ hle; exact hle
  | cons env rest ih =>
    intro s n hcast hle
    unfold run
    exact ih _ n (by rw [acceptIteration_maxClients]; exact hcast)
      (acceptIteration_length_le env s n hcast hle)

end DispatcherLemmas

section DispatcherTheorems

open MultiThreadedServer

/-- C23: with a maximum of `N >= 0` sessions (an `int`), the registry holds at most `N` entries
after every round of the accept loop, whatever the rounds bring. A connection accepted while
the registry, after the finished sessions have been cleaned up, already holds `N` entries (or
more) is closed and nothing else happens in that round: no handler is created, the next client
id stays, the only event after the cleanup is the closing of the new socket (no frame is sent),
and the registry is the cleaned-up registry, entry for entry. -/
theorem capacity_bound (maxClients : Int) (charIsSigned : Bool) (password : List Nat)
    (h0 : 0 ≤ maxClients) (hint : maxClients ≤ 2147483647) :
    (∀ envs : List AcceptEnv,
      (run (create maxClients charIsSigned password) envs).m_clients.length
        ≤ maxClients.toNat) ∧
    (∀ (s : MultiThreadedServer) (env : AcceptEnv) (socket : Nat),
      s.m_maxClients = maxClients → env.accepted = some socket →
      maxClients.toNat ≤ (cleanupFinishedClients env s).m_clients.length →
      acceptIteration env s =
        { cleanupFinishedClients env s with
          events := (cleanupFinishedClients env s).events ++ [ServerEvent.rejected socket] } ∧
      (acceptIteration env s).m_nextClientId = s.m_nextClientId ∧
      (acceptIteration env s).m_clients = s.m_clients.filter (fun e => env.isRunning e.1) ∧
      (acceptIteration env s).events = (cleanupFinishedClients env s).events ++
        [ServerEvent.rejected socket]) := by
  have hcast := castMaxClients_of_nonneg maxClients h0 hint
  refine ⟨fun envs => run_length_le envs _ _ hcast (Nat.zero_le _), ?_⟩
  intro s env socket hmax hacc hfull
  have hreached : capacityReached (cleanupFinishedClients env s) = true := by
    unfold capacityReached
    have hsame : (cleanupFinishedClients env s).m_maxClients = s.m_maxClients := rfl
    rw [hsame, hmax, hcast]
    simpa using hfull
  rw [acceptIteration_rejects env s socket hacc hreached]
  exact ⟨rfl, rfl, rfl, rfl⟩

/-- C23 at a concrete input: a maximum of 2 sessions and three connections in a row. -/
theorem capacity_bound_witness :
    (run (create 2 false (ascii "admin123"))
      [busyAccept 10, busyAccept 11, busyAccept 12]).m_clients.length ≤ (2 : Int).toNat ∧
    (run (create 2 false (ascii "admin123"))
      [busyAccept 10, busyAccept 11, busyAccept 12]).events =
      [ServerEvent.handlerCreated 1 10, ServerEvent.threadStarted 1,
        ServerEvent.handlerCreated 2 11, ServerEvent.threadStarted 2,
        ServerEvent.rejected 12] :=
  ⟨(capacity_bound 2 false (ascii "admin123") (by decide) (by decide)).1 _, by decide⟩

end DispatcherTheorems

section RegistryLemmas

open MultiThreadedServer

theorem mapAssign_keys (m : List (Nat × ClientInfo)) (key : Nat) (value : ClientInfo) :
    ∀ k ∈ (mapAssign m key value).map Prod.fst, k = key ∨ k ∈ m.map Prod.fst := by
  induction m with
  | nil =>
    intro k hk
    simp [mapAssign] at hk
    exact Or.inl hk
  | cons e rest ih =>
    obtain ⟨k1, v1⟩ := e
    intro k hk
    unfold mapAssign at hk
    split_ifs at hk with c1 c2
    · simp only [List.map_cons, List.mem_cons] at hk ⊢
      tauto
    · simp only [List.map_cons, List.mem_cons] at hk ⊢
      tauto
    · simp only [List.map_cons, List.mem_cons] at hk ⊢
      rcases hk with hk | hk
      · exact Or.inr (Or.inl hk)
      · rcases ih k hk with hk | hk
        · exact Or.inl hk
        · exact Or.inr (Or.inr hk)

theorem mapAssign_pairwise (m : List (Nat × ClientInfo)) (key : Nat) (value : ClientInfo)
    (hsorted : (m.map Prod.fst).Pairwise (· < ·)) :
    ((mapAssign m key value).map Prod.fst).Pairwise (· < ·) := by
  induction m with
  | nil => simp [mapAssign]
  | cons e rest ih =>
    obtain ⟨k1, v1⟩ := e
    simp only [List.map_cons, List.pairwise_cons] at hsorted
    obtain ⟨hhead, htail⟩ := hsorted
    unfold mapAssign
    split_ifs with c1 c2
    · simp only [List.map_cons, List.pairwise_cons, List.mem_cons]
      refine ⟨?_, hhead, htail⟩
      intro a ha
      rcases ha with rfl | ha
      · exact c1
      · exact lt_trans c1 (hhead a ha)
    · simp only [List.map_cons, List.pairwise_cons]
      subst c2
      exact ⟨hhead, htail⟩
    · simp only [List.map_cons, List.pairwise_cons]
      refine ⟨?_, ih htail⟩
      intro a ha
      rcases mapAssign_keys rest key value a ha with rfl | ha
      · omega
      · exact hhead a ha

theorem registryOrdered_assign (m : List (Nat × ClientInfo)) (key : Nat) (value : ClientInfo)
    (hm : RegistryOrdered m) (hkey : key < 4294967296) :
    RegistryOrdered (mapAssign m key value) := by
  refine ⟨mapAssign_pairwise m key value hm.1, ?_⟩
  intro k hk
  rcases mapAssign_keys m key value k hk with rfl | hk
  · exact hkey
  · exact hm.2 k hk

theorem registryOrdered_filter (m : List (Nat × ClientInfo)) (p : Nat × ClientInfo → Bool)
    (hm : RegistryOrdered m) : RegistryOrdered (m.filter p) := by
  have hsub : ((m.filter p).map Prod.fst).Sublist (m.map Prod.fst) :=
    (List.filter_sublist m).map Prod.fst
  exact ⟨hm.1.sublist hsub, fun k hk => hm.2 k (hsub.subset hk)⟩

theorem registryOrdered_length (m : List (Nat × ClientInfo)) (hm : RegistryOrdered m) :
    m.length ≤ 4294967296 := by
  have hnodup : (m.map Prod.fst).Nodup := hm.1.imp (fun h => Nat.ne_of_lt h)
  have hsubset : m.map Prod.fst ⊆ List.range 4294967296 :=
    fun k hk => List.mem_range.2 (hm.2 k hk)
  have := (List.subperm_of_subset hnodup hsubset).length_le
  simpa using this

theorem acceptIteration_ordered (env : AcceptEnv) (s : MultiThreadedServer)
    (hs : RegistryOrdered s.m_clients ∧ s.m_nextClientId < 4294967296) :
    RegistryOrdered (acceptIteration env s).m_clients ∧
      (acceptIteration env s).m_nextClientId < 4294967296 := by
  obtain ⟨hord, hnext⟩ := hs
  have hmod : ∀ n : Nat, n % U32_MOD < 4294967296 := fun n => Nat.mod_lt _ (by decide)
  unfold acceptIteration
  cases env.accepted with
  | none => exact ⟨hord, hnext⟩
  | some socket =>
    dsimp only
    have hclean : RegistryOrdered (cleanupFinishedClients env s).m_clients :=
      registryOrdered_filter _ _ hord
    split_ifs
    · exact ⟨hclean, hnext⟩
    · exact ⟨registryOrdered_assign _ _ _ hclean hnext, hmod _⟩
    · exact ⟨hclean, hmod _⟩

theorem run_ordered (envs : List AcceptEnv) :
    ∀ s : MultiThreadedServer,
      RegistryOrdered s.m_clients ∧ s.m_nextClientId < 4294967296 →
      RegistryOrdered (run s envs).m_clients ∧ (run s envs).m_nextClientId < 4294967296 := by
  induction envs with
  | nil => intro s hs; exact hs
  | cons env rest ih =>
    intro s hs
    unfold run
    exact ih _ (acceptIteration_ordered env s hs)

theorem run_maxClients (envs : List AcceptEnv) :
    ∀ s : MultiThreadedServer, (run s envs).m_maxClients = s.m_maxClients := by
  induction envs with
  | nil => intro s; rfl
  | cons env rest ih =>
    intro s
    unfold run
    rw [ih, acceptIteration_maxClients]

theorem create_ordered (maxClients : Int) (charIsSigned : Bool) (password : List Nat) :
    RegistryOrdered (create maxClients charIsSigned password).m_clients ∧
      (create maxClients charIsSigned password).m_nextClientId < 4294967296 :=
  ⟨⟨List.Pairwise.nil, fun k hk => by simp [create] at hk⟩,
    show (1 : Nat) < 4294967296 by decide⟩

theorem capacityReached_negative (s : MultiThreadedServer) (hneg : s.m_maxClients < 0)
    (hint : -2147483648 ≤ s.m_maxClients) (hord : RegistryOrdered s.m_clients) :
    capacityReached s = false := by
  have hlen := registryOrdered_length s.m_clients hord
  unfold capacityReached
  simp only [SIZE_MOD, decide_eq_false_iff_not, ge_iff_le, not_le]
  norm_num
  omega

end RegistryLemmas

section EdgeLemmas

open MultiThreadedServer

theorem acceptIteration_noRejection (env : AcceptEnv) (s : MultiThreadedServer)
    (hfree : ∀ socket, env.accepted = some socket →
      capacityReached (cleanupFinishedClients env s) = false)
    (hno : NoRejection s.events) : NoRejection (acceptIteration env s).events := by
  intro socket
  unfold acceptIteration
  cases hacc : env.accepted with
  | none =>
    dsimp only
    simp only [List.mem_append, List.mem_singleton, not_or]
    exact ⟨hno socket, by simp⟩
  | some clientSocket =>
    dsimp only
    rw [hfree clientSocket hacc]
    have hclean : ServerEvent.rejected socket ∉ (cleanupFinishedClients env s).events := by
      unfold cleanupFinishedClients
      simp only [List.mem_append, List.mem_map, not_or, not_exists, not_and]
      exact ⟨hno socket, fun e _ => by simp⟩
    rw [if_neg Bool.false_ne_true]
    by_cases hstart : env.threadStarts = true
    · rw [if_pos hstart]
      simp only [List.mem_append, List.mem_singleton, not_or]
      exact ⟨⟨hclean, by simp⟩, by simp⟩
    · rw [if_neg hstart]
      simp only [List.mem_append, List.mem_singleton, not_or]
      exact ⟨⟨hclean, by simp⟩, by simp⟩

theorem run_negative (envs : List AcceptEnv) :
    ∀ s : MultiThreadedServer, s.m_maxClients < 0 → -2147483648 ≤ s.m_maxClients →
      RegistryOrdered s.m_clients ∧ s.m_nextClientId < 4294967296 →
      NoRejection s.events → NoRejection (run s envs).events := by
  induction envs with
  | nil => intro s _ _ _ hno; exact hno
  | cons env rest ih =>
    intro s hneg hint hord hno
    unfold run
    have hclean : RegistryOrdered (cleanupFinishedClients env s).m_clients :=
      registryOrdered_filter _ _ hord.1
    exact ih _ (by rw [acceptIteration_maxClients]; exact hneg)
      (by rw [acceptIteration_maxClients]; exact hint)
      (acceptIteration_ordered env s hord)
      (acceptIteration_noRejection env s
        (fun _ _ => capacityReached_negative _ hneg hint hclean) hno)

end EdgeLemmas

section EdgeTheorems

open MultiThreadedServer

/-- C30: with the maximum session count set to 0, every accepted connection is rejected: the
round closes the new socket and does nothing else after the cleanup. With a negative maximum
(an `int`, as `atoi` can return), the conversion to `size_t` yields at least `2^64 - 2^31`,
which no registry reached by the accept loop attains, its keys being distinct `uint32_t`
values: in every round of every run the capacity test is false, a handler is created for the
accepted connection, and no connection is ever rejected for capacity. -/
theorem capacity_check_edges :
    (∀ (s : MultiThreadedServer) (env : AcceptEnv) (socket : Nat),
      s.m_maxClients = 0 → env.accepted = some socket →
      acceptIteration env s =
        { cleanupFinishedClients env s with
          events := (cleanupFinishedClients env s).events ++ [ServerEvent.rejected socket] }) ∧
    (∀ (maxClients : Int) (charIsSigned : Bool) (password : List Nat) (envs : List AcceptEnv),
      maxClients < 0 → -2147483648 ≤ maxClients →
      NoRejection (run (create maxClients charIsSigned password) envs).events ∧
      ∀ (env : AcceptEnv) (socket : Nat), env.accepted = some socket →
        capacityReached (cleanupFinishedClients env
          (run (create maxClients charIsSigned password) envs)) = false ∧
        ServerEvent.handlerCreated
          (run (create maxClients charIsSigned password) envs).m_nextClientId socket ∈
          (acceptIteration env (run (create maxClients charIsSigned password) envs)).events) := by
  constructor
  · intro s env socket hzero hacc
    apply acceptIteration_rejects env s socket hacc
    unfold capacityReached
    have hsame : (cleanupFinishedClients env s).m_maxClients = s.m_maxClients := rfl
    rw [hsame, hzero]
    simp [SIZE_MOD]
  · intro maxClients charIsSigned password envs hneg hint
    have hord := run_ordered envs _ (create_ordered maxClients charIsSigned password)
    have hmax := run_maxClients envs (create maxClients charIsSigned password)
    refine ⟨run_negative envs _ hneg hint (create_ordered maxClients charIsSigned password)
      (fun _ h => by simp [create] at h), ?_⟩
    intro env socket hacc
    generalize run (create maxClients charIsSigned password) envs = s at hord hmax ⊢
    have hmax2 : s.m_maxClients = maxClients := hmax
    have hfree : capacityReached (cleanupFinishedClients env s) = false :=
      capacityReached_negative _ (by rw [← hmax2] at hneg; exact hneg)
        (by rw [← hmax2] at hint; exact hint) (registryOrdered_filter _ _ hord.1)
    refine ⟨hfree, ?_⟩
    unfold acceptIteration
    rw [hacc]
    dsimp only
    rw [hfree, if_neg Bool.false_ne_true]
    have hsame : (cleanupFinishedClients env s).m_nextClientId = s.m_nextClientId := rfl
    by_cases hstart : env.threadStarts = true
    · rw [if_pos hstart]
      simp [hsame]
    · rw [if_neg hstart]
      simp [hsame]

/-- C30 at a concrete input: a maximum of -1 and three connections in a row. -/
theorem capacity_check_edges_witness :
    NoRejection (run (create (-1) false (ascii "admin123"))
      [busyAccept 10, busyAccept 11, busyAccept 12]).events ∧
    (run (create (-1) false (ascii "admin123"))
      [busyAccept 10, busyAccept 11, busyAccept 12]).m_clients.length = 3 ∧
    (run (create 0 false (ascii "admin123"))
      [busyAccept 10, busyAccept 11, busyAccept 12]).events =
      [ServerEvent.rejected 10, ServerEvent.rejected 11, ServerEvent.rejected 12] :=
  ⟨(capacity_check_edges.2 (-1) false (ascii "admin123") _ (by decide) (by decide)).1,
    by decide, by decide⟩

end EdgeTheorems

section VersionWitness

open ProtocolHelper ClientHandler

/-- C21, amended, at a concrete input: the header `46 53 02 03 00 00 00 00`. -/
theorem version_stored_not_checked_witness :
    (deserializeHeader (fun i => sampleVersionTwoHeader.getD i 0) 8 MessageHeader.default).ok
      = true ∧
    (deserializeHeader (fun i => sampleVersionTwoHeader.getD i 0) 8
      MessageHeader.default).header.version = sampleVersionTwoHeader.getD 2 0 :=
  version_stored_not_checked.1 (fun i => sampleVersionTwoHeader.getD i 0) 8
    MessageHeader.default (by decide) (by decide)

end VersionWitness
